import Mathlib

/-!
# secdec: integrand containers and the Qmc integrator dispatcher

A shallow embedding of

* `pySecDecContrib/util/secdecutil/integrand_container.hpp`
  (`ResultInfo`, `IntegrandContainer`, `IntegrandContainerWithParameters`), and
* `pySecDec/code_writer/templates/sum_package/pylink/pylink.cpp`
  (the `allocate_*_Qmc` functions),

followed by theorems about them.

Conventions of the embedding.

* A C++ exception is a value of `Exception`; a function that may throw returns `Except Exception _`.
* `std::shared_ptr<ResultInfo>` is an address (`Nat`) into a `Heap` of `ResultInfo` records;
  the heap is passed explicitly.  A function receiving a `ResultInfo*` receives the pointee and
  returns its new contents.
* C++ `int`, `long long` are `Int`, `unsigned long long` is `Nat`: the code only copies and
  compares these numbers, it does no arithmetic on them.
* The evaluation model is sequential: one call of `fill_if_empty_threadsafe` is one atomic step.
-/

namespace secdecutil

/-! ## Definitions: `integrand_container.hpp` -/

/-- Exceptions thrown by the embedded code, each with its `what()` message. -/
inductive Exception where
  | sign_check_error (what : String)
  | invalid_argument (what : String)
  deriving DecidableEq, Repr

/-- Rendering of `std::to_string` on an `int`: decimal digits, with a leading minus sign for
negative numbers. -/
def to_string (n : Int) : String := toString n

/-- The enum `ResultInfo::ReturnValue`. -/
inductive ReturnValue where
  | no_error
  | sign_check_error_contour_deformation
  | sign_check_error_positive_polynomial
  deriving DecidableEq, Repr

/-- The struct `ResultInfo`: the latch `filled` (an `std::atomic<int>`), the recorded kind and
the recorded id. -/
structure ResultInfo where
  filled : Int
  return_value : ReturnValue
  signCheckId : Int
  deriving DecidableEq, Repr

namespace ResultInfo

/-- Method `ResultInfo::process_errors`: throws according to `return_value`. -/
def process_errors (self : ResultInfo) : Except Exception Unit :=
  if self.return_value = ReturnValue.sign_check_error_contour_deformation then
    Except.error (Exception.sign_check_error
      ("\"contour deformation polynomial\", signCheckId=" ++ to_string self.signCheckId))
  else if self.return_value = ReturnValue.sign_check_error_positive_polynomial then
    Except.error (Exception.sign_check_error
      ("\"positive polynomial\", signCheckId=" ++ to_string self.signCheckId))
  else
    Except.ok ()

/-- Method `ResultInfo::clear_errors`. -/
def clear_errors (self : ResultInfo) : ResultInfo :=
  { self with return_value := ReturnValue.no_error, filled := 0 }

/-- Method `ResultInfo::fill_if_empty_threadsafe`: the compare-and-swap on `filled`
(expected 0, desired 1) succeeds exactly when `filled` is 0, and only then the two payload
fields are copied from `result_info_new`. -/
def fill_if_empty_threadsafe (self : ResultInfo) (result_info_new : ResultInfo) : ResultInfo :=
  if self.filled = 0 then
    { filled := 1
      return_value := result_info_new.return_value
      signCheckId := result_info_new.signCheckId }
  else
    self

/-- The contents of a `ResultInfo` right after allocation: the anonymous mapping made by `mmap`
is zero-filled, so `filled` is 0, `return_value` is the first enumerator and `signCheckId` is 0. -/
def zeroed : ResultInfo :=
  { filled := 0, return_value := ReturnValue.no_error, signCheckId := 0 }

/-- One call by the user of the slot: either a report or a reset. -/
inductive Call where
  | fill_if_empty_threadsafe (result_info_new : ResultInfo)
  | clear_errors
  deriving DecidableEq, Repr

/-- Effect of one call on the slot. -/
def step (self : ResultInfo) : Call → ResultInfo
  | Call.fill_if_empty_threadsafe r => self.fill_if_empty_threadsafe r
  | Call.clear_errors => self.clear_errors

/-- Effect of a sequence of calls, applied one after another. -/
def run (self : ResultInfo) (calls : List Call) : ResultInfo :=
  calls.foldl step self

/-- Effect of a sequence of reports, applied one after another. -/
def fill_all (self : ResultInfo) (reports : List ResultInfo) : ResultInfo :=
  reports.foldl fill_if_empty_threadsafe self

/-- What holds of every state reached from an empty slot: the slot is either empty with no kind
stored, or written. -/
def Reached (s : ResultInfo) : Prop :=
  (s.filled = 0 ∧ s.return_value = ReturnValue.no_error) ∨ s.filled = 1

/-- What holds of every state reached from an empty slot when no report carries the kind
`no_error`: the latch is written exactly when a sign-check error kind is stored. -/
def ReachedGenuine (s : ResultInfo) : Prop :=
  (s.filled = 0 ∧ s.return_value = ReturnValue.no_error)
    ∨ (s.filled = 1 ∧ s.return_value ≠ ReturnValue.no_error)

/-- A call that is a reset or a report of a sign-check error kind. -/
def Call.Genuine : Call → Prop
  | Call.fill_if_empty_threadsafe r => r.return_value ≠ ReturnValue.no_error
  | Call.clear_errors => True

end ResultInfo

/-! ### Concurrent calls of `fill_if_empty_threadsafe`

Several threads call `fill_if_empty_threadsafe` on one record at the same time.  The body of the
function is three steps: the compare-and-swap on `filled`, which is atomic, and, for the thread
whose compare-and-swap succeeded, the two plain stores to `return_value` and to `signCheckId`.
An execution is an interleaving of the steps of the threads, given as the list of the thread
indices in the order in which they take a step. -/

/-- Where a thread stands in the body of `fill_if_empty_threadsafe`. -/
inductive ProgramCounter where
  | compare_exchange
  | store_return_value
  | store_signCheckId
  | returned
  deriving DecidableEq, Repr

/-- The shared record and the position of every thread. -/
structure ConcurrentState where
  slot : ResultInfo
  pc : Nat → ProgramCounter

namespace ConcurrentState

/-- All threads are about to call `fill_if_empty_threadsafe` on the record `slot`. -/
def init (slot : ResultInfo) : ConcurrentState :=
  { slot := slot, pc := fun _ => ProgramCounter.compare_exchange }

/-- One step of thread `i`, whose argument is `result_info_new i`, among `N` threads.
At `compare_exchange` the thread sets `filled` to 1 and goes on when `filled` is 0, and returns
otherwise; the next two steps store `return_value` and `signCheckId`; a thread that has
returned, or an index that is not a thread, does nothing. -/
def thread_step (N : Nat) (result_info_new : Nat → ResultInfo) (i : Nat)
    (s : ConcurrentState) : ConcurrentState :=
  if i < N then
    match s.pc i with
    | ProgramCounter.compare_exchange =>
        if s.slot.filled = 0 then
          { slot := { s.slot with filled := 1 }
            pc := Function.update s.pc i ProgramCounter.store_return_value }
        else
          { s with pc := Function.update s.pc i ProgramCounter.returned }
    | ProgramCounter.store_return_value =>
        { slot := { s.slot with return_value := (result_info_new i).return_value }
          pc := Function.update s.pc i ProgramCounter.store_signCheckId }
    | ProgramCounter.store_signCheckId =>
        { slot := { s.slot with signCheckId := (result_info_new i).signCheckId }
          pc := Function.update s.pc i ProgramCounter.returned }
    | ProgramCounter.returned => s
  else
    s

/-- The execution in which the threads take their steps in the order `schedule`. -/
def run (N : Nat) (result_info_new : Nat → ResultInfo) (schedule : List Nat)
    (s : ConcurrentState) : ConcurrentState :=
  schedule.foldl (fun s i => thread_step N result_info_new i s) s

/-- What holds at every point of an execution that starts with an empty record: either no
thread has passed the compare-and-swap, or exactly one thread `w` has, the others have not
started or have returned, and the record holds what `w` has stored so far. -/
def Invariant (N : Nat) (result_info_new : Nat → ResultInfo) (s : ConcurrentState) : Prop :=
  (s.slot.filled = 0 ∧ ∀ i, s.pc i = ProgramCounter.compare_exchange)
    ∨ ∃ w, w < N ∧ s.slot.filled = 1
        ∧ s.pc w ≠ ProgramCounter.compare_exchange
        ∧ (∀ i, i ≠ w →
            s.pc i = ProgramCounter.compare_exchange ∨ s.pc i = ProgramCounter.returned)
        ∧ (s.pc w = ProgramCounter.store_signCheckId →
            s.slot.return_value = (result_info_new w).return_value)
        ∧ (s.pc w = ProgramCounter.returned →
            s.slot.return_value = (result_info_new w).return_value
              ∧ s.slot.signCheckId = (result_info_new w).signCheckId)

end ConcurrentState

/-- The memory in which the `ResultInfo` records live.  `slots p` is the record at address `p`;
the addresses below `next` are the ones handed out so far. -/
structure Heap where
  slots : Nat → ResultInfo
  next : Nat

namespace Heap

/-- A heap in which nothing has been allocated yet. -/
def empty : Heap := { slots := fun _ => ResultInfo.zeroed, next := 0 }

/-- Dereference of a `ResultInfo*`. -/
def read (h : Heap) (p : Nat) : ResultInfo := h.slots p

/-- Store through a `ResultInfo*`. -/
def write (h : Heap) (p : Nat) (r : ResultInfo) : Heap :=
  { h with slots := Function.update h.slots p r }

/-- The allocation `mmap(NULL, sizeof(ResultInfo), ..., MAP_SHARED | MAP_ANONYMOUS, -1, 0)`:
a fresh, zero-filled record at an address not handed out before. -/
def mmap (h : Heap) : Nat × Heap :=
  (h.next, { slots := Function.update h.slots h.next ResultInfo.zeroed, next := h.next + 1 })

end Heap

/-- The private enum `IntegrandContainer::Operation`. -/
inductive Operation where
  | add
  | subtract
  | multiply
  | divide
  deriving DecidableEq, Repr

/-- The class `IntegrandContainer<T, Args...>`.  `Args` stands for the whole argument pack.
`integrand` is the `std::function<T(Args..., ResultInfo*)>`: it receives the arguments and the
record its pointer argument points to, and returns its value and the new contents of that record.
`result_info` is the `std::shared_ptr<ResultInfo>`, an address in the heap. -/
structure IntegrandContainer (T Args : Type) where
  number_of_integration_variables : Int
  integrand : Args → ResultInfo → T × ResultInfo
  result_info : Nat
  display_name : String

namespace IntegrandContainer

variable {T Args : Type}

/-- The call operator `operator()(Args... x)`: `integrand(x..., result_info.get())`. -/
def call (self : IntegrandContainer T Args) (x : Args) (h : Heap) : T × Heap :=
  let r := self.integrand x (h.read self.result_info)
  (r.1, h.write self.result_info r.2)

/-- The constructor `IntegrandContainer(number_of_integration_variables, integrand)`: it stores
its two arguments and allocates a record of its own with `mmap`. -/
def new (number_of_integration_variables : Int) (integrand : Args → ResultInfo → T × ResultInfo)
    (h : Heap) : IntegrandContainer T Args × Heap :=
  let m := h.mmap
  ({ number_of_integration_variables := number_of_integration_variables
     integrand := integrand
     result_info := m.1
     display_name := "INTEGRAND" }, m.2)

/-- The default constructor (the "zero-integrand"): no integration variables, the integrand
returns `T()` and does not touch the record. -/
def new_default [Zero T] (h : Heap) : IntegrandContainer T Args × Heap :=
  let m := h.mmap
  ({ number_of_integration_variables := 0
     integrand := fun _ result_info => (0, result_info)
     result_info := m.1
     display_name := "INTEGRAND" }, m.2)

/-- Method `IntegrandContainer::process_errors`. -/
def process_errors (self : IntegrandContainer T Args) (h : Heap) : Except Exception Unit :=
  (h.read self.result_info).process_errors

/-- Method `IntegrandContainer::clear_errors`. -/
def clear_errors (self : IntegrandContainer T Args) (h : Heap) : Heap :=
  h.write self.result_info (h.read self.result_info).clear_errors

/-- The two operand calls `ic1.integrand(x..., result_info)` and
`ic2.integrand(x..., result_info)` of a binary expression, both on the same record.  C++ leaves
open which operand of `+ - * /` is evaluated first; `lhs_first` says which one is.  The result is
the value of `ic1`, the value of `ic2` and the record after both calls. -/
def eval_operands (lhs_first : Bool) (ic1 ic2 : IntegrandContainer T Args) (x : Args)
    (result_info : ResultInfo) : T × T × ResultInfo :=
  if lhs_first then
    let a := ic1.integrand x result_info
    let b := ic2.integrand x a.2
    (a.1, b.1, b.2)
  else
    let b := ic2.integrand x result_info
    let a := ic1.integrand x b.2
    (a.1, b.1, a.2)

/-- The helper `add_subtract_multiply_or_divide<operation>(ic1, ic2)`. -/
def add_subtract_multiply_or_divide [Add T] [Sub T] [Mul T] [Div T] (operation : Operation)
    (lhs_first : Bool) (ic1 ic2 : IntegrandContainer T Args) (h : Heap) :
    IntegrandContainer T Args × Heap :=
  let number_of_integration_variables :=
    max ic1.number_of_integration_variables ic2.number_of_integration_variables
  let integrand : Args → ResultInfo → T × ResultInfo :=
    match operation with
    | Operation.add => fun x result_info =>
        let r := eval_operands lhs_first ic1 ic2 x result_info
        (r.1 + r.2.1, r.2.2)
    | Operation.subtract => fun x result_info =>
        let r := eval_operands lhs_first ic1 ic2 x result_info
        (r.1 - r.2.1, r.2.2)
    | Operation.multiply => fun x result_info =>
        let r := eval_operands lhs_first ic1 ic2 x result_info
        (r.1 * r.2.1, r.2.2)
    | Operation.divide => fun x result_info =>
        let r := eval_operands lhs_first ic1 ic2 x result_info
        (r.1 / r.2.1, r.2.2)
  new number_of_integration_variables integrand h

/-- The binary `operator-`. -/
def operator_subtract [Add T] [Sub T] [Mul T] [Div T] (lhs_first : Bool)
    (ic1 ic2 : IntegrandContainer T Args) (h : Heap) : IntegrandContainer T Args × Heap :=
  add_subtract_multiply_or_divide Operation.subtract lhs_first ic1 ic2 h

/-- The binary `operator+`. -/
def operator_add [Add T] [Sub T] [Mul T] [Div T] (lhs_first : Bool)
    (ic1 ic2 : IntegrandContainer T Args) (h : Heap) : IntegrandContainer T Args × Heap :=
  add_subtract_multiply_or_divide Operation.add lhs_first ic1 ic2 h

/-- The binary `operator*`. -/
def operator_multiply [Add T] [Sub T] [Mul T] [Div T] (lhs_first : Bool)
    (ic1 ic2 : IntegrandContainer T Args) (h : Heap) : IntegrandContainer T Args × Heap :=
  add_subtract_multiply_or_divide Operation.multiply lhs_first ic1 ic2 h

/-- The binary `operator/`. -/
def operator_divide [Add T] [Sub T] [Mul T] [Div T] (lhs_first : Bool)
    (ic1 ic2 : IntegrandContainer T Args) (h : Heap) : IntegrandContainer T Args × Heap :=
  add_subtract_multiply_or_divide Operation.divide lhs_first ic1 ic2 h

/-- The binary operator written `+`, `-`, `*` or `/`, selected by `op`. -/
def binary_operator [Add T] [Sub T] [Mul T] [Div T] (op : Operation) (lhs_first : Bool)
    (ic1 ic2 : IntegrandContainer T Args) (h : Heap) : IntegrandContainer T Args × Heap :=
  match op with
  | Operation.add => operator_add lhs_first ic1 ic2 h
  | Operation.subtract => operator_subtract lhs_first ic1 ic2 h
  | Operation.multiply => operator_multiply lhs_first ic1 ic2 h
  | Operation.divide => operator_divide lhs_first ic1 ic2 h

/-- The compound assignment `operator-=`: `*this = *this - ic1; return *this;`.  The result is
the new value of `*this`. -/
def operator_subtract_assign [Add T] [Sub T] [Mul T] [Div T] (lhs_first : Bool)
    (self ic1 : IntegrandContainer T Args) (h : Heap) : IntegrandContainer T Args × Heap :=
  operator_subtract lhs_first self ic1 h

/-- The compound assignment `operator+=`: `*this = *this + ic1; return *this;`.  The result is
the new value of `*this`. -/
def operator_add_assign [Add T] [Sub T] [Mul T] [Div T] (lhs_first : Bool)
    (self ic1 : IntegrandContainer T Args) (h : Heap) : IntegrandContainer T Args × Heap :=
  operator_add lhs_first self ic1 h

/-- The compound assignment `operator*=`: `*this = *this * ic1; return *this;`.  The result is
the new value of `*this`. -/
def operator_multiply_assign [Add T] [Sub T] [Mul T] [Div T] (lhs_first : Bool)
    (self ic1 : IntegrandContainer T Args) (h : Heap) : IntegrandContainer T Args × Heap :=
  operator_multiply lhs_first self ic1 h

/-- The compound assignment `operator/=`: `*this = *this / ic1; return *this;`.  The result is
the new value of `*this`. -/
def operator_divide_assign [Add T] [Sub T] [Mul T] [Div T] (lhs_first : Bool)
    (self ic1 : IntegrandContainer T Args) (h : Heap) : IntegrandContainer T Args × Heap :=
  operator_divide lhs_first self ic1 h

/-- The compound assignment written `+=`, `-=`, `*=` or `/=`, selected by `op`. -/
def compound_assignment [Add T] [Sub T] [Mul T] [Div T] (op : Operation) (lhs_first : Bool)
    (self ic1 : IntegrandContainer T Args) (h : Heap) : IntegrandContainer T Args × Heap :=
  match op with
  | Operation.add => operator_add_assign lhs_first self ic1 h
  | Operation.subtract => operator_subtract_assign lhs_first self ic1 h
  | Operation.multiply => operator_multiply_assign lhs_first self ic1 h
  | Operation.divide => operator_divide_assign lhs_first self ic1 h

/-- The copy constructor, which the class leaves to the compiler: a member-wise copy.  The copy
of the `std::shared_ptr` member points to the same record. -/
def copy (other : IntegrandContainer T Args) : IntegrandContainer T Args :=
  { number_of_integration_variables := other.number_of_integration_variables
    integrand := other.integrand
    result_info := other.result_info
    display_name := other.display_name }

/-- The unary `operator+`: `return *this;`, which returns a copy of the object. -/
def operator_unary_plus (self : IntegrandContainer T Args) : IntegrandContainer T Args :=
  copy self

/-- The unary `operator-`: the constructor applied to the dimension of the object and to the
closure `[this] (Args... x, ResultInfo* result_info) { return - integrand(x..., result_info); }`.
The dimension is read from the object `self` when `-A` is formed.  The closure holds the pointer
`this`, not a copy of the object: at a call it reads the member `integrand` of the object that
is behind `this` then, which is `this_at_call`.  For an operand that is alive and has not been
assigned to, `this_at_call` is `self`; after an assignment to the operand (`A = B`, `A += B`)
it is the assigned value.  After the operand has been destroyed (a temporary as in `-(A + B)`,
a local of a function that returns `-A`) the pointer dangles and a call has undefined
behaviour, which no value of `this_at_call` describes. -/
def operator_unary_minus [Neg T] (self this_at_call : IntegrandContainer T Args) (h : Heap) :
    IntegrandContainer T Args × Heap :=
  new self.number_of_integration_variables
    (fun x result_info =>
      let r := this_at_call.integrand x result_info
      (- r.1, r.2)) h

/-- Summation of a list of integrands: starting from the default-constructed integrand, every
integrand of the list is added with `+=`, in list order
(`IntegrandContainer sum; for (const auto& A : L) sum += A;`). -/
def accumulate [Zero T] [Add T] [Sub T] [Mul T] [Div T] (lhs_first : Bool)
    (L : List (IntegrandContainer T Args)) (h : Heap) : IntegrandContainer T Args × Heap :=
  L.foldl (fun acc A => operator_add_assign lhs_first acc.1 A acc.2) (new_default h)

/-- The arithmetic of the value type `T` named by an `Operation`. -/
def arith [Add T] [Sub T] [Mul T] [Div T] : Operation → T → T → T
  | Operation.add, a, b => a + b
  | Operation.subtract, a, b => a - b
  | Operation.multiply, a, b => a * b
  | Operation.divide, a, b => a / b

/-- The invariant the specification puts on an integrand: the value is a function of the
arguments alone, it does not depend on the contents of the record it is handed. -/
def PureValue (self : IntegrandContainer T Args) : Prop :=
  ∀ (x : Args) (r1 r2 : ResultInfo), (self.integrand x r1).1 = (self.integrand x r2).1

/-- A primitive evaluation function: at `x` it computes the value `f x` and files the reports
`reports x`, in this order, through `fill_if_empty_threadsafe` on the record it is handed. -/
def primitive (f : Args → T) (reports : Args → List ResultInfo) :
    Args → ResultInfo → T × ResultInfo :=
  fun x result_info => (f x, result_info.fill_all (reports x))

end IntegrandContainer

/-- A complex number type `complex_template<T>` (`std::complex<T>`, `thrust::complex<T>`), as far
as the code uses it: a value with the member functions `real()` and `imag()`. -/
structure complex_template (T : Type) where
  real : T
  imag : T

namespace complex_to_real

variable {T Args : Type}

/-- The function `complex_to_real::real` for `IntegrandContainer`, the instance of
`COMPLEX_INTEGRAND_CONTAINER_TO_REAL(real)`: the constructor applied to the dimension of `ic` and
to the closure that calls `ic.integrand` on the record it is handed and takes `.real()`. -/
def real (ic : IntegrandContainer (complex_template T) Args) (h : Heap) :
    IntegrandContainer T Args × Heap :=
  let new_integrand : Args → ResultInfo → T × ResultInfo := fun integration_variables result_info =>
    let r := ic.integrand integration_variables result_info
    (r.1.real, r.2)
  IntegrandContainer.new ic.number_of_integration_variables new_integrand h

/-- The function `complex_to_real::imag` for `IntegrandContainer`, the instance of
`COMPLEX_INTEGRAND_CONTAINER_TO_REAL(imag)`: the constructor applied to the dimension of `ic` and
to the closure that calls `ic.integrand` on the record it is handed and takes `.imag()`. -/
def imag (ic : IntegrandContainer (complex_template T) Args) (h : Heap) :
    IntegrandContainer T Args × Heap :=
  let new_integrand : Args → ResultInfo → T × ResultInfo := fun integration_variables result_info =>
    let r := ic.integrand integration_variables result_info
    (r.1.imag, r.2)
  IntegrandContainer.new ic.number_of_integration_variables new_integrand h

end complex_to_real

/-- An expression built at run time: primitive integrands combined with the binary operators.
Every inner node records the operator and which operand its closure evaluates first. -/
inductive Expression (T Args : Type) where
  | leaf (number_of_integration_variables : Int) (f : Args → T)
      (reports : Args → List ResultInfo)
  | node (op : Operation) (lhs_first : Bool) (lhs rhs : Expression T Args)

namespace Expression

variable {T Args : Type}

/-- Construction of the container of an expression: every leaf through the constructor, every
inner node through the binary operator applied to the containers of its two operands. -/
def build [Add T] [Sub T] [Mul T] [Div T] :
    Expression T Args → Heap → IntegrandContainer T Args × Heap
  | leaf n f reports, h => IntegrandContainer.new n (IntegrandContainer.primitive f reports) h
  | node op lhs_first lhs rhs, h =>
      let a := build lhs h
      let b := build rhs a.2
      IntegrandContainer.binary_operator op lhs_first a.1 b.1 b.2

/-- The reports filed by the leaves during one evaluation at `x`, in the order in which the
leaves are run. -/
def reports : Expression T Args → Args → List ResultInfo
  | leaf _ _ reports, x => reports x
  | node _ lhs_first lhs rhs, x =>
      if lhs_first then lhs.reports x ++ rhs.reports x else rhs.reports x ++ lhs.reports x

/-- The value of an expression at `x` in the arithmetic of `T`. -/
def value [Add T] [Sub T] [Mul T] [Div T] : Expression T Args → Args → T
  | leaf _ f _, x => f x
  | node op _ lhs rhs, x => IntegrandContainer.arith op (lhs.value x) (rhs.value x)

end Expression

/-- The struct `IntegrandContainerWithParameters<T, Args, Pars, Pars_extra>`.

* `number_of_integration_variables` and `display_name` are the members inherited from
  `IntegrandContainer<T, Args>`; `base_result_info` is the inherited member
  `IntegrandContainer<T, Args>::result_info`, which the member `result_info` declared in the
  struct hides.  The inherited member `integrand` is left out: no member function used below
  reads it.
* `integrand_with_parameters` is the `std::function<T(Args, Pars*, ResultInfo*)>`.  It receives
  the pointer to a record and the memory, and returns its value and the memory it leaves.  The
  `Pars*` argument is `none` for `nullptr` and `some v` for `v.data()`; the parameters are only
  read.
* `parameters_ptr[k][i]` is the address of `parameters[k][i]` of this object, written as the
  pair `(k, i)`.

Of the constructors of the struct, the one from a dimension and a function without parameters
is embedded.  The constructor from a dimension, a function and parameter vectors hands the base
class constructor, whose parameter is a `std::function<T(Args, ResultInfo*)>`, the closure
`[this](Args x){...}` of one parameter, which does not convert to it; the copy constructor and
the converting copy constructor delegate to that constructor, and the binary operators copy
their operands.  None of these has an instance, so none of them is given a run-time meaning
here.  The members of the struct are public: a program sets `parameters`,
`integrand_with_parameters` and the others by assignment. -/
structure IntegrandContainerWithParameters (T Args Pars Pars_extra : Type) where
  number_of_integration_variables : Int
  base_result_info : Nat
  display_name : String
  parameters : List (List Pars)
  parameters_ptr : List (List (Nat × Nat))
  extra_parameters : List (List Pars_extra)
  integrand_with_parameters : Args → Option (List Pars) → Nat → Heap → T × Heap
  result_info : Nat

namespace IntegrandContainerWithParameters

variable {T Args Pars Pars_extra : Type}

/-- The constructor `IntegrandContainerWithParameters(number_of_integration_variables,
integrand)` from a function without parameters: the base class is default-constructed (which
allocates the inherited record), `integrand_with_parameters` forwards to `integrand` and ignores
the parameter pointer, the parameter lists are empty, `result_info` is a new record
(`std::make_shared<ResultInfo>()`), and the body stores the dimension. -/
def new_from_integrand (number_of_integration_variables : Int)
    (integrand : Args → Nat → Heap → T × Heap) (h : Heap) :
    IntegrandContainerWithParameters T Args Pars Pars_extra × Heap :=
  let base := h.mmap
  let m := base.2.mmap
  ({ number_of_integration_variables := number_of_integration_variables
     base_result_info := base.1
     display_name := "INTEGRAND"
     parameters := []
     parameters_ptr := []
     extra_parameters := []
     integrand_with_parameters := fun x _ result_info => integrand x result_info
     result_info := m.1 }, m.2)

/-- The call operator `operator()(Args x)`: the parameter pointer is `parameters[0].data()`, or
`nullptr` when there is no parameter vector, and the record is the one behind `result_info`. -/
def call (self : IntegrandContainerWithParameters T Args Pars Pars_extra) (x : Args)
    (h : Heap) : T × Heap :=
  let dataptr := match self.parameters with
    | [] => none
    | p :: _ => some p
  self.integrand_with_parameters x dataptr self.result_info h

/-- Method `IntegrandContainerWithParameters::process_errors`: it checks the record behind the
member `result_info` of the struct. -/
def process_errors (self : IntegrandContainerWithParameters T Args Pars Pars_extra) (h : Heap) :
    Except Exception Unit :=
  (h.read self.result_info).process_errors

/-- Method `clear_errors`.  The struct declares none, so the call resolves to the inherited
`IntegrandContainer::clear_errors`, whose `result_info` is the inherited member. -/
def clear_errors (self : IntegrandContainerWithParameters T Args Pars Pars_extra) (h : Heap) :
    Heap :=
  h.write self.base_result_info (h.read self.base_result_info).clear_errors

/-- A primitive evaluation function with parameters: at `x` with parameter pointer `p` it
computes `f x p` and files the reports `reports x p`, in this order, through
`fill_if_empty_threadsafe` on the record it is handed. -/
def primitive (f : Args → Option (List Pars) → T)
    (reports : Args → Option (List Pars) → List ResultInfo) :
    Args → Option (List Pars) → Nat → Heap → T × Heap :=
  fun x p result_info h =>
    (f x p, h.write result_info ((h.read result_info).fill_all (reports x p)))

end IntegrandContainerWithParameters

end secdecutil

namespace secdecutil

/-! ### Concrete integrands used in the closed instances -/

namespace Example

/-- A heap after two allocations: the addresses 0 and 1 are taken. -/
def heap2 : Heap := (Heap.empty.mmap.2).mmap.2

/-- An integrand over 2 variables that returns the constant 3 and reports nothing; its record is
at address 0. -/
def three : IntegrandContainer ℚ (ℚ × ℚ) :=
  { number_of_integration_variables := 2
    integrand := IntegrandContainer.primitive (fun _ => 3) (fun _ => [])
    result_info := 0
    display_name := "INTEGRAND" }

/-- An integrand over 2 variables that returns the constant 4 and reports nothing; its record is
at address 1. -/
def four : IntegrandContainer ℚ (ℚ × ℚ) :=
  { number_of_integration_variables := 2
    integrand := IntegrandContainer.primitive (fun _ => 4) (fun _ => [])
    result_info := 1
    display_name := "INTEGRAND" }

/-- An integrand over 2 variables that returns the constant 4 and at every point reports a
contour deformation sign-check error with id 42; its record is at address 1. -/
def four_failing : IntegrandContainer ℚ (ℚ × ℚ) :=
  { number_of_integration_variables := 2
    integrand := IntegrandContainer.primitive (fun _ => 4)
      (fun _ => [{ filled := 0
                   return_value := ReturnValue.sign_check_error_contour_deformation
                   signCheckId := 42 }])
    result_info := 1
    display_name := "INTEGRAND" }

/-- The expression `P + Q`, respectively `Q + P`, of two primitive integrands over 2 variables,
arranged so that `P` is the operand evaluated first: `P` returns 3 and reports kind `no_error`
with id 5, `Q` returns 4 and reports a contour deformation sign-check error with id 42. -/
def masked_sum (lhs_first : Bool) : Expression ℚ (ℚ × ℚ) :=
  if lhs_first then
    Expression.node Operation.add true
      (Expression.leaf 2 (fun _ => 3)
        (fun _ => [{ filled := 0, return_value := ReturnValue.no_error, signCheckId := 5 }]))
      (Expression.leaf 2 (fun _ => 4)
        (fun _ => [{ filled := 0
                     return_value := ReturnValue.sign_check_error_contour_deformation
                     signCheckId := 42 }]))
  else
    Expression.node Operation.add false
      (Expression.leaf 2 (fun _ => 4)
        (fun _ => [{ filled := 0
                     return_value := ReturnValue.sign_check_error_contour_deformation
                     signCheckId := 42 }]))
      (Expression.leaf 2 (fun _ => 3)
        (fun _ => [{ filled := 0, return_value := ReturnValue.no_error, signCheckId := 5 }]))

/-- The expression `(P - Q) * P` (right operands evaluated first) of two primitive integrands
over 2 variables: `P` returns 3 and reports a positive polynomial sign-check error with id 7,
`Q` returns 4 and reports a contour deformation sign-check error with id 42. -/
def failing_product : Expression ℚ (ℚ × ℚ) :=
  Expression.node Operation.multiply false
    (Expression.node Operation.subtract false
      (Expression.leaf 2 (fun _ => 3)
        (fun _ => [{ filled := 0
                     return_value := ReturnValue.sign_check_error_positive_polynomial
                     signCheckId := 7 }]))
      (Expression.leaf 2 (fun _ => 4)
        (fun _ => [{ filled := 0
                     return_value := ReturnValue.sign_check_error_contour_deformation
                     signCheckId := 42 }])))
    (Expression.leaf 1 (fun _ => 3)
      (fun _ => [{ filled := 0
                   return_value := ReturnValue.sign_check_error_positive_polynomial
                   signCheckId := 7 }]))

/-- A complex-valued integrand over 2 variables that returns `3 + 4i` and at every point
reports a positive polynomial sign-check error with id 7; its record is at address 0. -/
def complex_failing : IntegrandContainer (complex_template ℚ) (ℚ × ℚ) :=
  { number_of_integration_variables := 2
    integrand := IntegrandContainer.primitive (fun _ => { real := 3, imag := 4 })
      (fun _ => [{ filled := 0
                   return_value := ReturnValue.sign_check_error_positive_polynomial
                   signCheckId := 7 }])
    result_info := 0
    display_name := "INTEGRAND" }

/-- A heap after one allocation: the address 0 is taken. -/
def heap1 : Heap := Heap.empty.mmap.2

/-- A heap after four allocations: the addresses 0, 1, 2 and 3 are taken. -/
def heap4 : Heap := (heap2.mmap.2).mmap.2

/-- A function of one argument and a parameter pointer: the first parameter times `x`, and `x`
itself when there is no first parameter. -/
def scaled : ℚ → Option (List ℚ) → ℚ := fun x p =>
  match p with
  | some (a :: _) => a * x
  | _ => x

/-- An evaluation function with parameters that returns `scaled x p` and at every point
reports a contour deformation sign-check error with id 42. -/
def scaled_failing : ℚ → Option (List ℚ) → Nat → Heap → ℚ × Heap :=
  IntegrandContainerWithParameters.primitive scaled
    (fun _ _ => [{ filled := 0
                   return_value := ReturnValue.sign_check_error_contour_deformation
                   signCheckId := 42 }])

/-- A function without parameters, a `std::function<T(Args, ResultInfo*)>`: it returns `x` and
at every point reports a contour deformation sign-check error with id 42. -/
def failing_integrand : ℚ → Nat → Heap → ℚ × Heap :=
  fun x result_info h => scaled_failing x none result_info h

/-- The object `P(1, failing_integrand)` that the constructor from a dimension and a function
makes in the empty heap: the inherited record is at address 0, the record `result_info` at
address 1. -/
def parameterized_failing : IntegrandContainerWithParameters ℚ ℚ ℚ ℚ :=
  (IntegrandContainerWithParameters.new_from_integrand 1 failing_integrand Heap.empty).1

/-- An integrand that depends on the first variable only (dimension 1): it returns the
constant 5 and reports nothing; its record is at address 1. -/
def five : IntegrandContainer ℚ (ℚ × ℚ) :=
  { number_of_integration_variables := 1
    integrand := IntegrandContainer.primitive (fun _ => 5) (fun _ => [])
    result_info := 1
    display_name := "INTEGRAND" }

end Example

end secdecutil

/-! ## Definitions: `pylink.cpp` -/

namespace pylink

open secdecutil

/-- The degrees for which `qmc_transform_t` has enumerators. -/
inductive Degree where
  | d1 | d2 | d3 | d4 | d5 | d6
  deriving DecidableEq, Repr

/-- The number a degree token stands for. -/
def Degree.toNat : Degree → Nat
  | Degree.d1 => 1
  | Degree.d2 => 2
  | Degree.d3 => 3
  | Degree.d4 => 4
  | Degree.d5 => 5
  | Degree.d6 => 6

/-- The enumerators of `enum qmc_transform_t : int`; `korobov a b` is `korobov<a>x<b>` and
`sidi d` is `sidi<d>`. -/
inductive qmc_transform_t where
  | no_transform
  | baker
  | korobov (a b : Degree)
  | sidi (d : Degree)
  deriving DecidableEq, Repr

/-- The values of the enumerators of `qmc_transform_t`. -/
def qmc_transform_t.toInt : qmc_transform_t → Int
  | no_transform => -1
  | baker => -2
  | korobov Degree.d1 Degree.d1 => 1
  | korobov Degree.d1 Degree.d2 => 2
  | korobov Degree.d1 Degree.d3 => 3
  | korobov Degree.d1 Degree.d4 => 4
  | korobov Degree.d1 Degree.d5 => 5
  | korobov Degree.d1 Degree.d6 => 6
  | korobov Degree.d2 Degree.d1 => 7
  | korobov Degree.d2 Degree.d2 => 8
  | korobov Degree.d2 Degree.d3 => 9
  | korobov Degree.d2 Degree.d4 => 10
  | korobov Degree.d2 Degree.d5 => 11
  | korobov Degree.d2 Degree.d6 => 12
  | korobov Degree.d3 Degree.d1 => 13
  | korobov Degree.d3 Degree.d2 => 14
  | korobov Degree.d3 Degree.d3 => 15
  | korobov Degree.d3 Degree.d4 => 16
  | korobov Degree.d3 Degree.d5 => 17
  | korobov Degree.d3 Degree.d6 => 18
  | korobov Degree.d4 Degree.d1 => 19
  | korobov Degree.d4 Degree.d2 => 20
  | korobov Degree.d4 Degree.d3 => 21
  | korobov Degree.d4 Degree.d4 => 22
  | korobov Degree.d4 Degree.d5 => 23
  | korobov Degree.d4 Degree.d6 => 24
  | korobov Degree.d5 Degree.d1 => 25
  | korobov Degree.d5 Degree.d2 => 26
  | korobov Degree.d5 Degree.d3 => 27
  | korobov Degree.d5 Degree.d4 => 28
  | korobov Degree.d5 Degree.d5 => 29
  | korobov Degree.d5 Degree.d6 => 30
  | korobov Degree.d6 Degree.d1 => 31
  | korobov Degree.d6 Degree.d2 => 32
  | korobov Degree.d6 Degree.d3 => 33
  | korobov Degree.d6 Degree.d4 => 34
  | korobov Degree.d6 Degree.d5 => 35
  | korobov Degree.d6 Degree.d6 => 36
  | sidi Degree.d1 => -11
  | sidi Degree.d2 => -12
  | sidi Degree.d3 => -13
  | sidi Degree.d4 => -14
  | sidi Degree.d5 => -15
  | sidi Degree.d6 => -16

/-- The enumerators of `enum qmc_fitfunction_t : int`. -/
inductive qmc_fitfunction_t where
  | default_fitfunction
  | no_fit
  | polysingular
  deriving DecidableEq, Repr

/-- The values of the enumerators of `qmc_fitfunction_t`. -/
def qmc_fitfunction_t.toInt : qmc_fitfunction_t → Int
  | default_fitfunction => 0
  | no_fit => -1
  | polysingular => 1

/-- The enumerators of `enum qmc_generatingvectors_t : int`. -/
inductive qmc_generatingvectors_t where
  | default_generatingvectors
  | cbcpt_dn1_100
  | cbcpt_dn2_6
  | cbcpt_cfftw1_6
  | cbcpt_cfftw2_10
  deriving DecidableEq, Repr

/-- The values of the enumerators of `qmc_generatingvectors_t`. -/
def qmc_generatingvectors_t.toInt : qmc_generatingvectors_t → Int
  | default_generatingvectors => 0
  | cbcpt_dn1_100 => 1
  | cbcpt_dn2_6 => 2
  | cbcpt_cfftw1_6 => 3
  | cbcpt_cfftw2_10 => 4

/-- The transform template arguments `::integrators::transforms::None::type`, `Baker::type`,
`Korobov<d1, d2>::type` and `Sidi<d>::type`. -/
inductive Transform where
  | None
  | Baker
  | Korobov (d1 d2 : Nat)
  | Sidi (d : Nat)
  deriving DecidableEq, Repr

/-- The fit function template argument: left out (the default `void_template`),
`::integrators::fitfunctions::None::type` or `::integrators::fitfunctions::PolySingular::type`. -/
inductive FitFunction where
  | void_template
  | None
  | PolySingular
  deriving DecidableEq, Repr

/-- The integrand type template argument. -/
inductive IntegrandType where
  | integrand_t
  | cuda_together_integrand_t
  | cuda_integrand_t
  deriving DecidableEq, Repr

/-- An object of a specialization `secdecutil::integrators::Qmc<...>`: its three template
arguments that vary, and the data members that `pylink.cpp` assigns.  `D` is `double`, `G` the
type of the generating vectors, `R` the random generator and `L` the logger.  `errormode` holds
the `int` underlying `::integrators::ErrorMode`; `devices` is the `std::set<int>`. -/
structure Qmc (D G R L : Type) where
  transform : Transform
  integrand_type : IntegrandType
  fitfunction : FitFunction
  epsrel : D
  epsabs : D
  maxeval : Nat
  errormode : Int
  evaluateminn : Nat
  minn : Nat
  minm : Nat
  maxnperpackage : Nat
  maxmperpackage : Nat
  cputhreads : Nat
  cudablocks : Nat
  cudathreadsperblock : Nat
  verbosity : Nat
  randomgenerator : R
  generatingvectors : G
  logger : L
  devices : Finset Int

/-- The parts of the Qmc library that `pylink.cpp` uses and that are not among the sources:
the comparison `x != 0` on `double`, the default-constructed object of each specialization,
`randomgenerator.seed`, the four generating vector tables and `std::cerr`. -/
structure QmcLibrary (D G R L : Type) where
  ne_zero : D → Bool
  default_constructed : Transform → IntegrandType → FitFunction → Qmc D G R L
  seed : R → Int → R
  cbcpt_dn1_100 : G
  cbcpt_dn2_6 : G
  cbcpt_cfftw1_6 : G
  cbcpt_cfftw2_10 : G
  cerr : L

/-- The parameter list `COMMON_ALLOCATE_QMC_ARGS`. -/
structure COMMON_ALLOCATE_QMC_ARGS (D : Type) where
  epsrel : D
  epsabs : D
  maxeval : Nat
  errormode : Int
  evaluateminn : Nat
  minn : Nat
  minm : Nat
  maxnperpackage : Nat
  maxmperpackage : Nat
  cputhreads : Nat
  cudablocks : Nat
  cudathreadsperblock : Nat
  verbosity : Nat
  seed : Int
  transform_id : Int
  fitfunction_id : Int
  generatingvectors_id : Int

/-- One line of the generated text `pylink_qmc_cases`. -/
inductive QmcCase where
  | CASE_KOROBOV_QMC (KOROBOVDEGREE1 KOROBOVDEGREE2 : Degree)
  | CASE_SIDI_QMC (SIDIDEGREE : Degree)
  deriving DecidableEq, Repr

/-- The enumerator that a generated line tests `transform_id` against:
`korobov##KOROBOVDEGREE1##x##KOROBOVDEGREE2`, respectively `sidi##SIDIDEGREE`. -/
def QmcCase.enumerator : QmcCase → qmc_transform_t
  | CASE_KOROBOV_QMC a b => qmc_transform_t.korobov a b
  | CASE_SIDI_QMC d => qmc_transform_t.sidi d

/-- The transform that an enumerator of `qmc_transform_t` names. -/
def qmc_transform_t.transform : qmc_transform_t → Transform
  | no_transform => Transform.None
  | baker => Transform.Baker
  | korobov a b => Transform.Korobov a.toNat b.toNat
  | sidi d => Transform.Sidi d.toNat

/-- The fit function that an enumerator of `qmc_fitfunction_t` names; `default_fitfunction`
names the default of the template parameter. -/
def qmc_fitfunction_t.fitfunction : qmc_fitfunction_t → FitFunction
  | default_fitfunction => FitFunction.void_template
  | no_fit => FitFunction.None
  | polysingular => FitFunction.PolySingular

/-- Whether an enumerator of `qmc_transform_t` belongs to a degree-parameterized family
(`korobov<a>x<b>` or `sidi<d>`). -/
def qmc_transform_t.degree_parameterized : qmc_transform_t → Bool
  | no_transform => false
  | baker => false
  | korobov _ _ => true
  | sidi _ => true

/-- The six degrees. -/
def Degree.all : List Degree :=
  [Degree.d1, Degree.d2, Degree.d3, Degree.d4, Degree.d5, Degree.d6]

/-- All enumerators of `qmc_transform_t`. -/
def qmc_transform_t.all : List qmc_transform_t :=
  [no_transform, baker]
    ++ (Degree.all.flatMap fun a => Degree.all.map fun b => korobov a b)
    ++ Degree.all.map sidi

/-- The enumerator of `qmc_transform_t` with the value `n`, if there is one. -/
def qmc_transform_t.ofInt (n : Int) : Option qmc_transform_t :=
  qmc_transform_t.all.find? fun t => decide (t.toInt = n)

/-- The transforms compiled into the dispatcher generated from the lines `pylink_qmc_cases`:
`no_transform`, `baker`, and the enumerator of every generated line. -/
def compiled_in (pylink_qmc_cases : List QmcCase) (t : qmc_transform_t) : Prop :=
  t = qmc_transform_t.no_transform ∨ t = qmc_transform_t.baker
    ∨ t ∈ pylink_qmc_cases.map QmcCase.enumerator

section

variable {D G R L : Type}

/-- The expression `new secdecutil::integrators::Qmc<..., transform, integrand type, fit function>`:
the default-constructed object of the named specialization. -/
def new_Qmc (lib : QmcLibrary D G R L) (transform : Transform) (integrand_type : IntegrandType)
    (fitfunction : FitFunction) : Qmc D G R L :=
  { lib.default_constructed transform integrand_type fitfunction with
    transform := transform
    integrand_type := integrand_type
    fitfunction := fitfunction }

/-- The statement `if ( epsrel != 0 ) integrator->epsrel = epsrel;`. -/
def set_epsrel (lib : QmcLibrary D G R L) (a : COMMON_ALLOCATE_QMC_ARGS D)
    (integrator : Qmc D G R L) : Qmc D G R L :=
  if lib.ne_zero a.epsrel = true then { integrator with epsrel := a.epsrel } else integrator

/-- The statement `if ( epsabs != 0 ) integrator->epsabs = epsabs;`. -/
def set_epsabs (lib : QmcLibrary D G R L) (a : COMMON_ALLOCATE_QMC_ARGS D)
    (integrator : Qmc D G R L) : Qmc D G R L :=
  if lib.ne_zero a.epsabs = true then { integrator with epsabs := a.epsabs } else integrator

/-- The statement `if ( maxeval != 0 ) integrator->maxeval = maxeval;`. -/
def set_maxeval (a : COMMON_ALLOCATE_QMC_ARGS D) (integrator : Qmc D G R L) :
    Qmc D G R L :=
  if a.maxeval ≠ 0 then { integrator with maxeval := a.maxeval } else integrator

/-- The statement `if ( errormode != 0 ) integrator->errormode = static_cast<::integrators::ErrorMode>(errormode);`. -/
def set_errormode (a : COMMON_ALLOCATE_QMC_ARGS D) (integrator : Qmc D G R L) :
    Qmc D G R L :=
  if a.errormode ≠ 0 then { integrator with errormode := a.errormode } else integrator

/-- The statement `if ( evaluateminn != 0 ) integrator->evaluateminn = evaluateminn;`. -/
def set_evaluateminn (a : COMMON_ALLOCATE_QMC_ARGS D) (integrator : Qmc D G R L) :
    Qmc D G R L :=
  if a.evaluateminn ≠ 0 then { integrator with evaluateminn := a.evaluateminn } else integrator

/-- The statement `if ( minn != 0 ) integrator->minn = minn;`. -/
def set_minn (a : COMMON_ALLOCATE_QMC_ARGS D) (integrator : Qmc D G R L) :
    Qmc D G R L :=
  if a.minn ≠ 0 then { integrator with minn := a.minn } else integrator

/-- The statement `if ( minm != 0 ) integrator->minm = minm;`. -/
def set_minm (a : COMMON_ALLOCATE_QMC_ARGS D) (integrator : Qmc D G R L) :
    Qmc D G R L :=
  if a.minm ≠ 0 then { integrator with minm := a.minm } else integrator

/-- The statement `if ( maxnperpackage != 0 ) integrator->maxnperpackage = maxnperpackage;`. -/
def set_maxnperpackage (a : COMMON_ALLOCATE_QMC_ARGS D) (integrator : Qmc D G R L) :
    Qmc D G R L :=
  if a.maxnperpackage ≠ 0 then { integrator with maxnperpackage := a.maxnperpackage } else integrator

/-- The statement `if ( maxmperpackage != 0 ) integrator->maxmperpackage = maxmperpackage;`. -/
def set_maxmperpackage (a : COMMON_ALLOCATE_QMC_ARGS D) (integrator : Qmc D G R L) :
    Qmc D G R L :=
  if a.maxmperpackage ≠ 0 then { integrator with maxmperpackage := a.maxmperpackage } else integrator

/-- The statement `if ( cputhreads != 0 ) integrator->cputhreads = cputhreads;`. -/
def set_cputhreads (a : COMMON_ALLOCATE_QMC_ARGS D) (integrator : Qmc D G R L) :
    Qmc D G R L :=
  if a.cputhreads ≠ 0 then { integrator with cputhreads := a.cputhreads } else integrator

/-- The statement `if ( cudablocks != 0 ) integrator->cudablocks = cudablocks;`. -/
def set_cudablocks (a : COMMON_ALLOCATE_QMC_ARGS D) (integrator : Qmc D G R L) :
    Qmc D G R L :=
  if a.cudablocks ≠ 0 then { integrator with cudablocks := a.cudablocks } else integrator

/-- The statement `if ( cudathreadsperblock != 0 ) integrator->cudathreadsperblock = cudathreadsperblock;`. -/
def set_cudathreadsperblock (a : COMMON_ALLOCATE_QMC_ARGS D) (integrator : Qmc D G R L) :
    Qmc D G R L :=
  if a.cudathreadsperblock ≠ 0 then { integrator with cudathreadsperblock := a.cudathreadsperblock } else integrator

/-- The statement `if ( verbosity != 0 ) integrator->verbosity = verbosity;`. -/
def set_verbosity (a : COMMON_ALLOCATE_QMC_ARGS D) (integrator : Qmc D G R L) :
    Qmc D G R L :=
  if a.verbosity ≠ 0 then { integrator with verbosity := a.verbosity } else integrator

/-- The statement `if ( seed != 0 ) integrator->randomgenerator.seed(seed);`. -/
def set_seed (lib : QmcLibrary D G R L) (a : COMMON_ALLOCATE_QMC_ARGS D)
    (integrator : Qmc D G R L) : Qmc D G R L :=
  if a.seed ≠ 0 then { integrator with randomgenerator := lib.seed integrator.randomgenerator a.seed } else integrator

/-- The statement `if ( generatingvectors_id == cbcpt_dn1_100 ) integrator->generatingvectors = ::integrators::generatingvectors::cbcpt_dn1_100();`. -/
def set_generatingvectors_cbcpt_dn1_100 (lib : QmcLibrary D G R L) (a : COMMON_ALLOCATE_QMC_ARGS D)
    (integrator : Qmc D G R L) : Qmc D G R L :=
  if a.generatingvectors_id = qmc_generatingvectors_t.cbcpt_dn1_100.toInt then { integrator with generatingvectors := lib.cbcpt_dn1_100 } else integrator

/-- The statement `if ( generatingvectors_id == cbcpt_dn2_6 ) integrator->generatingvectors = ::integrators::generatingvectors::cbcpt_dn2_6();`. -/
def set_generatingvectors_cbcpt_dn2_6 (lib : QmcLibrary D G R L) (a : COMMON_ALLOCATE_QMC_ARGS D)
    (integrator : Qmc D G R L) : Qmc D G R L :=
  if a.generatingvectors_id = qmc_generatingvectors_t.cbcpt_dn2_6.toInt then { integrator with generatingvectors := lib.cbcpt_dn2_6 } else integrator

/-- The statement `if ( generatingvectors_id == cbcpt_cfftw1_6 ) integrator->generatingvectors = ::integrators::generatingvectors::cbcpt_cfftw1_6();`. -/
def set_generatingvectors_cbcpt_cfftw1_6 (lib : QmcLibrary D G R L) (a : COMMON_ALLOCATE_QMC_ARGS D)
    (integrator : Qmc D G R L) : Qmc D G R L :=
  if a.generatingvectors_id = qmc_generatingvectors_t.cbcpt_cfftw1_6.toInt then { integrator with generatingvectors := lib.cbcpt_cfftw1_6 } else integrator

/-- The statement `if ( generatingvectors_id == cbcpt_cfftw2_10 ) integrator->generatingvectors = ::integrators::generatingvectors::cbcpt_cfftw2_10();`. -/
def set_generatingvectors_cbcpt_cfftw2_10 (lib : QmcLibrary D G R L) (a : COMMON_ALLOCATE_QMC_ARGS D)
    (integrator : Qmc D G R L) : Qmc D G R L :=
  if a.generatingvectors_id = qmc_generatingvectors_t.cbcpt_cfftw2_10.toInt then { integrator with generatingvectors := lib.cbcpt_cfftw2_10 } else integrator

/-- The statement `integrator->logger = std::cerr;`. -/
def set_logger (lib : QmcLibrary D G R L) (integrator : Qmc D G R L) : Qmc D G R L :=
  { integrator with logger := lib.cerr }

/-- The statements of `SET_COMMON_QMC_ARGS`, run in their textual order on `integrator`
("If an argument is set to 0 then use the default of the Qmc library"). -/
def SET_COMMON_QMC_ARGS (lib : QmcLibrary D G R L) (a : COMMON_ALLOCATE_QMC_ARGS D)
    (integrator : Qmc D G R L) : Qmc D G R L :=
  set_logger lib <|
  set_generatingvectors_cbcpt_cfftw2_10 lib a <|
  set_generatingvectors_cbcpt_cfftw1_6 lib a <|
  set_generatingvectors_cbcpt_dn2_6 lib a <|
  set_generatingvectors_cbcpt_dn1_100 lib a <|
  set_seed lib a <|
  set_verbosity a <|
  set_cudathreadsperblock a <|
  set_cudablocks a <|
  set_cputhreads a <|
  set_maxmperpackage a <|
  set_maxnperpackage a <|
  set_minm a <|
  set_minn a <|
  set_evaluateminn a <|
  set_errormode a <|
  set_maxeval a <|
  set_epsabs lib a <|
  set_epsrel lib a <|
  integrator

/-- The loop `for (int i = 0; i < number_of_devices; ++i) integrator->devices.insert( devices[i] );`
run on the set `s`. -/
def insert_devices (number_of_devices : Nat) (devices : Nat → Int) (s : Finset Int) : Finset Int :=
  (List.range number_of_devices).foldl (fun acc i => insert (devices i) acc) s

/-- The statements of `SET_QMC_ARGS_WITH_DEVICES_AND_RETURN`; the result is the returned object.
`devices` is the C array, read at the indices below `number_of_devices`. -/
def SET_QMC_ARGS_WITH_DEVICES_AND_RETURN (lib : QmcLibrary D G R L)
    (a : COMMON_ALLOCATE_QMC_ARGS D) (number_of_devices : Nat) (devices : Nat → Int)
    (integrator : Qmc D G R L) : Qmc D G R L :=
  let integrator := SET_COMMON_QMC_ARGS lib a integrator
  if number_of_devices > 0 then
    { integrator with devices := insert_devices number_of_devices devices ∅ }
  else
    integrator

/-- The statements of `SET_QMC_ARGS_AND_RETURN`; the result is the returned object. -/
def SET_QMC_ARGS_AND_RETURN (lib : QmcLibrary D G R L) (a : COMMON_ALLOCATE_QMC_ARGS D)
    (integrator : Qmc D G R L) : Qmc D G R L :=
  SET_COMMON_QMC_ARGS lib a integrator

/-- The message of the exception thrown for a `fitfunction_id` that matches no branch. -/
def unregistered_fitfunction_id (fitfunction_id : Int) : String :=
  "Trying to allocate \"secdecutil::Qmc\" with unregistered \"fitfunction_id\" ("
    ++ to_string fitfunction_id ++ ")."

/-- The message of the exception thrown for a `transform_id` that matches no branch. -/
def unregistered_transform_id (transform_id : Int) : String :=
  "Trying to allocate \"secdecutil::Qmc\" with unregistered \"transform_id\" ("
    ++ to_string transform_id
    ++ "). The transform you requested in the call to IntegralLibrary (transform=\x27...\x27) must match a transform requested in the generate script (pylink_qmc_transforms=[\x27...\x27]). You may wish to regenerate the library with pylink_qmc_transforms set."

/-- The four branches on `fitfunction_id` that every branch on `transform_id` consists of:
`new` of the specialization for `transform` and the selected fit function, followed by the
return statement, or the exception for an unregistered `fitfunction_id`. -/
def fitfunction_branches (lib : QmcLibrary D G R L) (transform : Transform)
    (QMC_INTEGRAND_TYPENAME : IntegrandType) (QMC_RETURN_STATEMENT : Qmc D G R L → Qmc D G R L)
    (fitfunction_id : Int) : Except Exception (Qmc D G R L) :=
  if fitfunction_id = qmc_fitfunction_t.default_fitfunction.toInt then
    let integrator := new_Qmc lib transform QMC_INTEGRAND_TYPENAME FitFunction.void_template
    Except.ok (QMC_RETURN_STATEMENT integrator)
  else if fitfunction_id = qmc_fitfunction_t.no_fit.toInt then
    let integrator := new_Qmc lib transform QMC_INTEGRAND_TYPENAME FitFunction.None
    Except.ok (QMC_RETURN_STATEMENT integrator)
  else if fitfunction_id = qmc_fitfunction_t.polysingular.toInt then
    let integrator := new_Qmc lib transform QMC_INTEGRAND_TYPENAME FitFunction.PolySingular
    Except.ok (QMC_RETURN_STATEMENT integrator)
  else
    Except.error (Exception.invalid_argument (unregistered_fitfunction_id fitfunction_id))

/-- The body that `CASE_KOROBOV_QMC(KOROBOVDEGREE1, KOROBOVDEGREE2)` puts under its test of
`transform_id`. -/
def CASE_KOROBOV_QMC (lib : QmcLibrary D G R L) (QMC_INTEGRAND_TYPENAME : IntegrandType)
    (QMC_RETURN_STATEMENT : Qmc D G R L → Qmc D G R L) (KOROBOVDEGREE1 KOROBOVDEGREE2 : Degree)
    (fitfunction_id : Int) : Except Exception (Qmc D G R L) :=
  fitfunction_branches lib (Transform.Korobov KOROBOVDEGREE1.toNat KOROBOVDEGREE2.toNat)
    QMC_INTEGRAND_TYPENAME QMC_RETURN_STATEMENT fitfunction_id

/-- The body that `CASE_SIDI_QMC(SIDIDEGREE)` puts under its test of `transform_id`. -/
def CASE_SIDI_QMC (lib : QmcLibrary D G R L) (QMC_INTEGRAND_TYPENAME : IntegrandType)
    (QMC_RETURN_STATEMENT : Qmc D G R L → Qmc D G R L) (SIDIDEGREE : Degree)
    (fitfunction_id : Int) : Except Exception (Qmc D G R L) :=
  fitfunction_branches lib (Transform.Sidi SIDIDEGREE.toNat)
    QMC_INTEGRAND_TYPENAME QMC_RETURN_STATEMENT fitfunction_id

/-- The `else if` chain that the generated lines `pylink_qmc_cases` expand to, closed by the
final `else` that throws for an unregistered `transform_id`. -/
def expand_pylink_qmc_cases (lib : QmcLibrary D G R L) (QMC_INTEGRAND_TYPENAME : IntegrandType)
    (QMC_RETURN_STATEMENT : Qmc D G R L → Qmc D G R L) (transform_id fitfunction_id : Int) :
    List QmcCase → Except Exception (Qmc D G R L)
  | [] => Except.error (Exception.invalid_argument (unregistered_transform_id transform_id))
  | QmcCase.CASE_KOROBOV_QMC k1 k2 :: rest =>
      if transform_id = (qmc_transform_t.korobov k1 k2).toInt then
        CASE_KOROBOV_QMC lib QMC_INTEGRAND_TYPENAME QMC_RETURN_STATEMENT k1 k2 fitfunction_id
      else
        expand_pylink_qmc_cases lib QMC_INTEGRAND_TYPENAME QMC_RETURN_STATEMENT
          transform_id fitfunction_id rest
  | QmcCase.CASE_SIDI_QMC k :: rest =>
      if transform_id = (qmc_transform_t.sidi k).toInt then
        CASE_SIDI_QMC lib QMC_INTEGRAND_TYPENAME QMC_RETURN_STATEMENT k fitfunction_id
      else
        expand_pylink_qmc_cases lib QMC_INTEGRAND_TYPENAME QMC_RETURN_STATEMENT
          transform_id fitfunction_id rest

/-- The rule for the tuning fields `epsrel`, `epsabs`, `maxeval`, `errormode`, `evaluateminn`,
`minn`, `minm`, `maxnperpackage`, `maxmperpackage`, `cputhreads`, `cudablocks`,
`cudathreadsperblock` and `verbosity`: each field of `q` equals the argument in `a` when that
argument is non-zero, and equals the field of `dflt` when the argument is 0. -/
def TuningFieldsApplied (lib : QmcLibrary D G R L) (a : COMMON_ALLOCATE_QMC_ARGS D)
    (dflt q : Qmc D G R L) : Prop :=
  (q.epsrel = if lib.ne_zero a.epsrel = true then a.epsrel else dflt.epsrel)
    ∧ (q.epsabs = if lib.ne_zero a.epsabs = true then a.epsabs else dflt.epsabs)
    ∧ (q.maxeval = if a.maxeval ≠ 0 then a.maxeval else dflt.maxeval)
    ∧ (q.errormode = if a.errormode ≠ 0 then a.errormode else dflt.errormode)
    ∧ (q.evaluateminn = if a.evaluateminn ≠ 0 then a.evaluateminn else dflt.evaluateminn)
    ∧ (q.minn = if a.minn ≠ 0 then a.minn else dflt.minn)
    ∧ (q.minm = if a.minm ≠ 0 then a.minm else dflt.minm)
    ∧ (q.maxnperpackage = if a.maxnperpackage ≠ 0 then a.maxnperpackage else dflt.maxnperpackage)
    ∧ (q.maxmperpackage = if a.maxmperpackage ≠ 0 then a.maxmperpackage else dflt.maxmperpackage)
    ∧ (q.cputhreads = if a.cputhreads ≠ 0 then a.cputhreads else dflt.cputhreads)
    ∧ (q.cudablocks = if a.cudablocks ≠ 0 then a.cudablocks else dflt.cudablocks)
    ∧ (q.cudathreadsperblock = if a.cudathreadsperblock ≠ 0 then a.cudathreadsperblock else dflt.cudathreadsperblock)
    ∧ (q.verbosity = if a.verbosity ≠ 0 then a.verbosity else dflt.verbosity)

/-- The function `allocate_cuda_integrators_Qmc_together` (compiled with `SECDEC_WITH_CUDA`). -/
def allocate_cuda_integrators_Qmc_together (lib : QmcLibrary D G R L)
    (pylink_qmc_cases : List QmcCase) (a : COMMON_ALLOCATE_QMC_ARGS D)
    (number_of_devices : Nat) (devices : Nat → Int) : Except Exception (Qmc D G R L) :=
  if a.transform_id = qmc_transform_t.no_transform.toInt then
    fitfunction_branches lib Transform.None IntegrandType.cuda_together_integrand_t
      (SET_QMC_ARGS_WITH_DEVICES_AND_RETURN lib a number_of_devices devices) a.fitfunction_id
  else if a.transform_id = qmc_transform_t.baker.toInt then
    fitfunction_branches lib Transform.Baker IntegrandType.cuda_together_integrand_t
      (SET_QMC_ARGS_WITH_DEVICES_AND_RETURN lib a number_of_devices devices) a.fitfunction_id
  else
    expand_pylink_qmc_cases lib IntegrandType.cuda_together_integrand_t
      (SET_QMC_ARGS_WITH_DEVICES_AND_RETURN lib a number_of_devices devices)
      a.transform_id a.fitfunction_id pylink_qmc_cases

/-- The function `allocate_cuda_integrators_Qmc_separate` (compiled with `SECDEC_WITH_CUDA`). -/
def allocate_cuda_integrators_Qmc_separate (lib : QmcLibrary D G R L)
    (pylink_qmc_cases : List QmcCase) (a : COMMON_ALLOCATE_QMC_ARGS D)
    (number_of_devices : Nat) (devices : Nat → Int) : Except Exception (Qmc D G R L) :=
  if a.transform_id = qmc_transform_t.no_transform.toInt then
    fitfunction_branches lib Transform.None IntegrandType.cuda_integrand_t
      (SET_QMC_ARGS_WITH_DEVICES_AND_RETURN lib a number_of_devices devices) a.fitfunction_id
  else if a.transform_id = qmc_transform_t.baker.toInt then
    fitfunction_branches lib Transform.Baker IntegrandType.cuda_integrand_t
      (SET_QMC_ARGS_WITH_DEVICES_AND_RETURN lib a number_of_devices devices) a.fitfunction_id
  else
    expand_pylink_qmc_cases lib IntegrandType.cuda_integrand_t
      (SET_QMC_ARGS_WITH_DEVICES_AND_RETURN lib a number_of_devices devices)
      a.transform_id a.fitfunction_id pylink_qmc_cases

/-- The function `allocate_integrators_Qmc` (compiled without `SECDEC_WITH_CUDA`). -/
def allocate_integrators_Qmc (lib : QmcLibrary D G R L) (pylink_qmc_cases : List QmcCase)
    (a : COMMON_ALLOCATE_QMC_ARGS D) : Except Exception (Qmc D G R L) :=
  if a.transform_id = qmc_transform_t.no_transform.toInt then
    fitfunction_branches lib Transform.None IntegrandType.integrand_t
      (SET_QMC_ARGS_AND_RETURN lib a) a.fitfunction_id
  else if a.transform_id = qmc_transform_t.baker.toInt then
    fitfunction_branches lib Transform.Baker IntegrandType.integrand_t
      (SET_QMC_ARGS_AND_RETURN lib a) a.fitfunction_id
  else
    expand_pylink_qmc_cases lib IntegrandType.integrand_t (SET_QMC_ARGS_AND_RETURN lib a)
      a.transform_id a.fitfunction_id pylink_qmc_cases

/-- Every tuning field of `a` is at the sentinel 0: `epsrel != 0` and `epsabs != 0` are false,
the integer tuning fields, `seed` and `generatingvectors_id` are 0. -/
def AllUnset (lib : QmcLibrary D G R L) (a : COMMON_ALLOCATE_QMC_ARGS D) : Prop :=
  lib.ne_zero a.epsrel = false
    ∧ lib.ne_zero a.epsabs = false
    ∧ a.maxeval = 0
    ∧ a.errormode = 0
    ∧ a.evaluateminn = 0
    ∧ a.minn = 0
    ∧ a.minm = 0
    ∧ a.maxnperpackage = 0
    ∧ a.maxmperpackage = 0
    ∧ a.cputhreads = 0
    ∧ a.cudablocks = 0
    ∧ a.cudathreadsperblock = 0
    ∧ a.verbosity = 0
    ∧ a.seed = 0
    ∧ a.generatingvectors_id = 0

end

/-! ### A concrete library and concrete arguments used in the closed instances -/

namespace Example

/-- A library instance: `double` is `ℚ` with `x != 0` as on the rationals, generating vectors
and loggers are named by strings, the random generator is the last seed it was given.  Every
default-constructed object has the same settings. -/
def lib : QmcLibrary ℚ String (Option Int) String :=
  { ne_zero := fun x => decide (x ≠ 0)
    default_constructed := fun transform integrand_type fitfunction =>
      { transform := transform
        integrand_type := integrand_type
        fitfunction := fitfunction
        epsrel := 1 / 100
        epsabs := 1 / 10000000
        maxeval := 1000000
        errormode := 1
        evaluateminn := 100000
        minn := 8191
        minm := 32
        maxnperpackage := 1
        maxmperpackage := 1024
        cputhreads := 8
        cudablocks := 1024
        cudathreadsperblock := 256
        verbosity := 0
        randomgenerator := none
        generatingvectors := "cbcpt_dn1_100"
        logger := "std::cout"
        devices := {-1, 0} }
    seed := fun _ seed => some seed
    cbcpt_dn1_100 := "cbcpt_dn1_100"
    cbcpt_dn2_6 := "cbcpt_dn2_6"
    cbcpt_cfftw1_6 := "cbcpt_cfftw1_6"
    cbcpt_cfftw2_10 := "cbcpt_cfftw2_10"
    cerr := "std::cerr" }

/-- Arguments with every tuning field 0 and the given three ids. -/
def args (transform_id fitfunction_id generatingvectors_id : Int) :
    COMMON_ALLOCATE_QMC_ARGS ℚ :=
  { epsrel := 0
    epsabs := 0
    maxeval := 0
    errormode := 0
    evaluateminn := 0
    minn := 0
    minm := 0
    maxnperpackage := 0
    maxmperpackage := 0
    cputhreads := 0
    cudablocks := 0
    cudathreadsperblock := 0
    verbosity := 0
    seed := 0
    transform_id := transform_id
    fitfunction_id := fitfunction_id
    generatingvectors_id := generatingvectors_id }

/-- The arguments of the scenario: `transform_id = korobov3x2` (14),
`fitfunction_id = polysingular` (1), `cputhreads = 4`, every other tuning field 0. -/
def korobov3x2_polysingular_4 : COMMON_ALLOCATE_QMC_ARGS ℚ :=
  { args 14 1 0 with cputhreads := 4 }

/-- A device array whose entries are 0, 1, 2, ... -/
def devices : Nat → Int := fun i => (i : Int)

end Example

end pylink

/-! ## Theorems: `ResultInfo` -/

namespace secdecutil

namespace ResultInfo

theorem fill_of_filled_ne_zero (s r : ResultInfo) (h : s.filled ≠ 0) :
    s.fill_if_empty_threadsafe r = s := by
  simp [fill_if_empty_threadsafe, h]

theorem fill_all_of_filled_ne_zero (rs : List ResultInfo) (s : ResultInfo) (h : s.filled ≠ 0) :
    s.fill_all rs = s := by
  induction rs with
  | nil => rfl
  | cons r rs ih =>
    show (s.fill_if_empty_threadsafe r).fill_all rs = s
    rw [fill_of_filled_ne_zero s r h]
    exact ih

theorem fill_all_cons_of_empty (s r : ResultInfo) (rs : List ResultInfo) (h : s.filled = 0) :
    s.fill_all (r :: rs)
      = { filled := 1, return_value := r.return_value, signCheckId := r.signCheckId } := by
  show (s.fill_if_empty_threadsafe r).fill_all rs = _
  have h1 : s.fill_if_empty_threadsafe r
      = { filled := 1, return_value := r.return_value, signCheckId := r.signCheckId } := by
    simp [fill_if_empty_threadsafe, h]
  rw [h1]
  exact fill_all_of_filled_ne_zero rs _ (by simp)

end ResultInfo

end secdecutil

/-! ## Theorems: the error slot (claims C3, C4, C5) -/

namespace secdecutil

namespace ResultInfo

theorem process_errors_eq_ok_iff (s : ResultInfo) :
    s.process_errors = Except.ok () ↔ s.return_value = ReturnValue.no_error := by
  cases s with
  | mk f rv id => cases rv <;> simp [process_errors]

theorem process_errors_clear_errors (s : ResultInfo) :
    s.clear_errors.process_errors = Except.ok () := by
  rw [process_errors_eq_ok_iff]
  rfl

theorem reached_step (s : ResultInfo) (c : Call) (h : Reached s) : Reached (s.step c) := by
  cases c with
  | clear_errors => exact Or.inl ⟨rfl, rfl⟩
  | fill_if_empty_threadsafe r =>
    rcases h with ⟨h0, _⟩ | h1
    · right
      simp [step, fill_if_empty_threadsafe, h0]
    · right
      simp [step, fill_if_empty_threadsafe, h1]

theorem reached_run (calls : List Call) (s : ResultInfo) (h : Reached s) :
    Reached (s.run calls) := by
  induction calls generalizing s with
  | nil => exact h
  | cons c cs ih => exact ih (s.step c) (reached_step s c h)

theorem reachedGenuine_step (s : ResultInfo) (c : Call) (h : ReachedGenuine s)
    (hc : Call.Genuine c) : ReachedGenuine (s.step c) := by
  cases c with
  | clear_errors => exact Or.inl ⟨rfl, rfl⟩
  | fill_if_empty_threadsafe r =>
    rcases h with ⟨h0, _⟩ | ⟨h1, h2⟩
    · right
      have hr : r.return_value ≠ ReturnValue.no_error := hc
      simp [step, fill_if_empty_threadsafe, h0, hr]
    · right
      simp [step, fill_if_empty_threadsafe, h1, h2]

theorem reachedGenuine_run (calls : List Call) (s : ResultInfo) (h : ReachedGenuine s)
    (hc : ∀ c ∈ calls, Call.Genuine c) : ReachedGenuine (s.run calls) := by
  induction calls generalizing s with
  | nil => exact h
  | cons c cs ih =>
    exact ih (s.step c) (reachedGenuine_step s c h (hc c (List.mem_cons_self c cs)))
      (fun d hd => hc d (List.mem_cons_of_mem c hd))

/-- Claim C3: a non-empty sequence of reports `r :: rs` applied to an empty slot (`filled = 0`)
leaves the slot written (`filled = 1`) with the kind and the id of the first report `r`, and
any further report on the resulting slot changes nothing. -/
theorem first_report_wins (s r : ResultInfo) (rs : List ResultInfo) (h : s.filled = 0) :
    (s.fill_all (r :: rs)).filled = 1
      ∧ (s.fill_all (r :: rs)).return_value = r.return_value
      ∧ (s.fill_all (r :: rs)).signCheckId = r.signCheckId
      ∧ ∀ later : ResultInfo,
          (s.fill_all (r :: rs)).fill_if_empty_threadsafe later = s.fill_all (r :: rs) := by
  rw [fill_all_cons_of_empty s r rs h]
  refine ⟨rfl, rfl, rfl, ?_⟩
  intro later
  exact fill_of_filled_ne_zero _ later (by simp)

/-- Claim C3 at the example of the claim: after the report
`(sign_check_error_contour_deformation, 42)` on a fresh slot, a later report with kind
`sign_check_error_positive_polynomial` and id 7 leaves `signCheckId = 42`. -/
theorem first_report_wins_witness :
    zeroed.filled = 0
      ∧ (zeroed.fill_all
          [{ filled := 0, return_value := ReturnValue.sign_check_error_contour_deformation,
             signCheckId := 42 },
           { filled := 0, return_value := ReturnValue.sign_check_error_positive_polynomial,
             signCheckId := 7 }]).signCheckId = 42 :=
  ⟨rfl, (first_report_wins zeroed
      { filled := 0, return_value := ReturnValue.sign_check_error_contour_deformation,
        signCheckId := 42 }
      [{ filled := 0, return_value := ReturnValue.sign_check_error_positive_polynomial,
         signCheckId := 7 }] rfl).2.2.1⟩

/-- Claim C4 fails as stated: a report of kind `no_error` on the fresh slot gives a reachable
state whose latch is written (`filled = 1`) and on which `process_errors` succeeds. -/
theorem check_fails_iff_filled_counterexample :
    (zeroed.run [Call.fill_if_empty_threadsafe
        { filled := 0, return_value := ReturnValue.no_error, signCheckId := 7 }]).filled = 1
      ∧ (zeroed.run [Call.fill_if_empty_threadsafe
        { filled := 0, return_value := ReturnValue.no_error, signCheckId := 7 }]).process_errors
          = Except.ok () := by
  constructor <;> rfl

/-- Claim C4, amended: in every state reached from the fresh slot by reports and resets,
`process_errors` fails exactly when a sign-check error kind is stored, and then the latch is
written; when moreover no report of the sequence carries the kind `no_error`, `process_errors`
fails exactly when the latch is written (`filled = 1`). -/
theorem check_fails_iff_error_stored (calls : List Call) :
    ((zeroed.run calls).process_errors ≠ Except.ok ()
        ↔ (zeroed.run calls).return_value ≠ ReturnValue.no_error)
      ∧ ((zeroed.run calls).process_errors ≠ Except.ok () → (zeroed.run calls).filled = 1)
      ∧ ((∀ c ∈ calls, Call.Genuine c) →
          ((zeroed.run calls).process_errors ≠ Except.ok () ↔ (zeroed.run calls).filled = 1)) := by
  refine ⟨?_, ?_, ?_⟩
  · rw [Ne, process_errors_eq_ok_iff]
  · intro hne
    rw [Ne, process_errors_eq_ok_iff] at hne
    rcases reached_run calls zeroed (Or.inl ⟨rfl, rfl⟩) with ⟨_, h2⟩ | h1
    · exact absurd h2 hne
    · exact h1
  · intro hc
    rw [Ne, process_errors_eq_ok_iff]
    rcases reachedGenuine_run calls zeroed (Or.inl ⟨rfl, rfl⟩) hc with ⟨h0, h2⟩ | ⟨h1, h2⟩
    · constructor
      · intro hne
        exact absurd h2 hne
      · intro h1
        rw [h0] at h1
        exact absurd h1 (by decide)
    · exact ⟨fun _ => h1, fun _ => h2⟩

/-- Claim C4, amended, at a concrete sequence: a report of a contour deformation error, a
reset, and a report of a positive polynomial error with id 9. -/
theorem check_fails_iff_error_stored_witness :
    (zeroed.run [Call.fill_if_empty_threadsafe
        { filled := 0, return_value := ReturnValue.sign_check_error_contour_deformation,
          signCheckId := 42 },
        Call.clear_errors,
        Call.fill_if_empty_threadsafe
        { filled := 0, return_value := ReturnValue.sign_check_error_positive_polynomial,
          signCheckId := 9 }]).process_errors ≠ Except.ok () :=
  ((check_fails_iff_error_stored
      [Call.fill_if_empty_threadsafe
        { filled := 0, return_value := ReturnValue.sign_check_error_contour_deformation,
          signCheckId := 42 },
        Call.clear_errors,
        Call.fill_if_empty_threadsafe
        { filled := 0, return_value := ReturnValue.sign_check_error_positive_polynomial,
          signCheckId := 9 }]).2.2
    (by
      intro c hc
      simp only [List.mem_cons, List.mem_singleton, List.not_mem_nil, or_false] at hc
      rcases hc with rfl | rfl | rfl
      · show _ ≠ _
        decide
      · trivial
      · show _ ≠ _
        decide)).mpr rfl

end ResultInfo

/-- Claim C5: whatever a `ResultInfo` holds (any `filled`, `return_value`, `signCheckId`),
`clear_errors()` followed by `process_errors()` succeeds; and for every `IntegrandContainer`
and every content of the memory, `clear_errors()` followed by `process_errors()` on the
container succeeds. -/
theorem clear_then_check_succeeds :
    (∀ s : ResultInfo, s.clear_errors.process_errors = Except.ok ())
      ∧ ∀ (T Args : Type) (A : IntegrandContainer T Args) (h : Heap),
          A.process_errors (A.clear_errors h) = Except.ok () := by
  refine ⟨ResultInfo.process_errors_clear_errors, ?_⟩
  intro T Args A h
  simp only [IntegrandContainer.process_errors, IntegrandContainer.clear_errors, Heap.read,
    Heap.write, Function.update_same]
  exact ResultInfo.process_errors_clear_errors _

end secdecutil

/-! ## Theorems: composition of integrands (claims C1, C2, C6) -/

namespace secdecutil

namespace ResultInfo

theorem fill_all_append (s : ResultInfo) (l1 l2 : List ResultInfo) :
    s.fill_all (l1 ++ l2) = (s.fill_all l1).fill_all l2 := by
  simp [fill_all, List.foldl_append]

end ResultInfo

namespace IntegrandContainer

variable {T Args : Type}

theorem binary_operator_eq [Add T] [Sub T] [Mul T] [Div T] (op : Operation) (lhs_first : Bool) (A B : IntegrandContainer T Args)
    (h : Heap) :
    binary_operator op lhs_first A B h = add_subtract_multiply_or_divide op lhs_first A B h := by
  cases op <;> rfl

theorem binary_operator_integrand [Add T] [Sub T] [Mul T] [Div T] (op : Operation) (lhs_first : Bool)
    (A B : IntegrandContainer T Args) (h : Heap) (x : Args) (r : ResultInfo) :
    (binary_operator op lhs_first A B h).1.integrand x r
      = (arith op (eval_operands lhs_first A B x r).1 (eval_operands lhs_first A B x r).2.1,
          (eval_operands lhs_first A B x r).2.2) := by
  cases op <;> rfl

theorem binary_operator_result_info [Add T] [Sub T] [Mul T] [Div T] (op : Operation) (lhs_first : Bool)
    (A B : IntegrandContainer T Args) (h : Heap) :
    (binary_operator op lhs_first A B h).1.result_info = h.next := by
  cases op <;> rfl

theorem binary_operator_heap [Add T] [Sub T] [Mul T] [Div T] (op : Operation) (lhs_first : Bool)
    (A B : IntegrandContainer T Args) (h : Heap) :
    (binary_operator op lhs_first A B h).2 = h.mmap.2 := by
  cases op <;> rfl

theorem eval_operands_values (lhs_first : Bool) (A B : IntegrandContainer T Args)
    (hA : A.PureValue) (hB : B.PureValue) (x : Args) (r r1 r2 : ResultInfo) :
    (eval_operands lhs_first A B x r).1 = (A.integrand x r1).1
      ∧ (eval_operands lhs_first A B x r).2.1 = (B.integrand x r2).1 := by
  cases lhs_first
  · exact ⟨hA x _ r1, hB x _ r2⟩
  · exact ⟨hA x _ r1, hB x _ r2⟩

/-- Claim C1: for integrands `A` and `B` (whose values, as the data model requires, do not
depend on the contents of the error record) and every operator `op` of `+ - * /`, the integrand
`A op B` has `number_of_integration_variables` equal to the maximum of the two operands
and its call at `x` returns `A(x) op B(x)` in the arithmetic of the value type, whichever operand
is evaluated first and whatever the memory holds. -/
theorem binary_operator_dimension_and_value [Add T] [Sub T] [Mul T] [Div T] (op : Operation) (lhs_first : Bool)
    (A B : IntegrandContainer T Args) (h : Heap) (hA : A.PureValue) (hB : B.PureValue) :
    (binary_operator op lhs_first A B h).1.number_of_integration_variables
        = max A.number_of_integration_variables B.number_of_integration_variables
      ∧ ∀ (x : Args) (h1 h2 h3 : Heap),
          ((binary_operator op lhs_first A B h).1.call x h1).1
            = arith op (A.call x h2).1 (B.call x h3).1 := by
  constructor
  · cases op <;> rfl
  · intro x h1 h2 h3
    simp only [call, binary_operator_integrand]
    obtain ⟨e1, e2⟩ := eval_operands_values lhs_first A B hA hB x
      (h1.read (binary_operator op lhs_first A B h).1.result_info)
      (h2.read A.result_info) (h3.read B.result_info)
    rw [e1, e2]

end IntegrandContainer

theorem Example.three_pure : Example.three.PureValue := fun _ _ _ => rfl

theorem Example.four_pure : Example.four.PureValue := fun _ _ _ => rfl

/-- Claim C1 at the example of the claim: for `A` constantly 3 and `B` constantly 4 over 2
variables, `A + B` and `A * B` are over 2 variables, `(A + B)(x) = 7` and `(A * B)(x) = 12`. -/
theorem binary_operator_dimension_and_value_witness :
    Example.three.PureValue ∧ Example.four.PureValue
      ∧ (IntegrandContainer.binary_operator Operation.add true Example.three Example.four
          Example.heap2).1.number_of_integration_variables = 2
      ∧ ((IntegrandContainer.binary_operator Operation.add true Example.three Example.four
          Example.heap2).1.call (1 / 2, 1 / 3) Example.heap2).1 = 7
      ∧ ((IntegrandContainer.binary_operator Operation.multiply false Example.three Example.four
          Example.heap2).1.call (1 / 2, 1 / 3) Example.heap2).1 = 12 := by
  refine ⟨Example.three_pure, Example.four_pure, ?_, ?_, ?_⟩
  · rw [(IntegrandContainer.binary_operator_dimension_and_value Operation.add true Example.three Example.four
      Example.heap2 Example.three_pure Example.four_pure).1]
    rfl
  · rw [(IntegrandContainer.binary_operator_dimension_and_value Operation.add true Example.three Example.four
      Example.heap2 Example.three_pure Example.four_pure).2 (1 / 2, 1 / 3)
      Example.heap2 Example.heap2 Example.heap2]
    show (3 : ℚ) + 4 = 7
    norm_num
  · rw [(IntegrandContainer.binary_operator_dimension_and_value Operation.multiply false Example.three Example.four
      Example.heap2 Example.three_pure Example.four_pure).2 (1 / 2, 1 / 3)
      Example.heap2 Example.heap2 Example.heap2]
    show (3 : ℚ) * 4 = 12
    norm_num

namespace IntegrandContainer

variable {T Args : Type}

theorem call_read_other (C : IntegrandContainer T Args) (x : Args) (h : Heap) (p : Nat)
    (hp : p ≠ C.result_info) : (C.call x h).2.read p = h.read p := by
  simp only [call, Heap.read, Heap.write]
  exact Function.update_noteq hp _ _

theorem call_read_self (C : IntegrandContainer T Args) (x : Args) (h : Heap) :
    (C.call x h).2.read C.result_info = (C.integrand x (h.read C.result_info)).2 := by
  simp only [call, Heap.read, Heap.write, Function.update_same]

/-- Claim C6 fails as stated: for `A` at address 0 and `B` at address 1, the record of `A + B`
is at the new address 2, which is neither operand's; after the evaluation of `A + B` in which
`B` reports an error, `process_errors()` raises on `A + B` and succeeds on `A` and on `B`. -/
theorem composite_slot_is_operand_slot_counterexample :
    (binary_operator Operation.add true Example.three Example.four_failing
        Example.heap2).1.result_info = 2
      ∧ Example.three.result_info = 0
      ∧ Example.four_failing.result_info = 1
      ∧ (binary_operator Operation.add true Example.three Example.four_failing
          Example.heap2).1.process_errors
          (((binary_operator Operation.add true Example.three Example.four_failing
            Example.heap2).1.call (1 / 2, 1 / 3)
            (binary_operator Operation.add true Example.three Example.four_failing
              Example.heap2).2).2)
          = Except.error (Exception.sign_check_error
              "\"contour deformation polynomial\", signCheckId=42")
      ∧ Example.three.process_errors
          (((binary_operator Operation.add true Example.three Example.four_failing
            Example.heap2).1.call (1 / 2, 1 / 3)
            (binary_operator Operation.add true Example.three Example.four_failing
              Example.heap2).2).2)
          = Except.ok ()
      ∧ Example.four_failing.process_errors
          (((binary_operator Operation.add true Example.three Example.four_failing
            Example.heap2).1.call (1 / 2, 1 / 3)
            (binary_operator Operation.add true Example.three Example.four_failing
              Example.heap2).2).2)
          = Except.ok () := by
  refine ⟨rfl, rfl, rfl, ?_, ?_, ?_⟩
  · rfl
  · rfl
  · rfl

/-- Claim C6, amended: for operands `A` and `B` whose records are allocated, the record of
`A op B` is a newly allocated one, different from the record of `A` and from the record of `B`.
An evaluation of `A op B` runs both operands on this new record and leaves the records of `A`
and of `B` as they were, so an error latched while evaluating `A op B` is raised by
`process_errors()` on `A op B`, and `process_errors()` on an operand gives what it gave before
the evaluation. -/
theorem composite_slot_is_fresh [Add T] [Sub T] [Mul T] [Div T] (op : Operation)
    (lhs_first : Bool) (A B : IntegrandContainer T Args) (h : Heap)
    (hA : A.result_info < h.next) (hB : B.result_info < h.next) :
    (binary_operator op lhs_first A B h).1.result_info = h.next
      ∧ (binary_operator op lhs_first A B h).2.next = h.next + 1
      ∧ (binary_operator op lhs_first A B h).1.result_info ≠ A.result_info
      ∧ (binary_operator op lhs_first A B h).1.result_info ≠ B.result_info
      ∧ ∀ (x : Args) (h1 : Heap),
          ((binary_operator op lhs_first A B h).1.call x h1).2.read
              (binary_operator op lhs_first A B h).1.result_info
            = (eval_operands lhs_first A B x
                (h1.read (binary_operator op lhs_first A B h).1.result_info)).2.2
          ∧ (binary_operator op lhs_first A B h).1.process_errors
              ((binary_operator op lhs_first A B h).1.call x h1).2
            = (eval_operands lhs_first A B x
                (h1.read (binary_operator op lhs_first A B h).1.result_info)).2.2.process_errors
          ∧ ((binary_operator op lhs_first A B h).1.call x h1).2.read A.result_info
            = h1.read A.result_info
          ∧ ((binary_operator op lhs_first A B h).1.call x h1).2.read B.result_info
            = h1.read B.result_info
          ∧ A.process_errors ((binary_operator op lhs_first A B h).1.call x h1).2
            = A.process_errors h1
          ∧ B.process_errors ((binary_operator op lhs_first A B h).1.call x h1).2
            = B.process_errors h1 := by
  have hres := binary_operator_result_info op lhs_first A B h
  have hneA : A.result_info ≠ (binary_operator op lhs_first A B h).1.result_info := by
    rw [hres]
    exact Nat.ne_of_lt hA
  have hneB : B.result_info ≠ (binary_operator op lhs_first A B h).1.result_info := by
    rw [hres]
    exact Nat.ne_of_lt hB
  refine ⟨hres, ?_, hneA.symm, hneB.symm, ?_⟩
  · rw [binary_operator_heap]
    rfl
  · intro x h1
    have hself := call_read_self (binary_operator op lhs_first A B h).1 x h1
    rw [binary_operator_integrand] at hself
    have hA1 := call_read_other (binary_operator op lhs_first A B h).1 x h1 _ hneA
    have hB1 := call_read_other (binary_operator op lhs_first A B h).1 x h1 _ hneB
    refine ⟨hself, ?_, hA1, hB1, ?_, ?_⟩
    · simp only [process_errors]
      rw [hself]
    · simp only [process_errors]
      rw [hA1]
    · simp only [process_errors]
      rw [hB1]

/-- Claim C6, amended, at a concrete pair: `A` constantly 3 at address 0, `B` constantly 4 at
address 1 reporting an error, addresses 0 and 1 allocated; the record of `A * B` is at
address 2. -/
theorem composite_slot_is_fresh_witness :
    Example.three.result_info < Example.heap2.next
      ∧ Example.four_failing.result_info < Example.heap2.next
      ∧ (binary_operator Operation.multiply true Example.three Example.four_failing
          Example.heap2).1.result_info = Example.heap2.next :=
  ⟨by decide, by decide,
    (composite_slot_is_fresh Operation.multiply true Example.three Example.four_failing
      Example.heap2 (by decide) (by decide)).1⟩

end IntegrandContainer

namespace Expression

variable {T Args : Type}

theorem eval_operands_primitive_like (lhs_first : Bool) (A B : IntegrandContainer T Args)
    (a b : T) (la lb : List ResultInfo) (x : Args) (r : ResultInfo)
    (hA : ∀ s, A.integrand x s = (a, s.fill_all la))
    (hB : ∀ s, B.integrand x s = (b, s.fill_all lb)) :
    IntegrandContainer.eval_operands lhs_first A B x r
      = (a, b, r.fill_all (if lhs_first then la ++ lb else lb ++ la)) := by
  cases lhs_first
  · simp [IntegrandContainer.eval_operands, hA, hB, ResultInfo.fill_all_append]
  · simp [IntegrandContainer.eval_operands, hA, hB, ResultInfo.fill_all_append]

/-- The closure of a built expression returns the value of the expression and files the reports
of its leaves, in the order in which they are run, on the record it is handed. -/
theorem build_integrand [Add T] [Sub T] [Mul T] [Div T] (e : Expression T Args) (h : Heap)
    (x : Args) (r : ResultInfo) :
    (e.build h).1.integrand x r = (e.value x, r.fill_all (e.reports x)) := by
  induction e generalizing h r with
  | leaf n f reports => rfl
  | node op lhs_first lhs rhs ihl ihr =>
    simp only [build, IntegrandContainer.binary_operator_integrand]
    rw [eval_operands_primitive_like lhs_first _ _ (lhs.value x) (rhs.value x)
      (lhs.reports x) (rhs.reports x) x r (fun s => ihl h s) (fun s => ihr _ s)]
    cases lhs_first <;> rfl

/-- Claim C2 fails as stated: in the sum of `P` and `Q`, `P` reports kind `no_error` (id 5) and
`Q` reports a contour deformation sign-check error (id 42), and `P` is the operand evaluated
first (as left operand of a node that evaluates its left operand first, and as right operand of
a node that evaluates its right operand first).  The record of the root is empty before the
evaluation, a leaf reports a sign-check error during it, and `process_errors()` on the root
succeeds afterwards. -/
theorem tree_error_raised_counterexample :
    (((Example.masked_sum true).build Heap.empty).2.read
          ((Example.masked_sum true).build Heap.empty).1.result_info).filled = 0
      ∧ (∃ r ∈ (Example.masked_sum true).reports (1 / 2, 1 / 3),
          r.return_value ≠ ReturnValue.no_error)
      ∧ ((Example.masked_sum true).build Heap.empty).1.process_errors
          (((Example.masked_sum true).build Heap.empty).1.call (1 / 2, 1 / 3)
            ((Example.masked_sum true).build Heap.empty).2).2 = Except.ok ()
      ∧ (((Example.masked_sum false).build Heap.empty).2.read
          ((Example.masked_sum false).build Heap.empty).1.result_info).filled = 0
      ∧ (∃ r ∈ (Example.masked_sum false).reports (1 / 2, 1 / 3),
          r.return_value ≠ ReturnValue.no_error)
      ∧ ((Example.masked_sum false).build Heap.empty).1.process_errors
          (((Example.masked_sum false).build Heap.empty).1.call (1 / 2, 1 / 3)
            ((Example.masked_sum false).build Heap.empty).2).2 = Except.ok () := by
  refine ⟨rfl, ?_, rfl, rfl, ?_, rfl⟩
  · exact ⟨{ filled := 0, return_value := ReturnValue.sign_check_error_contour_deformation,
             signCheckId := 42 }, by simp [Example.masked_sum, reports], by decide⟩
  · exact ⟨{ filled := 0, return_value := ReturnValue.sign_check_error_contour_deformation,
             signCheckId := 42 }, by simp [Example.masked_sum, reports], by decide⟩

/-- Claim C2, amended: for every expression built from primitive integrands with the binary
operators, whatever its depth and whichever operand each node evaluates first: if the record of
the root is empty before an evaluation of the root at `x`, and the first report `r` that the
leaves file during that evaluation has a kind other than `no_error`, then after the evaluation
the record of the root holds the kind and the id of `r`, and `process_errors()` on the root
fails with the `sign_check_error` for that kind and id. -/
theorem tree_first_error_raised [Add T] [Sub T] [Mul T] [Div T] (e : Expression T Args)
    (h h1 : Heap) (x : Args) (r : ResultInfo) (rs : List ResultInfo)
    (hempty : (h1.read (e.build h).1.result_info).filled = 0)
    (hreports : e.reports x = r :: rs)
    (hkind : r.return_value ≠ ReturnValue.no_error) :
    ((e.build h).1.call x h1).2.read (e.build h).1.result_info
        = { filled := 1, return_value := r.return_value, signCheckId := r.signCheckId }
      ∧ (e.build h).1.process_errors ((e.build h).1.call x h1).2
        = Except.error (Exception.sign_check_error
            ((if r.return_value = ReturnValue.sign_check_error_contour_deformation
                then "\"contour deformation polynomial\", signCheckId="
                else "\"positive polynomial\", signCheckId=") ++ to_string r.signCheckId))
      ∧ ((e.build h).1.call x h1).1 = e.value x := by
  have hslot : ((e.build h).1.call x h1).2.read (e.build h).1.result_info
      = { filled := 1, return_value := r.return_value, signCheckId := r.signCheckId } := by
    rw [IntegrandContainer.call_read_self, build_integrand, hreports]
    exact ResultInfo.fill_all_cons_of_empty _ r rs hempty
  refine ⟨hslot, ?_, ?_⟩
  · simp only [IntegrandContainer.process_errors]
    rw [hslot]
    cases hr : r.return_value with
    | no_error => exact absurd hr hkind
    | sign_check_error_contour_deformation => simp [ResultInfo.process_errors]
    | sign_check_error_positive_polynomial => simp [ResultInfo.process_errors]
  · simp only [IntegrandContainer.call, build_integrand]

/-- Claim C2, amended, at a concrete expression of depth 2: in `(P - Q) * P` with the right
operands evaluated first, the first report filed at `x` is the positive polynomial error with
id 7 of the right factor `P`, and `process_errors()` on the root raises it. -/
theorem tree_first_error_raised_witness :
    ((Example.failing_product.build Heap.empty).2.read
        (Example.failing_product.build Heap.empty).1.result_info).filled = 0
      ∧ (Example.failing_product.build Heap.empty).1.process_errors
          ((Example.failing_product.build Heap.empty).1.call (1 / 2, 1 / 3)
            (Example.failing_product.build Heap.empty).2).2
        = Except.error (Exception.sign_check_error "\"positive polynomial\", signCheckId=7") :=
  ⟨by rfl, (tree_first_error_raised Example.failing_product Heap.empty
      (Example.failing_product.build Heap.empty).2 (1 / 2, 1 / 3)
      { filled := 0, return_value := ReturnValue.sign_check_error_positive_polynomial,
        signCheckId := 7 }
      [{ filled := 0, return_value := ReturnValue.sign_check_error_contour_deformation,
         signCheckId := 42 },
       { filled := 0, return_value := ReturnValue.sign_check_error_positive_polynomial,
         signCheckId := 7 }]
      (by rfl) (by rfl) (by decide)).2.1⟩

end Expression

end secdecutil

/-! ## Theorems: the dispatcher (claims C7, C8, C9, C10) -/

namespace pylink

open secdecutil

variable {D G R L : Type}

theorem qmc_transform_t.ofInt_toInt (t : qmc_transform_t) :
    qmc_transform_t.ofInt t.toInt = some t := by
  cases t with
  | no_transform => rfl
  | baker => rfl
  | korobov a b => cases a <;> cases b <;> rfl
  | sidi d => cases d <;> rfl

theorem qmc_transform_t.toInt_injective {t1 t2 : qmc_transform_t}
    (h : t1.toInt = t2.toInt) : t1 = t2 := by
  have h1 := qmc_transform_t.ofInt_toInt t1
  rw [h, qmc_transform_t.ofInt_toInt t2] at h1
  exact (Option.some.inj h1).symm

theorem QmcCase.enumerator_ne (c : QmcCase) :
    c.enumerator ≠ qmc_transform_t.no_transform ∧ c.enumerator ≠ qmc_transform_t.baker := by
  cases c <;> exact ⟨fun h => (nomatch h), fun h => (nomatch h)⟩

theorem QmcCase.enumerator_toInt_ne (c : QmcCase) :
    c.enumerator.toInt ≠ qmc_transform_t.no_transform.toInt
      ∧ c.enumerator.toInt ≠ qmc_transform_t.baker.toInt :=
  ⟨fun h => (QmcCase.enumerator_ne c).1 (qmc_transform_t.toInt_injective h),
   fun h => (QmcCase.enumerator_ne c).2 (qmc_transform_t.toInt_injective h)⟩

theorem fitfunction_branches_of_enumerator (lib : QmcLibrary D G R L) (transform : Transform)
    (it : IntegrandType) (ret : Qmc D G R L → Qmc D G R L) (f : qmc_fitfunction_t) :
    fitfunction_branches lib transform it ret f.toInt
      = Except.ok (ret (new_Qmc lib transform it f.fitfunction)) := by
  cases f <;> simp [fitfunction_branches, qmc_fitfunction_t.toInt, qmc_fitfunction_t.fitfunction]

theorem fitfunction_branches_unregistered (lib : QmcLibrary D G R L) (transform : Transform)
    (it : IntegrandType) (ret : Qmc D G R L → Qmc D G R L) (fitfunction_id : Int)
    (h : ∀ f : qmc_fitfunction_t, fitfunction_id ≠ f.toInt) :
    fitfunction_branches lib transform it ret fitfunction_id
      = Except.error (Exception.invalid_argument (unregistered_fitfunction_id fitfunction_id)) := by
  simp [fitfunction_branches, h qmc_fitfunction_t.default_fitfunction,
    h qmc_fitfunction_t.no_fit, h qmc_fitfunction_t.polysingular]

theorem expand_pylink_qmc_cases_of_mem (lib : QmcLibrary D G R L) (it : IntegrandType)
    (ret : Qmc D G R L → Qmc D G R L) (fitfunction_id : Int) (t : qmc_transform_t)
    (cases : List QmcCase) (h : t ∈ cases.map QmcCase.enumerator) :
    expand_pylink_qmc_cases lib it ret t.toInt fitfunction_id cases
      = fitfunction_branches lib t.transform it ret fitfunction_id := by
  induction cases with
  | nil => simp at h
  | cons c cs ih =>
    rw [List.map_cons, List.mem_cons] at h
    cases c with
    | CASE_KOROBOV_QMC k1 k2 =>
      by_cases heq : t.toInt = (qmc_transform_t.korobov k1 k2).toInt
      · have ht := qmc_transform_t.toInt_injective heq
        subst ht
        simp [expand_pylink_qmc_cases, CASE_KOROBOV_QMC, qmc_transform_t.transform]
      · have hne : t ≠ QmcCase.enumerator (QmcCase.CASE_KOROBOV_QMC k1 k2) := by
          intro hc
          exact heq (by rw [hc]; rfl)
        simp only [expand_pylink_qmc_cases, heq, if_false]
        exact ih (h.resolve_left hne)
    | CASE_SIDI_QMC k =>
      by_cases heq : t.toInt = (qmc_transform_t.sidi k).toInt
      · have ht := qmc_transform_t.toInt_injective heq
        subst ht
        simp [expand_pylink_qmc_cases, CASE_SIDI_QMC, qmc_transform_t.transform]
      · have hne : t ≠ QmcCase.enumerator (QmcCase.CASE_SIDI_QMC k) := by
          intro hc
          exact heq (by rw [hc]; rfl)
        simp only [expand_pylink_qmc_cases, heq, if_false]
        exact ih (h.resolve_left hne)

theorem expand_pylink_qmc_cases_unregistered (lib : QmcLibrary D G R L) (it : IntegrandType)
    (ret : Qmc D G R L → Qmc D G R L) (transform_id fitfunction_id : Int)
    (cases : List QmcCase)
    (h : ∀ t ∈ cases.map QmcCase.enumerator, transform_id ≠ t.toInt) :
    expand_pylink_qmc_cases lib it ret transform_id fitfunction_id cases
      = Except.error (Exception.invalid_argument (unregistered_transform_id transform_id)) := by
  induction cases with
  | nil => rfl
  | cons c cs ih =>
    have hc := h c.enumerator (by simp)
    have hcs : ∀ t ∈ cs.map QmcCase.enumerator, transform_id ≠ t.toInt :=
      fun t ht => h t (by rw [List.map_cons]; exact List.mem_cons_of_mem _ ht)
    cases c with
    | CASE_KOROBOV_QMC k1 k2 =>
      have hc1 : transform_id ≠ (qmc_transform_t.korobov k1 k2).toInt := hc
      simp only [expand_pylink_qmc_cases, hc1, if_false]
      exact ih hcs
    | CASE_SIDI_QMC k =>
      have hc1 : transform_id ≠ (qmc_transform_t.sidi k).toInt := hc
      simp only [expand_pylink_qmc_cases, hc1, if_false]
      exact ih hcs

/-- The common shape of the three allocate functions, at a compiled-in transform. -/
theorem dispatch_compiled_in (lib : QmcLibrary D G R L) (it : IntegrandType)
    (ret : Qmc D G R L → Qmc D G R L) (fitfunction_id : Int) (t : qmc_transform_t)
    (cases : List QmcCase) (h : compiled_in cases t) :
    (if t.toInt = qmc_transform_t.no_transform.toInt then
        fitfunction_branches lib Transform.None it ret fitfunction_id
      else if t.toInt = qmc_transform_t.baker.toInt then
        fitfunction_branches lib Transform.Baker it ret fitfunction_id
      else expand_pylink_qmc_cases lib it ret t.toInt fitfunction_id cases)
      = fitfunction_branches lib t.transform it ret fitfunction_id := by
  rcases h with rfl | rfl | hmem
  · simp [qmc_transform_t.transform]
  · simp [qmc_transform_t.toInt, qmc_transform_t.transform]
  · obtain ⟨c, _, rfl⟩ := List.mem_map.mp hmem
    rw [if_neg (QmcCase.enumerator_toInt_ne c).1, if_neg (QmcCase.enumerator_toInt_ne c).2]
    exact expand_pylink_qmc_cases_of_mem lib it ret fitfunction_id _ cases hmem

/-- The common shape of the three allocate functions, at a transform id that is not compiled
in. -/
theorem dispatch_unregistered (lib : QmcLibrary D G R L) (it : IntegrandType)
    (ret : Qmc D G R L → Qmc D G R L) (transform_id fitfunction_id : Int)
    (cases : List QmcCase) (h : ∀ t, compiled_in cases t → transform_id ≠ t.toInt) :
    (if transform_id = qmc_transform_t.no_transform.toInt then
        fitfunction_branches lib Transform.None it ret fitfunction_id
      else if transform_id = qmc_transform_t.baker.toInt then
        fitfunction_branches lib Transform.Baker it ret fitfunction_id
      else expand_pylink_qmc_cases lib it ret transform_id fitfunction_id cases)
      = Except.error (Exception.invalid_argument (unregistered_transform_id transform_id)) := by
  rw [if_neg (h _ (Or.inl rfl)), if_neg (h _ (Or.inr (Or.inl rfl)))]
  exact expand_pylink_qmc_cases_unregistered lib it ret transform_id fitfunction_id cases
    (fun t ht => h t (Or.inr (Or.inr ht)))

theorem SET_COMMON_QMC_ARGS_spec (lib : QmcLibrary D G R L) (a : COMMON_ALLOCATE_QMC_ARGS D)
    (q : Qmc D G R L) :
    TuningFieldsApplied lib a q (SET_COMMON_QMC_ARGS lib a q)
      ∧ (SET_COMMON_QMC_ARGS lib a q).transform = q.transform
      ∧ (SET_COMMON_QMC_ARGS lib a q).integrand_type = q.integrand_type
      ∧ (SET_COMMON_QMC_ARGS lib a q).fitfunction = q.fitfunction
      ∧ (SET_COMMON_QMC_ARGS lib a q).devices = q.devices := by
  simp only [TuningFieldsApplied, SET_COMMON_QMC_ARGS, set_logger, set_epsrel, set_epsabs,
    set_maxeval, set_errormode, set_evaluateminn, set_minn, set_minm, set_maxnperpackage,
    set_maxmperpackage, set_cputhreads, set_cudablocks, set_cudathreadsperblock, set_verbosity,
    set_seed, set_generatingvectors_cbcpt_dn1_100, set_generatingvectors_cbcpt_dn2_6,
    set_generatingvectors_cbcpt_cfftw1_6, set_generatingvectors_cbcpt_cfftw2_10,
    apply_ite Qmc.epsrel, apply_ite Qmc.epsabs, apply_ite Qmc.maxeval, apply_ite Qmc.errormode,
    apply_ite Qmc.evaluateminn, apply_ite Qmc.minn, apply_ite Qmc.minm,
    apply_ite Qmc.maxnperpackage, apply_ite Qmc.maxmperpackage, apply_ite Qmc.cputhreads,
    apply_ite Qmc.cudablocks, apply_ite Qmc.cudathreadsperblock, apply_ite Qmc.verbosity,
    apply_ite Qmc.transform, apply_ite Qmc.integrand_type, apply_ite Qmc.fitfunction,
    apply_ite Qmc.devices, ite_self, and_self]

theorem SET_QMC_ARGS_AND_RETURN_spec (lib : QmcLibrary D G R L)
    (a : COMMON_ALLOCATE_QMC_ARGS D) (q : Qmc D G R L) :
    TuningFieldsApplied lib a q (SET_QMC_ARGS_AND_RETURN lib a q)
      ∧ (SET_QMC_ARGS_AND_RETURN lib a q).transform = q.transform
      ∧ (SET_QMC_ARGS_AND_RETURN lib a q).integrand_type = q.integrand_type
      ∧ (SET_QMC_ARGS_AND_RETURN lib a q).fitfunction = q.fitfunction :=
  ⟨(SET_COMMON_QMC_ARGS_spec lib a q).1, (SET_COMMON_QMC_ARGS_spec lib a q).2.1,
    (SET_COMMON_QMC_ARGS_spec lib a q).2.2.1, (SET_COMMON_QMC_ARGS_spec lib a q).2.2.2.1⟩

theorem SET_QMC_ARGS_WITH_DEVICES_AND_RETURN_spec (lib : QmcLibrary D G R L)
    (a : COMMON_ALLOCATE_QMC_ARGS D) (number_of_devices : Nat) (devices : Nat → Int)
    (q : Qmc D G R L) :
    TuningFieldsApplied lib a q
        (SET_QMC_ARGS_WITH_DEVICES_AND_RETURN lib a number_of_devices devices q)
      ∧ (SET_QMC_ARGS_WITH_DEVICES_AND_RETURN lib a number_of_devices devices q).transform
          = q.transform
      ∧ (SET_QMC_ARGS_WITH_DEVICES_AND_RETURN lib a number_of_devices devices q).integrand_type
          = q.integrand_type
      ∧ (SET_QMC_ARGS_WITH_DEVICES_AND_RETURN lib a number_of_devices devices q).fitfunction
          = q.fitfunction := by
  obtain ⟨h1, h2, h3, h4, _⟩ := SET_COMMON_QMC_ARGS_spec lib a q
  unfold SET_QMC_ARGS_WITH_DEVICES_AND_RETURN
  by_cases hn : number_of_devices > 0
  · simp only [hn, if_true]
    exact ⟨h1, h2, h3, h4⟩
  · simp only [hn, if_false]
    exact ⟨h1, h2, h3, h4⟩

theorem allocate_integrators_Qmc_compiled_in (lib : QmcLibrary D G R L)
    (cases : List QmcCase) (a : COMMON_ALLOCATE_QMC_ARGS D) (t : qmc_transform_t)
    (ht : compiled_in cases t) (hid : a.transform_id = t.toInt) :
    allocate_integrators_Qmc lib cases a
      = fitfunction_branches lib t.transform IntegrandType.integrand_t
          (SET_QMC_ARGS_AND_RETURN lib a) a.fitfunction_id := by
  unfold allocate_integrators_Qmc
  rw [hid]
  exact dispatch_compiled_in lib _ _ _ t cases ht

theorem allocate_cuda_integrators_Qmc_together_compiled_in (lib : QmcLibrary D G R L)
    (cases : List QmcCase) (a : COMMON_ALLOCATE_QMC_ARGS D) (number_of_devices : Nat)
    (devices : Nat → Int) (t : qmc_transform_t)
    (ht : compiled_in cases t) (hid : a.transform_id = t.toInt) :
    allocate_cuda_integrators_Qmc_together lib cases a number_of_devices devices
      = fitfunction_branches lib t.transform IntegrandType.cuda_together_integrand_t
          (SET_QMC_ARGS_WITH_DEVICES_AND_RETURN lib a number_of_devices devices)
          a.fitfunction_id := by
  unfold allocate_cuda_integrators_Qmc_together
  rw [hid]
  exact dispatch_compiled_in lib _ _ _ t cases ht

theorem allocate_cuda_integrators_Qmc_separate_compiled_in (lib : QmcLibrary D G R L)
    (cases : List QmcCase) (a : COMMON_ALLOCATE_QMC_ARGS D) (number_of_devices : Nat)
    (devices : Nat → Int) (t : qmc_transform_t)
    (ht : compiled_in cases t) (hid : a.transform_id = t.toInt) :
    allocate_cuda_integrators_Qmc_separate lib cases a number_of_devices devices
      = fitfunction_branches lib t.transform IntegrandType.cuda_integrand_t
          (SET_QMC_ARGS_WITH_DEVICES_AND_RETURN lib a number_of_devices devices)
          a.fitfunction_id := by
  unfold allocate_cuda_integrators_Qmc_separate
  rw [hid]
  exact dispatch_compiled_in lib _ _ _ t cases ht

theorem Example.not_compiled_in_14 (t : qmc_transform_t)
    (ht : compiled_in [QmcCase.CASE_KOROBOV_QMC Degree.d3 Degree.d3] t) :
    (Example.args 14 7 0).transform_id ≠ t.toInt := by
  rcases ht with rfl | rfl | hm
  · decide
  · decide
  · simp only [List.map_cons, List.map_nil, List.mem_singleton] at hm
    subst hm
    decide

theorem Example.compiled_in_korobov3x2 :
    compiled_in [QmcCase.CASE_SIDI_QMC Degree.d1, QmcCase.CASE_KOROBOV_QMC Degree.d3 Degree.d2]
      (qmc_transform_t.korobov Degree.d3 Degree.d2) :=
  Or.inr (Or.inr (by simp [QmcCase.enumerator]))

/-- Claim C7: when `transform_id` is the value of no compiled-in transform (`no_transform`,
`baker`, or an enumerator of a generated case), then whatever `fitfunction_id` and the tuning
fields are, each of the three allocate functions returns no integrator and throws
`std::invalid_argument`; the message consists of a fixed text, the decimal rendering of
`transform_id`, and the advice that the transform must match one requested in the generate
script. -/
theorem unregistered_transform_id_rejected (lib : QmcLibrary D G R L)
    (pylink_qmc_cases : List QmcCase) (a : COMMON_ALLOCATE_QMC_ARGS D)
    (number_of_devices : Nat) (devices : Nat → Int)
    (h : ∀ t, compiled_in pylink_qmc_cases t → a.transform_id ≠ t.toInt) :
    allocate_integrators_Qmc lib pylink_qmc_cases a
        = Except.error (Exception.invalid_argument (unregistered_transform_id a.transform_id))
      ∧ allocate_cuda_integrators_Qmc_together lib pylink_qmc_cases a number_of_devices devices
        = Except.error (Exception.invalid_argument (unregistered_transform_id a.transform_id))
      ∧ allocate_cuda_integrators_Qmc_separate lib pylink_qmc_cases a number_of_devices devices
        = Except.error (Exception.invalid_argument (unregistered_transform_id a.transform_id))
      ∧ unregistered_transform_id a.transform_id
        = "Trying to allocate \"secdecutil::Qmc\" with unregistered \"transform_id\" ("
          ++ to_string a.transform_id
          ++ "). The transform you requested in the call to IntegralLibrary (transform=\x27...\x27) must match a transform requested in the generate script (pylink_qmc_transforms=[\x27...\x27]). You may wish to regenerate the library with pylink_qmc_transforms set." :=
  ⟨dispatch_unregistered lib _ _ _ _ pylink_qmc_cases h,
    dispatch_unregistered lib _ _ _ _ pylink_qmc_cases h,
    dispatch_unregistered lib _ _ _ _ pylink_qmc_cases h, rfl⟩

/-- Claim C7 at a concrete call: only `korobov3x3` is generated, `transform_id` is 14
(`korobov3x2`) and `fitfunction_id` is 7; the call is rejected on account of `transform_id`. -/
theorem unregistered_transform_id_rejected_witness :
    allocate_integrators_Qmc Example.lib [QmcCase.CASE_KOROBOV_QMC Degree.d3 Degree.d3]
        (Example.args 14 7 0)
      = Except.error (Exception.invalid_argument (unregistered_transform_id 14)) :=
  (unregistered_transform_id_rejected Example.lib
    [QmcCase.CASE_KOROBOV_QMC Degree.d3 Degree.d3] (Example.args 14 7 0) 0 Example.devices
    Example.not_compiled_in_14).1

/-- Claim C8: when `transform_id` is the value of a compiled-in transform and `fitfunction_id`
is the value of none of `default_fitfunction` (0), `no_fit` (-1), `polysingular` (1), then
whatever the tuning fields are, each of the three allocate functions returns no integrator and
throws `std::invalid_argument`; the message consists of a fixed text, the decimal rendering of
`fitfunction_id` and a closing `).`. -/
theorem unregistered_fitfunction_id_rejected (lib : QmcLibrary D G R L)
    (pylink_qmc_cases : List QmcCase) (a : COMMON_ALLOCATE_QMC_ARGS D)
    (number_of_devices : Nat) (devices : Nat → Int) (t : qmc_transform_t)
    (ht : compiled_in pylink_qmc_cases t) (hid : a.transform_id = t.toInt)
    (hf : ∀ f : qmc_fitfunction_t, a.fitfunction_id ≠ f.toInt) :
    allocate_integrators_Qmc lib pylink_qmc_cases a
        = Except.error (Exception.invalid_argument (unregistered_fitfunction_id a.fitfunction_id))
      ∧ allocate_cuda_integrators_Qmc_together lib pylink_qmc_cases a number_of_devices devices
        = Except.error (Exception.invalid_argument (unregistered_fitfunction_id a.fitfunction_id))
      ∧ allocate_cuda_integrators_Qmc_separate lib pylink_qmc_cases a number_of_devices devices
        = Except.error (Exception.invalid_argument (unregistered_fitfunction_id a.fitfunction_id))
      ∧ unregistered_fitfunction_id a.fitfunction_id
        = "Trying to allocate \"secdecutil::Qmc\" with unregistered \"fitfunction_id\" ("
          ++ to_string a.fitfunction_id ++ ")." := by
  refine ⟨?_, ?_, ?_, rfl⟩
  · rw [allocate_integrators_Qmc_compiled_in lib pylink_qmc_cases a t ht hid]
    exact fitfunction_branches_unregistered lib _ _ _ _ hf
  · rw [allocate_cuda_integrators_Qmc_together_compiled_in lib pylink_qmc_cases a
      number_of_devices devices t ht hid]
    exact fitfunction_branches_unregistered lib _ _ _ _ hf
  · rw [allocate_cuda_integrators_Qmc_separate_compiled_in lib pylink_qmc_cases a
      number_of_devices devices t ht hid]
    exact fitfunction_branches_unregistered lib _ _ _ _ hf

/-- Claim C8 at a concrete call: `transform_id` is `baker` (-2) and `fitfunction_id` is 2. -/
theorem unregistered_fitfunction_id_rejected_witness :
    allocate_cuda_integrators_Qmc_together Example.lib
        [QmcCase.CASE_KOROBOV_QMC Degree.d3 Degree.d3] (Example.args (-2) 2 0) 1 Example.devices
      = Except.error (Exception.invalid_argument (unregistered_fitfunction_id 2)) :=
  (unregistered_fitfunction_id_rejected Example.lib
    [QmcCase.CASE_KOROBOV_QMC Degree.d3 Degree.d3] (Example.args (-2) 2 0) 1 Example.devices
    qmc_transform_t.baker (Or.inr (Or.inl rfl)) rfl
    (fun f => by cases f <;> decide)).2.1

/-- Claim C9: when `transform_id` is the value of a compiled-in enumerator `t` and
`fitfunction_id` is the value of an enumerator `f` of `qmc_fitfunction_t` (0, -1 or 1), each
allocate function returns an integrator; it is the specialization for the transform that `t`
names, the fit function that `f` names and the integrand type of that allocate function, and
its `cputhreads` is the requested one when that is non-zero. -/
theorem dispatch_selects_named_specialization (lib : QmcLibrary D G R L)
    (pylink_qmc_cases : List QmcCase) (a : COMMON_ALLOCATE_QMC_ARGS D)
    (number_of_devices : Nat) (devices : Nat → Int) (t : qmc_transform_t)
    (f : qmc_fitfunction_t) (ht : compiled_in pylink_qmc_cases t)
    (hid : a.transform_id = t.toInt) (hf : a.fitfunction_id = f.toInt) :
    (∃ q, allocate_integrators_Qmc lib pylink_qmc_cases a = Except.ok q
        ∧ q.transform = t.transform ∧ q.fitfunction = f.fitfunction
        ∧ q.integrand_type = IntegrandType.integrand_t
        ∧ (a.cputhreads ≠ 0 → q.cputhreads = a.cputhreads))
      ∧ (∃ q, allocate_cuda_integrators_Qmc_together lib pylink_qmc_cases a number_of_devices
            devices = Except.ok q
        ∧ q.transform = t.transform ∧ q.fitfunction = f.fitfunction
        ∧ q.integrand_type = IntegrandType.cuda_together_integrand_t
        ∧ (a.cputhreads ≠ 0 → q.cputhreads = a.cputhreads))
      ∧ (∃ q, allocate_cuda_integrators_Qmc_separate lib pylink_qmc_cases a number_of_devices
            devices = Except.ok q
        ∧ q.transform = t.transform ∧ q.fitfunction = f.fitfunction
        ∧ q.integrand_type = IntegrandType.cuda_integrand_t
        ∧ (a.cputhreads ≠ 0 → q.cputhreads = a.cputhreads)) := by
  refine ⟨⟨SET_QMC_ARGS_AND_RETURN lib a
      (new_Qmc lib t.transform IntegrandType.integrand_t f.fitfunction), ?_, ?_⟩,
    ⟨SET_QMC_ARGS_WITH_DEVICES_AND_RETURN lib a number_of_devices devices
      (new_Qmc lib t.transform IntegrandType.cuda_together_integrand_t f.fitfunction), ?_, ?_⟩,
    ⟨SET_QMC_ARGS_WITH_DEVICES_AND_RETURN lib a number_of_devices devices
      (new_Qmc lib t.transform IntegrandType.cuda_integrand_t f.fitfunction), ?_, ?_⟩⟩
  · rw [allocate_integrators_Qmc_compiled_in lib pylink_qmc_cases a t ht hid, hf]
    exact fitfunction_branches_of_enumerator lib _ _ _ f
  · obtain ⟨h1, h2, h3, h4⟩ := SET_QMC_ARGS_AND_RETURN_spec lib a
      (new_Qmc lib t.transform IntegrandType.integrand_t f.fitfunction)
    refine ⟨h2, h4, h3, fun hc => ?_⟩
    have h := h1.2.2.2.2.2.2.2.2.2.1
    rw [if_pos hc] at h
    exact h
  · rw [allocate_cuda_integrators_Qmc_together_compiled_in lib pylink_qmc_cases a
      number_of_devices devices t ht hid, hf]
    exact fitfunction_branches_of_enumerator lib _ _ _ f
  · obtain ⟨h1, h2, h3, h4⟩ := SET_QMC_ARGS_WITH_DEVICES_AND_RETURN_spec lib a
      number_of_devices devices
      (new_Qmc lib t.transform IntegrandType.cuda_together_integrand_t f.fitfunction)
    refine ⟨h2, h4, h3, fun hc => ?_⟩
    have h := h1.2.2.2.2.2.2.2.2.2.1
    rw [if_pos hc] at h
    exact h
  · rw [allocate_cuda_integrators_Qmc_separate_compiled_in lib pylink_qmc_cases a
      number_of_devices devices t ht hid, hf]
    exact fitfunction_branches_of_enumerator lib _ _ _ f
  · obtain ⟨h1, h2, h3, h4⟩ := SET_QMC_ARGS_WITH_DEVICES_AND_RETURN_spec lib a
      number_of_devices devices
      (new_Qmc lib t.transform IntegrandType.cuda_integrand_t f.fitfunction)
    refine ⟨h2, h4, h3, fun hc => ?_⟩
    have h := h1.2.2.2.2.2.2.2.2.2.1
    rw [if_pos hc] at h
    exact h

/-- Claim C9 at the example of the claim: with `korobov3x2` among the generated cases,
`transform_id = 14`, `fitfunction_id = 1` and `cputhreads = 4` give the `Korobov<3,2>`
integrator with the `PolySingular` fit function and 4 threads. -/
theorem dispatch_selects_named_specialization_witness :
    ∃ q, allocate_integrators_Qmc Example.lib
          [QmcCase.CASE_SIDI_QMC Degree.d1, QmcCase.CASE_KOROBOV_QMC Degree.d3 Degree.d2]
          Example.korobov3x2_polysingular_4 = Except.ok q
      ∧ q.transform = Transform.Korobov 3 2 ∧ q.fitfunction = FitFunction.PolySingular
      ∧ q.cputhreads = 4 := by
  obtain ⟨q, h1, h2, h3, _, h5⟩ := (dispatch_selects_named_specialization Example.lib
    [QmcCase.CASE_SIDI_QMC Degree.d1, QmcCase.CASE_KOROBOV_QMC Degree.d3 Degree.d2]
    Example.korobov3x2_polysingular_4 0 Example.devices
    (qmc_transform_t.korobov Degree.d3 Degree.d2) qmc_fitfunction_t.polysingular
    Example.compiled_in_korobov3x2 rfl rfl).1
  exact ⟨q, h1, h2, h3, h5 (by decide)⟩

/-- Claim C10: when `transform_id` and `fitfunction_id` are the values of a compiled-in
transform `t` and of a fit function enumerator `f`, the integrator returned by each allocate
function satisfies the rule `TuningFieldsApplied` against the default-constructed object of
its specialization: each of the thirteen tuning fields equals the argument when the argument
is non-zero and the built-in default when the argument is 0, whatever the other arguments
are. -/
theorem tuning_fields_applied (lib : QmcLibrary D G R L)
    (pylink_qmc_cases : List QmcCase) (a : COMMON_ALLOCATE_QMC_ARGS D)
    (number_of_devices : Nat) (devices : Nat → Int) (t : qmc_transform_t)
    (f : qmc_fitfunction_t) (ht : compiled_in pylink_qmc_cases t)
    (hid : a.transform_id = t.toInt) (hf : a.fitfunction_id = f.toInt) :
    (∃ q, allocate_integrators_Qmc lib pylink_qmc_cases a = Except.ok q
        ∧ TuningFieldsApplied lib a
            (lib.default_constructed t.transform IntegrandType.integrand_t f.fitfunction) q)
      ∧ (∃ q, allocate_cuda_integrators_Qmc_together lib pylink_qmc_cases a number_of_devices
            devices = Except.ok q
        ∧ TuningFieldsApplied lib a
            (lib.default_constructed t.transform IntegrandType.cuda_together_integrand_t
              f.fitfunction) q)
      ∧ (∃ q, allocate_cuda_integrators_Qmc_separate lib pylink_qmc_cases a number_of_devices
            devices = Except.ok q
        ∧ TuningFieldsApplied lib a
            (lib.default_constructed t.transform IntegrandType.cuda_integrand_t
              f.fitfunction) q) := by
  refine ⟨⟨SET_QMC_ARGS_AND_RETURN lib a
      (new_Qmc lib t.transform IntegrandType.integrand_t f.fitfunction), ?_, ?_⟩,
    ⟨SET_QMC_ARGS_WITH_DEVICES_AND_RETURN lib a number_of_devices devices
      (new_Qmc lib t.transform IntegrandType.cuda_together_integrand_t f.fitfunction), ?_, ?_⟩,
    ⟨SET_QMC_ARGS_WITH_DEVICES_AND_RETURN lib a number_of_devices devices
      (new_Qmc lib t.transform IntegrandType.cuda_integrand_t f.fitfunction), ?_, ?_⟩⟩
  · rw [allocate_integrators_Qmc_compiled_in lib pylink_qmc_cases a t ht hid, hf]
    exact fitfunction_branches_of_enumerator lib _ _ _ f
  · exact (SET_QMC_ARGS_AND_RETURN_spec lib a
      (new_Qmc lib t.transform IntegrandType.integrand_t f.fitfunction)).1
  · rw [allocate_cuda_integrators_Qmc_together_compiled_in lib pylink_qmc_cases a
      number_of_devices devices t ht hid, hf]
    exact fitfunction_branches_of_enumerator lib _ _ _ f
  · exact (SET_QMC_ARGS_WITH_DEVICES_AND_RETURN_spec lib a number_of_devices devices
      (new_Qmc lib t.transform IntegrandType.cuda_together_integrand_t f.fitfunction)).1
  · rw [allocate_cuda_integrators_Qmc_separate_compiled_in lib pylink_qmc_cases a
      number_of_devices devices t ht hid, hf]
    exact fitfunction_branches_of_enumerator lib _ _ _ f
  · exact (SET_QMC_ARGS_WITH_DEVICES_AND_RETURN_spec lib a number_of_devices devices
      (new_Qmc lib t.transform IntegrandType.cuda_integrand_t f.fitfunction)).1

/-- Claim C10 at a concrete call: with `cputhreads = 4` and every other tuning field 0, the
returned integrator has `cputhreads = 4`, while `epsrel`, `maxeval` and `minn` are the defaults
of the library instance (1/100, 1000000 and 8191). -/
theorem tuning_fields_applied_witness :
    ∃ q, allocate_integrators_Qmc Example.lib
          [QmcCase.CASE_SIDI_QMC Degree.d1, QmcCase.CASE_KOROBOV_QMC Degree.d3 Degree.d2]
          Example.korobov3x2_polysingular_4 = Except.ok q
      ∧ q.cputhreads = 4 ∧ q.epsrel = 1 / 100 ∧ q.maxeval = 1000000 ∧ q.minn = 8191 := by
  obtain ⟨q, h1, h2⟩ := (tuning_fields_applied Example.lib
    [QmcCase.CASE_SIDI_QMC Degree.d1, QmcCase.CASE_KOROBOV_QMC Degree.d3 Degree.d2]
    Example.korobov3x2_polysingular_4 0 Example.devices
    (qmc_transform_t.korobov Degree.d3 Degree.d2) qmc_fitfunction_t.polysingular
    Example.compiled_in_korobov3x2 rfl rfl).1
  obtain ⟨e1, _, e3, _, _, e6, _, _, _, e10, _⟩ := h2
  refine ⟨q, h1, ?_, ?_, ?_, ?_⟩
  · rw [e10]
    rfl
  · rw [e1]
    simp [Example.lib, Example.korobov3x2_polysingular_4, Example.args]
  · rw [e3]
    rfl
  · rw [e6]
    rfl

/-! ## Theorems: the dispatcher (claims C11, C12, C13) -/

theorem SET_COMMON_QMC_ARGS_of_allUnset (lib : QmcLibrary D G R L)
    (a : COMMON_ALLOCATE_QMC_ARGS D) (q : Qmc D G R L) (h : AllUnset lib a) :
    SET_COMMON_QMC_ARGS lib a q = { q with logger := lib.cerr } := by
  obtain ⟨h1, h2, h3, h4, h5, h6, h7, h8, h9, h10, h11, h12, h13, h14, h15⟩ := h
  simp [SET_COMMON_QMC_ARGS, set_logger, set_epsrel, set_epsabs, set_maxeval, set_errormode,
    set_evaluateminn, set_minn, set_minm, set_maxnperpackage, set_maxmperpackage,
    set_cputhreads, set_cudablocks, set_cudathreadsperblock, set_verbosity, set_seed,
    set_generatingvectors_cbcpt_dn1_100, set_generatingvectors_cbcpt_dn2_6,
    set_generatingvectors_cbcpt_cfftw1_6, set_generatingvectors_cbcpt_cfftw2_10,
    qmc_generatingvectors_t.toInt,
    h1, h2, h3, h4, h5, h6, h7, h8, h9, h10, h11, h12, h13, h14, h15]

theorem insert_devices_eq (number_of_devices : Nat) (devices : Nat → Int) (s : Finset Int) :
    insert_devices number_of_devices devices s
      = s ∪ (Finset.range number_of_devices).image devices := by
  induction number_of_devices with
  | zero => simp [insert_devices]
  | succ n ih =>
    have hstep : insert_devices (n + 1) devices s
        = insert (devices n) (insert_devices n devices s) := by
      simp [insert_devices, List.range_succ, List.foldl_append]
    rw [hstep, ih, Finset.range_succ, Finset.image_insert, Finset.union_insert]

theorem SET_QMC_ARGS_WITH_DEVICES_AND_RETURN_devices (lib : QmcLibrary D G R L)
    (a : COMMON_ALLOCATE_QMC_ARGS D) (number_of_devices : Nat) (devices : Nat → Int)
    (q : Qmc D G R L) :
    (SET_QMC_ARGS_WITH_DEVICES_AND_RETURN lib a number_of_devices devices q).devices
      = if number_of_devices > 0 then (Finset.range number_of_devices).image devices
        else q.devices := by
  unfold SET_QMC_ARGS_WITH_DEVICES_AND_RETURN
  by_cases hn : number_of_devices > 0
  · simp only [hn, if_true]
    rw [insert_devices_eq, Finset.empty_union]
  · simp only [hn, if_false]
    exact (SET_COMMON_QMC_ARGS_spec lib a q).2.2.2.2

theorem SET_QMC_ARGS_WITH_DEVICES_AND_RETURN_zero (lib : QmcLibrary D G R L)
    (a : COMMON_ALLOCATE_QMC_ARGS D) (devices : Nat → Int) (q : Qmc D G R L) :
    SET_QMC_ARGS_WITH_DEVICES_AND_RETURN lib a 0 devices q = SET_COMMON_QMC_ARGS lib a q := by
  simp [SET_QMC_ARGS_WITH_DEVICES_AND_RETURN]

theorem Example.args_allUnset (transform_id fitfunction_id : Int) :
    AllUnset Example.lib (Example.args transform_id fitfunction_id 0) := by
  simp [AllUnset, Example.lib, Example.args]

/-- Claim C11 fails as stated: the library instance has the default logger `"std::cout"`; the
call with `transform_id = no_transform`, `fitfunction_id = default_fitfunction` and every
tuning field at 0 returns an integrator whose logger is `"std::cerr"`, not the logger of the
default-constructed integrator of that type. -/
theorem unset_fields_logger_counterexample :
    AllUnset Example.lib (Example.args (-1) 0 0)
      ∧ ∃ q, allocate_integrators_Qmc Example.lib [] (Example.args (-1) 0 0) = Except.ok q
        ∧ q.logger = "std::cerr"
        ∧ (Example.lib.default_constructed Transform.None IntegrandType.integrand_t
            FitFunction.void_template).logger = "std::cout"
        ∧ q.logger ≠ (Example.lib.default_constructed Transform.None IntegrandType.integrand_t
            FitFunction.void_template).logger := by
  refine ⟨Example.args_allUnset (-1) 0, _, rfl, rfl, rfl, ?_⟩
  decide

/-- Claim C11, amended: when `transform_id` and `fitfunction_id` are the values of a
compiled-in transform `t` and of a fit function enumerator `f`, and every tuning field is at
the sentinel 0 (with `seed = 0` and `generatingvectors_id = 0`), the returned integrator is the
default-constructed integrator of its specialization in every member except `logger`, which
is `std::cerr`.  This holds for `allocate_integrators_Qmc`, and for the two CUDA functions
called with `number_of_devices = 0`. -/
theorem unset_fields_keep_defaults (lib : QmcLibrary D G R L)
    (pylink_qmc_cases : List QmcCase) (a : COMMON_ALLOCATE_QMC_ARGS D) (devices : Nat → Int)
    (t : qmc_transform_t) (f : qmc_fitfunction_t) (ht : compiled_in pylink_qmc_cases t)
    (hid : a.transform_id = t.toInt) (hf : a.fitfunction_id = f.toInt)
    (h0 : AllUnset lib a) :
    allocate_integrators_Qmc lib pylink_qmc_cases a
        = Except.ok { new_Qmc lib t.transform IntegrandType.integrand_t f.fitfunction with
            logger := lib.cerr }
      ∧ allocate_cuda_integrators_Qmc_together lib pylink_qmc_cases a 0 devices
        = Except.ok { new_Qmc lib t.transform IntegrandType.cuda_together_integrand_t
            f.fitfunction with logger := lib.cerr }
      ∧ allocate_cuda_integrators_Qmc_separate lib pylink_qmc_cases a 0 devices
        = Except.ok { new_Qmc lib t.transform IntegrandType.cuda_integrand_t
            f.fitfunction with logger := lib.cerr } := by
  refine ⟨?_, ?_, ?_⟩
  · rw [allocate_integrators_Qmc_compiled_in lib pylink_qmc_cases a t ht hid, hf,
      fitfunction_branches_of_enumerator, SET_QMC_ARGS_AND_RETURN,
      SET_COMMON_QMC_ARGS_of_allUnset lib a _ h0]
  · rw [allocate_cuda_integrators_Qmc_together_compiled_in lib pylink_qmc_cases a 0 devices t
      ht hid, hf, fitfunction_branches_of_enumerator, SET_QMC_ARGS_WITH_DEVICES_AND_RETURN_zero,
      SET_COMMON_QMC_ARGS_of_allUnset lib a _ h0]
  · rw [allocate_cuda_integrators_Qmc_separate_compiled_in lib pylink_qmc_cases a 0 devices t
      ht hid, hf, fitfunction_branches_of_enumerator, SET_QMC_ARGS_WITH_DEVICES_AND_RETURN_zero,
      SET_COMMON_QMC_ARGS_of_allUnset lib a _ h0]

/-- Claim C11, amended, at a concrete call: `korobov3x2` with `polysingular` and every tuning
field 0 returns the default-constructed `Korobov<3,2>` / `PolySingular` integrator with the
logger replaced by `std::cerr`; its `minn` is the default 8191. -/
theorem unset_fields_keep_defaults_witness :
    ∃ q, allocate_integrators_Qmc Example.lib
          [QmcCase.CASE_SIDI_QMC Degree.d1, QmcCase.CASE_KOROBOV_QMC Degree.d3 Degree.d2]
          (Example.args 14 1 0) = Except.ok q
      ∧ q.minn = 8191 ∧ q.cputhreads = 8 ∧ q.generatingvectors = "cbcpt_dn1_100"
      ∧ q.randomgenerator = none ∧ q.logger = "std::cerr" :=
  ⟨_, (unset_fields_keep_defaults Example.lib
      [QmcCase.CASE_SIDI_QMC Degree.d1, QmcCase.CASE_KOROBOV_QMC Degree.d3 Degree.d2]
      (Example.args 14 1 0) Example.devices
      (qmc_transform_t.korobov Degree.d3 Degree.d2) qmc_fitfunction_t.polysingular
      Example.compiled_in_korobov3x2 rfl rfl (Example.args_allUnset 14 1)).1,
    rfl, rfl, rfl, rfl, rfl⟩

/-- Claim C12 fails as stated: with `number_of_devices = 0`, `transform_id = no_transform` and
`fitfunction_id = default_fitfunction`, both CUDA allocate functions return an integrator. -/
theorem empty_device_list_counterexample :
    (∃ q, allocate_cuda_integrators_Qmc_together Example.lib [] (Example.args (-1) 0 0) 0
        Example.devices = Except.ok q)
      ∧ ∃ q, allocate_cuda_integrators_Qmc_separate Example.lib [] (Example.args (-1) 0 0) 0
        Example.devices = Except.ok q :=
  ⟨⟨_, rfl⟩, ⟨_, rfl⟩⟩

/-- Claim C12, amended: for the two CUDA allocate functions, a call with
`number_of_devices = 0` and the values of a compiled-in transform and of a fit function
enumerator as ids does not fail: it returns the integrator that the common statements
produce, whose device set is the device set of the default-constructed integrator. -/
theorem empty_device_list_keeps_default_devices (lib : QmcLibrary D G R L)
    (pylink_qmc_cases : List QmcCase) (a : COMMON_ALLOCATE_QMC_ARGS D) (devices : Nat → Int)
    (t : qmc_transform_t) (f : qmc_fitfunction_t) (ht : compiled_in pylink_qmc_cases t)
    (hid : a.transform_id = t.toInt) (hf : a.fitfunction_id = f.toInt) :
    (∃ q, allocate_cuda_integrators_Qmc_together lib pylink_qmc_cases a 0 devices = Except.ok q
        ∧ q = SET_COMMON_QMC_ARGS lib a
            (new_Qmc lib t.transform IntegrandType.cuda_together_integrand_t f.fitfunction)
        ∧ q.devices = (lib.default_constructed t.transform
            IntegrandType.cuda_together_integrand_t f.fitfunction).devices)
      ∧ ∃ q, allocate_cuda_integrators_Qmc_separate lib pylink_qmc_cases a 0 devices
          = Except.ok q
        ∧ q = SET_COMMON_QMC_ARGS lib a
            (new_Qmc lib t.transform IntegrandType.cuda_integrand_t f.fitfunction)
        ∧ q.devices = (lib.default_constructed t.transform
            IntegrandType.cuda_integrand_t f.fitfunction).devices := by
  refine ⟨⟨_, ?_, rfl, ?_⟩, ⟨_, ?_, rfl, ?_⟩⟩
  · rw [allocate_cuda_integrators_Qmc_together_compiled_in lib pylink_qmc_cases a 0 devices t
      ht hid, hf, fitfunction_branches_of_enumerator, SET_QMC_ARGS_WITH_DEVICES_AND_RETURN_zero]
  · exact (SET_COMMON_QMC_ARGS_spec lib a _).2.2.2.2
  · rw [allocate_cuda_integrators_Qmc_separate_compiled_in lib pylink_qmc_cases a 0 devices t
      ht hid, hf, fitfunction_branches_of_enumerator, SET_QMC_ARGS_WITH_DEVICES_AND_RETURN_zero]
  · exact (SET_COMMON_QMC_ARGS_spec lib a _).2.2.2.2

/-- Claim C12, amended, at a concrete call: `baker` with `no_fit` and an empty device list
returns an integrator with the default device set `{-1, 0}` of the library instance. -/
theorem empty_device_list_keeps_default_devices_witness :
    ∃ q, allocate_cuda_integrators_Qmc_together Example.lib [] (Example.args (-2) (-1) 0) 0
        Example.devices = Except.ok q
      ∧ q.devices = {-1, 0} := by
  obtain ⟨q, h1, _, h3⟩ := (empty_device_list_keeps_default_devices Example.lib []
    (Example.args (-2) (-1) 0) Example.devices qmc_transform_t.baker qmc_fitfunction_t.no_fit
    (Or.inr (Or.inl rfl)) rfl rfl).1
  exact ⟨q, h1, h3⟩

/-- Claim C13: for the two CUDA allocate functions, with the values of a compiled-in transform
and of a fit function enumerator as ids and `number_of_devices = n > 0`, the device set of the
returned integrator is exactly the set of `devices[0]`, ..., `devices[n-1]`, whatever the
default device set was; for `allocate_integrators_Qmc` the device set of the returned
integrator is that of the default-constructed integrator. -/
theorem device_set_replaced (lib : QmcLibrary D G R L)
    (pylink_qmc_cases : List QmcCase) (a : COMMON_ALLOCATE_QMC_ARGS D)
    (number_of_devices : Nat) (devices : Nat → Int)
    (t : qmc_transform_t) (f : qmc_fitfunction_t) (ht : compiled_in pylink_qmc_cases t)
    (hid : a.transform_id = t.toInt) (hf : a.fitfunction_id = f.toInt)
    (hn : 0 < number_of_devices) :
    (∃ q, allocate_cuda_integrators_Qmc_together lib pylink_qmc_cases a number_of_devices
          devices = Except.ok q
        ∧ q.devices = (Finset.range number_of_devices).image devices
        ∧ ∀ d, d ∈ q.devices ↔ ∃ i, i < number_of_devices ∧ devices i = d)
      ∧ (∃ q, allocate_cuda_integrators_Qmc_separate lib pylink_qmc_cases a number_of_devices
          devices = Except.ok q
        ∧ q.devices = (Finset.range number_of_devices).image devices
        ∧ ∀ d, d ∈ q.devices ↔ ∃ i, i < number_of_devices ∧ devices i = d)
      ∧ ∃ q, allocate_integrators_Qmc lib pylink_qmc_cases a = Except.ok q
        ∧ q.devices = (lib.default_constructed t.transform IntegrandType.integrand_t
            f.fitfunction).devices := by
  have hdev : ∀ q : Qmc D G R L,
      (SET_QMC_ARGS_WITH_DEVICES_AND_RETURN lib a number_of_devices devices q).devices
        = (Finset.range number_of_devices).image devices := by
    intro q
    rw [SET_QMC_ARGS_WITH_DEVICES_AND_RETURN_devices, if_pos hn]
  have hmem : ∀ q : Qmc D G R L, ∀ d,
      d ∈ (SET_QMC_ARGS_WITH_DEVICES_AND_RETURN lib a number_of_devices devices q).devices
        ↔ ∃ i, i < number_of_devices ∧ devices i = d := by
    intro q d
    rw [hdev q]
    simp [Finset.mem_image]
  refine ⟨⟨SET_QMC_ARGS_WITH_DEVICES_AND_RETURN lib a number_of_devices devices
      (new_Qmc lib t.transform IntegrandType.cuda_together_integrand_t f.fitfunction),
      ?_, hdev _, hmem _⟩,
    ⟨SET_QMC_ARGS_WITH_DEVICES_AND_RETURN lib a number_of_devices devices
      (new_Qmc lib t.transform IntegrandType.cuda_integrand_t f.fitfunction),
      ?_, hdev _, hmem _⟩,
    ⟨SET_QMC_ARGS_AND_RETURN lib a
      (new_Qmc lib t.transform IntegrandType.integrand_t f.fitfunction), ?_, ?_⟩⟩
  · rw [allocate_cuda_integrators_Qmc_together_compiled_in lib pylink_qmc_cases a
      number_of_devices devices t ht hid, hf, fitfunction_branches_of_enumerator]
  · rw [allocate_cuda_integrators_Qmc_separate_compiled_in lib pylink_qmc_cases a
      number_of_devices devices t ht hid, hf, fitfunction_branches_of_enumerator]
  · rw [allocate_integrators_Qmc_compiled_in lib pylink_qmc_cases a t ht hid, hf,
      fitfunction_branches_of_enumerator]
  · exact (SET_COMMON_QMC_ARGS_spec lib a _).2.2.2.2

/-- Claim C13 at a concrete call: the default device set of the library instance is `{-1, 0}`;
with `number_of_devices = 2` and `devices = [0, 1]` the returned integrator has the device set
`{0, 1}`, so the default device `-1` is gone. -/
theorem device_set_replaced_witness :
    ∃ q, allocate_cuda_integrators_Qmc_separate Example.lib [] (Example.args (-1) 1 0) 2
        Example.devices = Except.ok q
      ∧ q.devices = {0, 1} ∧ (-1 : Int) ∉ q.devices := by
  obtain ⟨q, h1, h2, _⟩ := (device_set_replaced Example.lib [] (Example.args (-1) 1 0) 2
    Example.devices qmc_transform_t.no_transform qmc_fitfunction_t.polysingular
    (Or.inl rfl) rfl rfl (by decide)).2.1
  refine ⟨q, h1, ?_, ?_⟩
  · rw [h2]
    decide
  · rw [h2]
    decide

end pylink

/-! ## Theorems: integrands with parameters (claims C15, C16) -/

namespace secdecutil

namespace IntegrandContainerWithParameters

variable {T Args Pars Pars_extra : Type}

/-- Claim C16 fails on the code: `parameterized_failing` is the object `P(1, failing_integrand)`
that the constructor from a dimension and a function makes in the empty heap; its inherited
record is at address 0 and its record `result_info` at address 1.  After the evaluation at
`x = 1/3` has latched the error with id 42, `process_errors()` raises it, and after
`clear_errors()` (the inherited method, which resets the inherited record at address 0) the
record behind `result_info` at address 1 still holds the error and `process_errors()` raises
it again. -/
theorem clear_errors_misses_own_slot :
    (@new_from_integrand ℚ ℚ ℚ ℚ 1 Example.failing_integrand Heap.empty).2 = Example.heap2
      ∧ Example.parameterized_failing.base_result_info = 0
      ∧ Example.parameterized_failing.result_info = 1
      ∧ Example.parameterized_failing.process_errors
          (Example.parameterized_failing.call (1 / 3) Example.heap2).2
        = Except.error (Exception.sign_check_error
            "\"contour deformation polynomial\", signCheckId=42")
      ∧ Example.parameterized_failing.process_errors
          (Example.parameterized_failing.clear_errors
            (Example.parameterized_failing.call (1 / 3) Example.heap2).2)
        = Except.error (Exception.sign_check_error
            "\"contour deformation polynomial\", signCheckId=42") := by
  refine ⟨rfl, rfl, rfl, ?_, ?_⟩
  · rfl
  · rfl

end IntegrandContainerWithParameters

end secdecutil

/-! ## Theorems: the zero integrand and compound assignment (claims C19, C20) -/

namespace secdecutil

namespace IntegrandContainer

variable {T Args : Type}

theorem compound_assignment_eq [Add T] [Sub T] [Mul T] [Div T] (op : Operation)
    (lhs_first : Bool) (A B : IntegrandContainer T Args) (h : Heap) :
    compound_assignment op lhs_first A B h = binary_operator op lhs_first A B h := by
  cases op <;> rfl

theorem mmap_read_of_lt (h : Heap) (p : Nat) (hp : p < h.next) :
    h.mmap.2.read p = h.read p := by
  simp only [Heap.mmap, Heap.read]
  exact Function.update_noteq (Nat.ne_of_lt hp) _ _

/-- Claim C19: the default-constructed integrand `Z` has dimension 0 and its call returns the
zero value `T()` at every argument; and for a value type in which the zero value is neutral for
`+`, and every integrand `A` of non-negative dimension (whose values do not depend on the
error record), both `Z + A` and `A + Z` have the dimension of `A` and their calls return
`A(x)` at every `x`. -/
theorem zero_integrand_is_identity [AddZeroClass T] [Sub T] [Mul T] [Div T] (lhs_first : Bool)
    (A : IntegrandContainer T Args) (h h1 : Heap) (hA : A.PureValue)
    (hd : 0 ≤ A.number_of_integration_variables) :
    (@new_default T Args _ h).1.number_of_integration_variables = 0
      ∧ (∀ (x : Args) (m : Heap), ((@new_default T Args _ h).1.call x m).1 = 0)
      ∧ (operator_add lhs_first (new_default h).1 A h1).1.number_of_integration_variables
          = A.number_of_integration_variables
      ∧ (operator_add lhs_first A (new_default h).1 h1).1.number_of_integration_variables
          = A.number_of_integration_variables
      ∧ ∀ (x : Args) (m mA : Heap),
          ((operator_add lhs_first (new_default h).1 A h1).1.call x m).1 = (A.call x mA).1
            ∧ ((operator_add lhs_first A (new_default h).1 h1).1.call x m).1
              = (A.call x mA).1 := by
  refine ⟨rfl, fun _ _ => rfl, ?_, ?_, ?_⟩
  · exact max_eq_right hd
  · exact max_eq_left hd
  · intro x m mA
    constructor
    · cases lhs_first
      · simp only [operator_add, add_subtract_multiply_or_divide, new, call, eval_operands,
          new_default, Bool.false_eq_true, if_false, zero_add]
        exact hA x _ _
      · simp only [operator_add, add_subtract_multiply_or_divide, new, call, eval_operands,
          new_default, if_true, zero_add]
        exact hA x _ _
    · cases lhs_first
      · simp only [operator_add, add_subtract_multiply_or_divide, new, call, eval_operands,
          new_default, Bool.false_eq_true, if_false, add_zero]
        exact hA x _ _
      · simp only [operator_add, add_subtract_multiply_or_divide, new, call, eval_operands,
          new_default, if_true, add_zero]
        exact hA x _ _

/-- Claim C19 at a concrete integrand: for `A` constantly 3 over 2 variables and the zero
integrand `Z` allocated after it, `Z + A` and `A + Z` are over 2 variables and return 3. -/
theorem zero_integrand_is_identity_witness :
    Example.three.PureValue ∧ 0 ≤ Example.three.number_of_integration_variables
      ∧ (operator_add true (new_default Example.heap2).1 Example.three
          (@new_default ℚ (ℚ × ℚ) _ Example.heap2).2).1.number_of_integration_variables
          = 2
      ∧ ((operator_add true (new_default Example.heap2).1 Example.three
          (@new_default ℚ (ℚ × ℚ) _ Example.heap2).2).1.call (1 / 2, 1 / 3)
            Example.heap4).1 = 3
      ∧ ((operator_add false Example.three (new_default Example.heap2).1
          (@new_default ℚ (ℚ × ℚ) _ Example.heap2).2).1.call (1 / 2, 1 / 3)
            Example.heap4).1 = 3 := by
  have hpure : Example.three.PureValue := fun _ _ _ => rfl
  have hd : 0 ≤ Example.three.number_of_integration_variables := by decide
  refine ⟨hpure, hd, ?_, ?_, ?_⟩
  · rw [(zero_integrand_is_identity true Example.three Example.heap2
      (@new_default ℚ (ℚ × ℚ) _ Example.heap2).2 hpure hd).2.2.1]
    rfl
  · rw [((zero_integrand_is_identity true Example.three Example.heap2
      (@new_default ℚ (ℚ × ℚ) _ Example.heap2).2 hpure hd).2.2.2.2
        (1 / 2, 1 / 3) Example.heap4 Example.heap4).1]
    rfl
  · rw [((zero_integrand_is_identity false Example.three Example.heap2
      (@new_default ℚ (ℚ × ℚ) _ Example.heap2).2 hpure hd).2.2.2.2
        (1 / 2, 1 / 3) Example.heap4 Example.heap4).2]
    rfl

/-- Claim C20: for integrands `A` and `B` (whose values do not depend on the error record) and
every operator `op` of `+ - * /`, the compound assignment `A op= B` makes `A` the result of the
binary operator applied to the old `A` and `B`: its dimension is `max(dA_old, dB)` and its
call at `x` returns `A_old(x) op B(x)`.  `B` is taken by reference to const, and its record in
the memory is left as it was. -/
theorem compound_assignment_is_binary_operator [Add T] [Sub T] [Mul T] [Div T]
    (op : Operation) (lhs_first : Bool) (A B : IntegrandContainer T Args) (h : Heap)
    (hA : A.PureValue) (hB : B.PureValue) (hBslot : B.result_info < h.next) :
    compound_assignment op lhs_first A B h = binary_operator op lhs_first A B h
      ∧ (compound_assignment op lhs_first A B h).1.number_of_integration_variables
          = max A.number_of_integration_variables B.number_of_integration_variables
      ∧ (∀ (x : Args) (m mA mB : Heap),
          ((compound_assignment op lhs_first A B h).1.call x m).1
            = arith op (A.call x mA).1 (B.call x mB).1)
      ∧ (compound_assignment op lhs_first A B h).2.read B.result_info
          = h.read B.result_info := by
  rw [compound_assignment_eq]
  refine ⟨rfl, ?_, ?_, ?_⟩
  · cases op <;> rfl
  · intro x m mA mB
    simp only [call, binary_operator_integrand]
    obtain ⟨e1, e2⟩ := eval_operands_values lhs_first A B hA hB x
      (m.read (binary_operator op lhs_first A B h).1.result_info)
      (mA.read A.result_info) (mB.read B.result_info)
    rw [e1, e2]
  · rw [binary_operator_heap]
    exact mmap_read_of_lt h _ hBslot

/-- Claim C20 at a concrete pair: `A` constantly 3 and `B` constantly 4 over 2 variables; after
`A *= B` the integrand `A` returns 12, and after `A -= B` it returns -1. -/
theorem compound_assignment_is_binary_operator_witness :
    ((compound_assignment Operation.multiply true Example.three Example.four
        Example.heap2).1.call (1 / 2, 1 / 3) Example.heap4).1 = 12
      ∧ ((compound_assignment Operation.subtract true Example.three Example.four
        Example.heap2).1.call (1 / 2, 1 / 3) Example.heap4).1 = -1 := by
  constructor
  · rw [(compound_assignment_is_binary_operator Operation.multiply true Example.three
      Example.four Example.heap2 (fun _ _ _ => rfl) (fun _ _ _ => rfl) (by decide)).2.2.1
      (1 / 2, 1 / 3) Example.heap4 Example.heap4 Example.heap4]
    show (3 : ℚ) * 4 = 12
    norm_num
  · rw [(compound_assignment_is_binary_operator Operation.subtract true Example.three
      Example.four Example.heap2 (fun _ _ _ => rfl) (fun _ _ _ => rfl) (by decide)).2.2.1
      (1 / 2, 1 / 3) Example.heap4 Example.heap4 Example.heap4]
    show (3 : ℚ) - 4 = -1
    norm_num

end IntegrandContainer

end secdecutil

/-! ## Theorems: unary operators, call, real and imaginary part, copies (claims C21 to C26) -/

namespace secdecutil

namespace IntegrandContainer

variable {T Args : Type}

theorem new_result_info (n : Int) (f : Args → ResultInfo → T × ResultInfo) (h : Heap) :
    (new n f h).1.result_info = h.next := rfl

theorem operator_unary_minus_of_live_operand [Neg T] (A : IntegrandContainer T Args)
    (h : Heap) (hA : A.PureValue) :
    (operator_unary_minus A A h).1.number_of_integration_variables
        = A.number_of_integration_variables
      ∧ ∀ (x : Args) (m mA : Heap),
          ((operator_unary_minus A A h).1.call x m).1 = - (A.call x mA).1 := by
  refine ⟨rfl, ?_⟩
  intro x m mA
  simp only [operator_unary_minus, new, call]
  rw [hA x _ (mA.read A.result_info)]

/-- Claim C21 fails on the code: `N = -A` is formed from `A` constantly 3 over 2 variables, and
then `A = B` assigns `B`, constantly 5 over 1 variable, to the operand.  The closure of `N`
reads the operand through `this`, so `N` now returns -5 where `-(A(x))` for the integrand it
was formed from is -3, while its dimension is still 2 where that of the assigned integrand
is 1: `N` is the negation neither of the one nor of the other. -/
theorem unary_minus_follows_reassigned_operand :
    (operator_unary_minus Example.three Example.five
        Example.heap2).1.number_of_integration_variables = 2
      ∧ Example.five.number_of_integration_variables = 1
      ∧ ((operator_unary_minus Example.three Example.five Example.heap2).1.call (1 / 2, 1 / 3)
          Example.heap4).1 = -5
      ∧ - (Example.three.call (1 / 2, 1 / 3) Example.heap4).1 = -3
      ∧ - (Example.five.call (1 / 2, 1 / 3) Example.heap4).1 = -5 := by
  refine ⟨rfl, rfl, rfl, rfl, rfl⟩

/-- Claim C22: for every integrand `A`, the integrand `+A` has the dimension, the error record,
the evaluation function and the display name of `A`; every call of `+A` does what the same
call of `A` does, on the value and on the memory, and `process_errors()` gives the same on
both. -/
theorem unary_plus_is_identity (A : IntegrandContainer T Args) :
    (operator_unary_plus A).number_of_integration_variables
        = A.number_of_integration_variables
      ∧ (operator_unary_plus A).result_info = A.result_info
      ∧ (operator_unary_plus A).integrand = A.integrand
      ∧ (operator_unary_plus A).display_name = A.display_name
      ∧ (∀ (x : Args) (m : Heap), (operator_unary_plus A).call x m = A.call x m)
      ∧ ∀ m : Heap, (operator_unary_plus A).process_errors m = A.process_errors m :=
  ⟨rfl, rfl, rfl, rfl, fun _ _ => rfl, fun _ => rfl⟩

/-- Claim C23: the call `A(x)` returns the value of `integrand(x, result_info.get())` and stores
what the integrand leaves in that record; it yields a value in every memory, also one in which
the record already holds a latched error.  For a primitive integrand that files reports, the
call returns `f x` whatever it reports and whatever the record held, and the reports show only
in what `process_errors()` finds in the record afterwards. -/
theorem call_returns_value_without_check (A : IntegrandContainer T Args) (x : Args) (m : Heap)
    (n : Int) (f : Args → T) (reports : Args → List ResultInfo) (h : Heap) :
    (A.call x m).1 = (A.integrand x (m.read A.result_info)).1
      ∧ (A.call x m).2 = m.write A.result_info (A.integrand x (m.read A.result_info)).2
      ∧ ((new n (primitive f reports) h).1.call x m).1 = f x
      ∧ (new n (primitive f reports) h).1.process_errors
          ((new n (primitive f reports) h).1.call x m).2
        = ((m.read (new n (primitive f reports) h).1.result_info).fill_all
            (reports x)).process_errors := by
  refine ⟨rfl, rfl, rfl, ?_⟩
  simp only [process_errors, call, Heap.read, Heap.write, Function.update_same]
  rfl

end IntegrandContainer

namespace complex_to_real

variable {T Args : Type}

/-- Claim C24: for every complex-valued integrand `A` (whose values do not depend on the error
record), the integrands `real(A)` and `imag(A)` have the dimension of `A`, and their calls at
`x` return the real part and the imaginary part of `A(x)`. -/
theorem real_imag_values (A : IntegrandContainer (complex_template T) Args) (h : Heap)
    (hA : A.PureValue) :
    (real A h).1.number_of_integration_variables = A.number_of_integration_variables
      ∧ (imag A h).1.number_of_integration_variables = A.number_of_integration_variables
      ∧ ∀ (x : Args) (m mA : Heap),
          ((real A h).1.call x m).1 = (A.call x mA).1.real
            ∧ ((imag A h).1.call x m).1 = (A.call x mA).1.imag := by
  refine ⟨rfl, rfl, ?_⟩
  intro x m mA
  simp only [real, imag, IntegrandContainer.new, IntegrandContainer.call]
  rw [hA x _ (mA.read A.result_info)]
  exact ⟨rfl, rfl⟩

/-- Claim C24 at a concrete integrand: for `A` returning `3 + 4i` over 2 variables, `real(A)`
returns 3 and `imag(A)` returns 4, both over 2 variables. -/
theorem real_imag_values_witness :
    (real Example.complex_failing Example.heap1).1.number_of_integration_variables = 2
      ∧ ((real Example.complex_failing Example.heap1).1.call (1 / 2, 1 / 3) Example.heap2).1 = 3
      ∧ ((imag Example.complex_failing Example.heap1).1.call (1 / 2, 1 / 3) Example.heap2).1
          = 4 := by
  have hpure : Example.complex_failing.PureValue := fun _ _ _ => rfl
  refine ⟨?_, ?_, ?_⟩
  · rw [(real_imag_values Example.complex_failing Example.heap1 hpure).1]
    rfl
  · rw [((real_imag_values Example.complex_failing Example.heap1 hpure).2.2 (1 / 2, 1 / 3)
      Example.heap2 Example.heap2).1]
    rfl
  · rw [((real_imag_values Example.complex_failing Example.heap1 hpure).2.2 (1 / 2, 1 / 3)
      Example.heap2 Example.heap2).2]
    rfl

/-- Claim C25 fails as stated: `A` has its record at address 0; the record of `real(A)`, made in
the heap where only address 0 is taken, is at the new address 1, and so is that of `imag(A)`.
After an evaluation of `real(A)`, during which the integrand of `A` reports an error,
`process_errors()` raises on `real(A)` and succeeds on `A`. -/
theorem real_slot_is_operand_slot_counterexample :
    Example.complex_failing.result_info = 0
      ∧ (real Example.complex_failing Example.heap1).1.result_info = 1
      ∧ (imag Example.complex_failing Example.heap1).1.result_info = 1
      ∧ (real Example.complex_failing Example.heap1).1.process_errors
          ((real Example.complex_failing Example.heap1).1.call (1 / 2, 1 / 3)
            (real Example.complex_failing Example.heap1).2).2
        = Except.error (Exception.sign_check_error "\"positive polynomial\", signCheckId=7")
      ∧ Example.complex_failing.process_errors
          ((real Example.complex_failing Example.heap1).1.call (1 / 2, 1 / 3)
            (real Example.complex_failing Example.heap1).2).2
        = Except.ok () := by
  refine ⟨rfl, rfl, rfl, ?_, ?_⟩
  · rfl
  · rfl

/-- Claim C25, amended: for a complex-valued integrand `A` whose record is allocated, the
records of `real(A)` and of `imag(A)` are newly allocated ones, different from the record of
`A`.  An evaluation of `real(A)` or `imag(A)` runs the integrand of `A` on the new record and
leaves the record of `A` as it was, so an error latched during it is raised by
`process_errors()` on `real(A)`, respectively `imag(A)`, and `process_errors()` on `A` gives
what it gave before. -/
theorem real_imag_slot_is_fresh (A : IntegrandContainer (complex_template T) Args) (h : Heap)
    (hA : A.result_info < h.next) :
    (real A h).1.result_info = h.next
      ∧ (imag A h).1.result_info = h.next
      ∧ (real A h).1.result_info ≠ A.result_info
      ∧ (imag A h).1.result_info ≠ A.result_info
      ∧ ∀ (x : Args) (m : Heap),
          ((real A h).1.call x m).2.read (real A h).1.result_info
              = (A.integrand x (m.read (real A h).1.result_info)).2
            ∧ ((imag A h).1.call x m).2.read (imag A h).1.result_info
              = (A.integrand x (m.read (imag A h).1.result_info)).2
            ∧ ((real A h).1.call x m).2.read A.result_info = m.read A.result_info
            ∧ ((imag A h).1.call x m).2.read A.result_info = m.read A.result_info
            ∧ A.process_errors ((real A h).1.call x m).2 = A.process_errors m
            ∧ A.process_errors ((imag A h).1.call x m).2 = A.process_errors m := by
  have hne : A.result_info ≠ h.next := Nat.ne_of_lt hA
  refine ⟨rfl, rfl, hne.symm, hne.symm, ?_⟩
  intro x m
  have hr := IntegrandContainer.call_read_other (real A h).1 x m A.result_info hne
  have hi := IntegrandContainer.call_read_other (imag A h).1 x m A.result_info hne
  refine ⟨?_, ?_, hr, hi, ?_, ?_⟩
  · rw [IntegrandContainer.call_read_self]
    rfl
  · rw [IntegrandContainer.call_read_self]
    rfl
  · simp only [IntegrandContainer.process_errors]
    rw [hr]
  · simp only [IntegrandContainer.process_errors]
    rw [hi]

/-- Claim C25, amended, at a concrete integrand: `A` at the allocated address 0; the record of
`imag(A)` is at address 1. -/
theorem real_imag_slot_is_fresh_witness :
    Example.complex_failing.result_info < Example.heap1.next
      ∧ (imag Example.complex_failing Example.heap1).1.result_info = 1
      ∧ (imag Example.complex_failing Example.heap1).1.result_info
          ≠ Example.complex_failing.result_info :=
  ⟨by decide,
    (real_imag_slot_is_fresh Example.complex_failing Example.heap1 (by decide)).2.1,
    (real_imag_slot_is_fresh Example.complex_failing Example.heap1 (by decide)).2.2.2.1⟩

end complex_to_real

end secdecutil

namespace secdecutil

namespace IntegrandContainer

variable {T Args : Type}

end IntegrandContainer

/-! ## Theorems: reset and the error message (claims C27, C28) -/

namespace ResultInfo

theorem message_prefixes_differ (a b : String) :
    "\"contour deformation polynomial\", signCheckId=" ++ a
      ≠ "\"positive polynomial\", signCheckId=" ++ b := by
  intro h
  have h1 := congrArg String.data h
  simp only [String.data_append] at h1
  have h2 := congrArg (fun l => l.get? 1) h1
  simp at h2

/-- Claim C27: whatever a `ResultInfo` holds, after `clear_errors()` it is empty (`filled = 0`,
`return_value = no_error`), and the next report is recorded: the record then is written with
exactly the kind and the id of that report.  On a record whose latch is set, the same report
without the reset changes nothing. -/
theorem reset_reopens_slot (s r : ResultInfo) :
    s.clear_errors.filled = 0
      ∧ s.clear_errors.return_value = ReturnValue.no_error
      ∧ s.clear_errors.fill_if_empty_threadsafe r
          = { filled := 1, return_value := r.return_value, signCheckId := r.signCheckId }
      ∧ (s.filled ≠ 0 → s.fill_if_empty_threadsafe r = s) :=
  ⟨rfl, rfl, rfl, fill_of_filled_ne_zero s r⟩

/-- Claim C27 at a concrete record: a record latched with the contour deformation error 42
drops the report of the positive polynomial error 7; after `clear_errors()` the same report is
recorded. -/
theorem reset_reopens_slot_witness :
    ({ filled := 1, return_value := ReturnValue.sign_check_error_contour_deformation,
       signCheckId := 42 } : ResultInfo).fill_if_empty_threadsafe
        { filled := 0, return_value := ReturnValue.sign_check_error_positive_polynomial,
          signCheckId := 7 }
      = { filled := 1, return_value := ReturnValue.sign_check_error_contour_deformation,
          signCheckId := 42 }
      ∧ ({ filled := 1, return_value := ReturnValue.sign_check_error_contour_deformation,
           signCheckId := 42 } : ResultInfo).clear_errors.fill_if_empty_threadsafe
          { filled := 0, return_value := ReturnValue.sign_check_error_positive_polynomial,
            signCheckId := 7 }
        = { filled := 1, return_value := ReturnValue.sign_check_error_positive_polynomial,
            signCheckId := 7 } :=
  ⟨(reset_reopens_slot
      { filled := 1, return_value := ReturnValue.sign_check_error_contour_deformation,
        signCheckId := 42 }
      { filled := 0, return_value := ReturnValue.sign_check_error_positive_polynomial,
        signCheckId := 7 }).2.2.2 (by decide),
    (reset_reopens_slot
      { filled := 1, return_value := ReturnValue.sign_check_error_contour_deformation,
        signCheckId := 42 }
      { filled := 0, return_value := ReturnValue.sign_check_error_positive_polynomial,
        signCheckId := 7 }).2.2.1⟩

/-- Claim C28: `process_errors()` throws the `sign_check_error` whose message is
`"contour deformation polynomial", signCheckId=` followed by the decimal rendering of the stored
`signCheckId` exactly when the stored kind is `sign_check_error_contour_deformation`; it throws
the one whose message is `"positive polynomial", signCheckId=` followed by that rendering
exactly when the stored kind is `sign_check_error_positive_polynomial`; and it succeeds exactly
when the stored kind is `no_error`, so every failure is one of these two. -/
theorem error_message_names_kind (s : ResultInfo) :
    (s.process_errors
          = Except.error (Exception.sign_check_error
              ("\"contour deformation polynomial\", signCheckId=" ++ to_string s.signCheckId))
        ↔ s.return_value = ReturnValue.sign_check_error_contour_deformation)
      ∧ (s.process_errors
          = Except.error (Exception.sign_check_error
              ("\"positive polynomial\", signCheckId=" ++ to_string s.signCheckId))
        ↔ s.return_value = ReturnValue.sign_check_error_positive_polynomial)
      ∧ (s.process_errors = Except.ok () ↔ s.return_value = ReturnValue.no_error) := by
  have hd := message_prefixes_differ (to_string s.signCheckId) (to_string s.signCheckId)
  cases s with
  | mk f rv id =>
    cases rv
    · simp [process_errors]
    · simp only [process_errors, if_true, true_iff, Except.error.injEq,
        Exception.sign_check_error.injEq, reduceCtorEq, iff_false, and_true, true_and]
      exact hd
    · simp only [process_errors, reduceCtorEq, if_false, if_true, true_iff, Except.error.injEq,
        Exception.sign_check_error.injEq, iff_false, and_true, true_and]
      exact fun h => hd h.symm

end ResultInfo

end secdecutil

/-! ## Theorems: the id registry (claims C29, C30) -/

namespace pylink

open secdecutil

variable {D G R L : Type}

theorem qmc_transform_t.toInt_ne_zero (t : qmc_transform_t) : t.toInt ≠ 0 := by
  cases t with
  | no_transform => decide
  | baker => decide
  | korobov a b => cases a <;> cases b <;> decide
  | sidi d => cases d <;> decide

theorem SET_COMMON_QMC_ARGS_generatingvectors (lib : QmcLibrary D G R L)
    (a : COMMON_ALLOCATE_QMC_ARGS D) (q : Qmc D G R L) :
    (SET_COMMON_QMC_ARGS lib a q).generatingvectors
      = if a.generatingvectors_id = 4 then lib.cbcpt_cfftw2_10
        else if a.generatingvectors_id = 3 then lib.cbcpt_cfftw1_6
        else if a.generatingvectors_id = 2 then lib.cbcpt_dn2_6
        else if a.generatingvectors_id = 1 then lib.cbcpt_dn1_100
        else q.generatingvectors := by
  simp only [SET_COMMON_QMC_ARGS, set_logger, set_epsrel, set_epsabs,
    set_maxeval, set_errormode, set_evaluateminn, set_minn, set_minm, set_maxnperpackage,
    set_maxmperpackage, set_cputhreads, set_cudablocks, set_cudathreadsperblock, set_verbosity,
    set_seed, set_generatingvectors_cbcpt_dn1_100, set_generatingvectors_cbcpt_dn2_6,
    set_generatingvectors_cbcpt_cfftw1_6, set_generatingvectors_cbcpt_cfftw2_10,
    qmc_generatingvectors_t.toInt, apply_ite Qmc.generatingvectors, ite_self]

theorem SET_QMC_ARGS_WITH_DEVICES_AND_RETURN_generatingvectors (lib : QmcLibrary D G R L)
    (a : COMMON_ALLOCATE_QMC_ARGS D) (number_of_devices : Nat) (devices : Nat → Int)
    (q : Qmc D G R L) :
    (SET_QMC_ARGS_WITH_DEVICES_AND_RETURN lib a number_of_devices devices q).generatingvectors
      = (SET_COMMON_QMC_ARGS lib a q).generatingvectors := by
  unfold SET_QMC_ARGS_WITH_DEVICES_AND_RETURN
  by_cases hn : number_of_devices > 0
  · simp only [hn, if_true]
  · simp only [hn, if_false]

theorem generatingvectors_of_zero (lib : QmcLibrary D G R L)
    (a : COMMON_ALLOCATE_QMC_ARGS D) (q : Qmc D G R L) (h : a.generatingvectors_id = 0) :
    (SET_COMMON_QMC_ARGS lib a q).generatingvectors = q.generatingvectors := by
  rw [SET_COMMON_QMC_ARGS_generatingvectors, h]
  simp

theorem fitfunction_of_zero (f : qmc_fitfunction_t) (h : (0 : Int) = f.toInt) :
    f.fitfunction = FitFunction.void_template := by
  cases f
  · rfl
  · exact absurd h (by decide)
  · exact absurd h (by decide)

/-- Claim C29 fails as stated: with `fitfunction_id = 0` and `generatingvectors_id = 0`, the call
with `transform_id = 0` is rejected as an unregistered `transform_id`, by all three allocate
functions. -/
theorem zero_transform_id_counterexample :
    allocate_integrators_Qmc Example.lib
        [QmcCase.CASE_SIDI_QMC Degree.d1, QmcCase.CASE_KOROBOV_QMC Degree.d3 Degree.d2]
        (Example.args 0 0 0)
      = Except.error (Exception.invalid_argument (unregistered_transform_id 0))
      ∧ allocate_cuda_integrators_Qmc_together Example.lib
        [QmcCase.CASE_SIDI_QMC Degree.d1, QmcCase.CASE_KOROBOV_QMC Degree.d3 Degree.d2]
        (Example.args 0 0 0) 1 Example.devices
      = Except.error (Exception.invalid_argument (unregistered_transform_id 0))
      ∧ allocate_cuda_integrators_Qmc_separate Example.lib
        [QmcCase.CASE_SIDI_QMC Degree.d1, QmcCase.CASE_KOROBOV_QMC Degree.d3 Degree.d2]
        (Example.args 0 0 0) 1 Example.devices
      = Except.error (Exception.invalid_argument (unregistered_transform_id 0)) :=
  ⟨rfl, rfl, rfl⟩

/-- Claim C29, amended: the value 0 is the default for `fitfunction_id` and for
`generatingvectors_id`, not for `transform_id`.  With the value of a compiled-in transform as
`transform_id` and the value of a fit function enumerator as `fitfunction_id`, each allocate
function returns an integrator; when `fitfunction_id` is 0 its fit function is the default
template argument, and when `generatingvectors_id` is 0 its generating vectors are those of the
default-constructed integrator.  With `transform_id = 0` each allocate function throws the
exception for an unregistered `transform_id`, whatever cases are generated. -/
theorem zero_id_is_default_except_transform (lib : QmcLibrary D G R L)
    (pylink_qmc_cases : List QmcCase) (a : COMMON_ALLOCATE_QMC_ARGS D)
    (number_of_devices : Nat) (devices : Nat → Int) (t : qmc_transform_t)
    (f : qmc_fitfunction_t) (ht : compiled_in pylink_qmc_cases t)
    (hid : a.transform_id = t.toInt) (hf : a.fitfunction_id = f.toInt) :
    (∃ q, allocate_integrators_Qmc lib pylink_qmc_cases a = Except.ok q
        ∧ (a.fitfunction_id = 0 → q.fitfunction = FitFunction.void_template)
        ∧ (a.generatingvectors_id = 0 → q.generatingvectors
            = (lib.default_constructed t.transform IntegrandType.integrand_t
                f.fitfunction).generatingvectors))
      ∧ (∃ q, allocate_cuda_integrators_Qmc_together lib pylink_qmc_cases a number_of_devices
            devices = Except.ok q
        ∧ (a.fitfunction_id = 0 → q.fitfunction = FitFunction.void_template)
        ∧ (a.generatingvectors_id = 0 → q.generatingvectors
            = (lib.default_constructed t.transform IntegrandType.cuda_together_integrand_t
                f.fitfunction).generatingvectors))
      ∧ (∃ q, allocate_cuda_integrators_Qmc_separate lib pylink_qmc_cases a number_of_devices
            devices = Except.ok q
        ∧ (a.fitfunction_id = 0 → q.fitfunction = FitFunction.void_template)
        ∧ (a.generatingvectors_id = 0 → q.generatingvectors
            = (lib.default_constructed t.transform IntegrandType.cuda_integrand_t
                f.fitfunction).generatingvectors))
      ∧ ∀ a0 : COMMON_ALLOCATE_QMC_ARGS D, a0.transform_id = 0 →
          allocate_integrators_Qmc lib pylink_qmc_cases a0
            = Except.error (Exception.invalid_argument (unregistered_transform_id 0))
          ∧ allocate_cuda_integrators_Qmc_together lib pylink_qmc_cases a0 number_of_devices
              devices
            = Except.error (Exception.invalid_argument (unregistered_transform_id 0))
          ∧ allocate_cuda_integrators_Qmc_separate lib pylink_qmc_cases a0 number_of_devices
              devices
            = Except.error (Exception.invalid_argument (unregistered_transform_id 0)) := by
  have hff : a.fitfunction_id = 0 → f.fitfunction = FitFunction.void_template := by
    intro h0
    exact fitfunction_of_zero f (by rw [← h0, hf])
  refine ⟨⟨SET_QMC_ARGS_AND_RETURN lib a
      (new_Qmc lib t.transform IntegrandType.integrand_t f.fitfunction), ?_, ?_, ?_⟩,
    ⟨SET_QMC_ARGS_WITH_DEVICES_AND_RETURN lib a number_of_devices devices
      (new_Qmc lib t.transform IntegrandType.cuda_together_integrand_t f.fitfunction),
      ?_, ?_, ?_⟩,
    ⟨SET_QMC_ARGS_WITH_DEVICES_AND_RETURN lib a number_of_devices devices
      (new_Qmc lib t.transform IntegrandType.cuda_integrand_t f.fitfunction), ?_, ?_, ?_⟩, ?_⟩
  · rw [allocate_integrators_Qmc_compiled_in lib pylink_qmc_cases a t ht hid, hf,
      fitfunction_branches_of_enumerator]
  · intro h0
    rw [(SET_QMC_ARGS_AND_RETURN_spec lib a _).2.2.2]
    exact hff h0
  · intro h0
    exact generatingvectors_of_zero lib a _ h0
  · rw [allocate_cuda_integrators_Qmc_together_compiled_in lib pylink_qmc_cases a
      number_of_devices devices t ht hid, hf, fitfunction_branches_of_enumerator]
  · intro h0
    rw [(SET_QMC_ARGS_WITH_DEVICES_AND_RETURN_spec lib a number_of_devices devices _).2.2.2]
    exact hff h0
  · intro h0
    rw [SET_QMC_ARGS_WITH_DEVICES_AND_RETURN_generatingvectors]
    exact generatingvectors_of_zero lib a _ h0
  · rw [allocate_cuda_integrators_Qmc_separate_compiled_in lib pylink_qmc_cases a
      number_of_devices devices t ht hid, hf, fitfunction_branches_of_enumerator]
  · intro h0
    rw [(SET_QMC_ARGS_WITH_DEVICES_AND_RETURN_spec lib a number_of_devices devices _).2.2.2]
    exact hff h0
  · intro h0
    rw [SET_QMC_ARGS_WITH_DEVICES_AND_RETURN_generatingvectors]
    exact generatingvectors_of_zero lib a _ h0
  · intro a0 h0
    have hun : ∀ t0, compiled_in pylink_qmc_cases t0 → a0.transform_id ≠ t0.toInt := by
      intro t0 _ heq
      exact qmc_transform_t.toInt_ne_zero t0 (by rw [← heq, h0])
    rw [← h0]
    exact ⟨dispatch_unregistered lib _ _ _ _ pylink_qmc_cases hun,
      dispatch_unregistered lib _ _ _ _ pylink_qmc_cases hun,
      dispatch_unregistered lib _ _ _ _ pylink_qmc_cases hun⟩

/-- Claim C29, amended, at a concrete call: `transform_id = baker` with `fitfunction_id = 0` and
`generatingvectors_id = 0` returns an integrator with the default fit function argument and the
default generating vectors of the library instance. -/
theorem zero_id_is_default_except_transform_witness :
    ∃ q, allocate_integrators_Qmc Example.lib [] (Example.args (-2) 0 0) = Except.ok q
      ∧ q.fitfunction = FitFunction.void_template
      ∧ q.generatingvectors = "cbcpt_dn1_100" := by
  obtain ⟨q, h1, h2, h3⟩ := (zero_id_is_default_except_transform Example.lib []
    (Example.args (-2) 0 0) 0 Example.devices qmc_transform_t.baker
    qmc_fitfunction_t.default_fitfunction (Or.inr (Or.inl rfl)) rfl rfl).1
  exact ⟨q, h1, h2 rfl, h3 rfl⟩

/-- Claim C30 fails as stated: `sidi1` belongs to a degree-parameterized family and its id is
-11, which is not positive. -/
theorem sidi_id_negative_counterexample :
    (qmc_transform_t.sidi Degree.d1).degree_parameterized = true
      ∧ (qmc_transform_t.sidi Degree.d1).toInt = -11
      ∧ ¬ (0 < (qmc_transform_t.sidi Degree.d1).toInt) := by
  refine ⟨rfl, rfl, ?_⟩
  decide

/-- Claim C30, amended: in `qmc_transform_t`, `no_transform` and `baker` have the negative ids
-1 and -2, every `korobov<a>x<b>` has a positive id (from 1 to 36) and every `sidi<d>` has a
negative id (from -16 to -11).  A transform is degree-parameterized exactly when its id is
positive or at most -11; the sign alone does not tell `sidi` from the transforms without
degree. -/
theorem transform_id_ranges :
    qmc_transform_t.no_transform.toInt = -1
      ∧ qmc_transform_t.baker.toInt = -2
      ∧ (∀ a b : Degree, 1 ≤ (qmc_transform_t.korobov a b).toInt
          ∧ (qmc_transform_t.korobov a b).toInt ≤ 36)
      ∧ (∀ d : Degree, -16 ≤ (qmc_transform_t.sidi d).toInt
          ∧ (qmc_transform_t.sidi d).toInt ≤ -11)
      ∧ ∀ t : qmc_transform_t,
          (t.degree_parameterized = true ↔ (0 < t.toInt ∨ t.toInt ≤ -11)) := by
  refine ⟨rfl, rfl, ?_, ?_, ?_⟩
  · intro a b
    cases a <;> cases b <;> decide
  · intro d
    cases d <;> decide
  · intro t
    cases t with
    | no_transform => decide
    | baker => decide
    | korobov a b => cases a <;> cases b <;> decide
    | sidi d => cases d <;> decide

end pylink

/-! ## Theorems: concurrent reports (claim C31) -/

namespace secdecutil

namespace ConcurrentState

theorem invariant_step (N : Nat) (r : Nat → ResultInfo) (i : Nat) (s : ConcurrentState)
    (h : Invariant N r s) : Invariant N r (thread_step N r i s) := by
  unfold thread_step
  by_cases hi : i < N
  swap
  · rw [if_neg hi]
    exact h
  rw [if_pos hi]
  rcases h with ⟨h0, hall⟩ | ⟨w, hw, h1, hpw, hoth, hrv, hdone⟩
  · -- nobody has won: thread i is at compare_exchange and wins
    rw [hall i]
    simp only [h0, if_true]
    right
    refine ⟨i, hi, rfl, ?_, ?_, ?_, ?_⟩
    · simp
    · intro j hj
      left
      simp only [Function.update_noteq hj]
      exact hall j
    · simp
    · simp
  · -- thread w has won
    have hf : s.slot.filled ≠ 0 := by rw [h1]; decide
    by_cases hiw : i = w
    · subst hiw
      right
      cases hpc : s.pc i with
      | compare_exchange => exact absurd hpc hpw
      | store_return_value =>
        refine ⟨i, hi, h1, ?_, ?_, ?_, ?_⟩
        · simp
        · intro j hj
          simp only [Function.update_noteq hj]
          exact hoth j hj
        · intro _
          rfl
        · simp
      | store_signCheckId =>
        refine ⟨i, hi, h1, ?_, ?_, ?_, ?_⟩
        · simp
        · intro j hj
          simp only [Function.update_noteq hj]
          exact hoth j hj
        · simp
        · intro _
          exact ⟨hrv hpc, rfl⟩
      | returned =>
        exact ⟨i, hi, h1, hpw, hoth, hrv, hdone⟩
    · right
      rcases hoth i hiw with hpc | hpc
      · rw [hpc]
        simp only [hf, if_false]
        refine ⟨w, hw, h1, ?_, ?_, ?_, ?_⟩
        · simp only [Function.update_noteq (Ne.symm hiw)]
          exact hpw
        · intro j hj
          by_cases hji : j = i
          · subst hji
            right
            simp
          · simp only [Function.update_noteq hji]
            exact hoth j hj
        · simp only [Function.update_noteq (Ne.symm hiw)]
          exact hrv
        · simp only [Function.update_noteq (Ne.symm hiw)]
          exact hdone
      · rw [hpc]
        exact ⟨w, hw, h1, hpw, hoth, hrv, hdone⟩

theorem invariant_run (N : Nat) (r : Nat → ResultInfo) (schedule : List Nat)
    (s : ConcurrentState) (h : Invariant N r s) : Invariant N r (run N r schedule s) := by
  induction schedule generalizing s with
  | nil => exact h
  | cons i rest ih => exact ih (thread_step N r i s) (invariant_step N r i s h)

/-- Claim C31: `N ≥ 1` threads call `fill_if_empty_threadsafe` at the same time on one empty
record, thread `i` with the argument `result_info_new i`.  For every interleaving of their
steps after which all `N` calls have returned, there is one thread `w` such that the record is
written (`filled = 1`) with the kind and the id of the call of `w`, both from that one call, so
`process_errors()` afterwards sees the report of `w` and of no other call; when the ids of the
calls are distinct, `w` is the only thread whose id is the recorded one. -/
theorem concurrent_reports_single_winner (N : Nat) (result_info_new : Nat → ResultInfo)
    (schedule : List Nat) (slot : ResultInfo) (hempty : slot.filled = 0) (hN : 0 < N)
    (hreturned : ∀ i, i < N →
      (run N result_info_new schedule (init slot)).pc i = ProgramCounter.returned) :
    ∃ w, w < N
      ∧ (run N result_info_new schedule (init slot)).slot
          = { filled := 1
              return_value := (result_info_new w).return_value
              signCheckId := (result_info_new w).signCheckId }
      ∧ (run N result_info_new schedule (init slot)).slot.process_errors
          = (result_info_new w).process_errors
      ∧ ((∀ i j, i < N → j < N →
            (result_info_new i).signCheckId = (result_info_new j).signCheckId → i = j) →
          ∀ i, i < N →
            (result_info_new i).signCheckId
              = (run N result_info_new schedule (init slot)).slot.signCheckId → i = w) := by
  have hinv := invariant_run N result_info_new schedule (init slot)
    (Or.inl ⟨hempty, fun _ => rfl⟩)
  rcases hinv with ⟨_, hall⟩ | ⟨w, hw, h1, _, _, _, hdone⟩
  · have h0 := hreturned 0 hN
    rw [hall 0] at h0
    exact absurd h0 (by decide)
  · obtain ⟨hrv, hid⟩ := hdone (hreturned w hw)
    have hslot : (run N result_info_new schedule (init slot)).slot
        = { filled := 1
            return_value := (result_info_new w).return_value
            signCheckId := (result_info_new w).signCheckId } := by
      cases hs : (run N result_info_new schedule (init slot)).slot with
      | mk f rv id =>
        rw [hs] at h1 hrv hid
        simp only at h1 hrv hid
        rw [h1, hrv, hid]
    refine ⟨w, hw, hslot, ?_, ?_⟩
    · rw [hslot]
      rfl
    · intro hdist i hi heq
      rw [hid] at heq
      exact hdist i w hi hw heq

/-- Claim C31 at a concrete execution: three threads report the contour deformation error
with the ids 10, 11 and 12; in the interleaving `1, 0, 1, 2, 1` thread 1 passes the
compare-and-swap first, and the record ends with the id 11. -/
theorem concurrent_reports_single_winner_witness :
    (run 3 (fun i => { filled := 0
                       return_value := ReturnValue.sign_check_error_contour_deformation
                       signCheckId := 10 + (i : Int) })
        [1, 0, 1, 2, 1] (init ResultInfo.zeroed)).slot
      = { filled := 1, return_value := ReturnValue.sign_check_error_contour_deformation,
          signCheckId := 11 } := by
  obtain ⟨w, hw, hslot, _, huniq⟩ := concurrent_reports_single_winner 3
    (fun i => { filled := 0
                return_value := ReturnValue.sign_check_error_contour_deformation
                signCheckId := 10 + (i : Int) })
    [1, 0, 1, 2, 1] ResultInfo.zeroed rfl (by decide)
    (by
      intro i hi
      interval_cases i <;> rfl)
  have h1 : (1 : Nat) = w := huniq
    (by
      intro i j _ _ hij
      simp only at hij
      omega)
    1 (by decide) (by rfl)
  rw [hslot, ← h1]
  rfl

end ConcurrentState

end secdecutil

/-! ## Theorems: summation of a list of integrands (claim C32) -/

namespace secdecutil

namespace IntegrandContainer

variable {T Args : Type}

theorem operator_add_pure [Add T] [Sub T] [Mul T] [Div T] (lhs_first : Bool)
    (A B : IntegrandContainer T Args) (h : Heap) (hA : A.PureValue) (hB : B.PureValue) :
    (operator_add lhs_first A B h).1.PureValue := by
  intro x r1 r2
  obtain ⟨a1, b1⟩ := eval_operands_values lhs_first A B hA hB x r1 r1 r1
  obtain ⟨a2, b2⟩ := eval_operands_values lhs_first A B hA hB x r2 r1 r1
  show (eval_operands lhs_first A B x r1).1 + (eval_operands lhs_first A B x r1).2.1
    = (eval_operands lhs_first A B x r2).1 + (eval_operands lhs_first A B x r2).2.1
  rw [a1, b1, a2, b2]

theorem operator_add_value [Add T] [Sub T] [Mul T] [Div T] (lhs_first : Bool)
    (A B : IntegrandContainer T Args) (h : Heap) (hA : A.PureValue) (hB : B.PureValue)
    (x : Args) (m mA mB : Heap) :
    ((operator_add lhs_first A B h).1.call x m).1 = (A.call x mA).1 + (B.call x mB).1 := by
  obtain ⟨a1, b1⟩ := eval_operands_values lhs_first A B hA hB x
    (m.read (operator_add lhs_first A B h).1.result_info)
    (mA.read A.result_info) (mB.read B.result_info)
  show (eval_operands lhs_first A B x
        (m.read (operator_add lhs_first A B h).1.result_info)).1
      + (eval_operands lhs_first A B x
        (m.read (operator_add lhs_first A B h).1.result_info)).2.1
    = (A.integrand x (mA.read A.result_info)).1 + (B.integrand x (mB.read B.result_info)).1
  rw [a1, b1]

theorem fold_add_assign [Add T] [Sub T] [Mul T] [Div T] (lhs_first : Bool)
    (L : List (IntegrandContainer T Args)) (acc : IntegrandContainer T Args × Heap)
    (hacc : acc.1.PureValue) (hL : ∀ A ∈ L, A.PureValue) :
    (L.foldl (fun acc A => operator_add_assign lhs_first acc.1 A acc.2) acc).1.PureValue
      ∧ (L.foldl (fun acc A => operator_add_assign lhs_first acc.1 A acc.2)
          acc).1.number_of_integration_variables
        = L.foldl (fun d A => max d A.number_of_integration_variables)
            acc.1.number_of_integration_variables
      ∧ ∀ (x : Args) (m m0 mA : Heap),
          ((L.foldl (fun acc A => operator_add_assign lhs_first acc.1 A acc.2) acc).1.call
              x m).1
            = L.foldl (fun v A => v + (A.call x mA).1) (acc.1.call x m0).1 := by
  induction L generalizing acc with
  | nil => exact ⟨hacc, rfl, fun x m m0 _ => hacc x _ _⟩
  | cons A rest ih =>
    have hA : A.PureValue := hL A (List.mem_cons_self A rest)
    have hrest : ∀ B ∈ rest, B.PureValue := fun B hB => hL B (List.mem_cons_of_mem A hB)
    have hstep : (operator_add_assign lhs_first acc.1 A acc.2).1.PureValue :=
      operator_add_pure lhs_first acc.1 A acc.2 hacc hA
    obtain ⟨h1, h2, h3⟩ := ih (operator_add_assign lhs_first acc.1 A acc.2) hstep hrest
    simp only [List.foldl_cons]
    refine ⟨h1, ?_, ?_⟩
    · rw [h2]
      rfl
    · intro x m m0 mA
      rw [h3 x m m0 mA]
      congr 1
      exact operator_add_value lhs_first acc.1 A acc.2 hacc hA x m0 m0 mA

theorem foldl_max_ge_init (L : List (IntegrandContainer T Args)) (d : Int) :
    d ≤ L.foldl (fun d A => max d A.number_of_integration_variables) d := by
  induction L generalizing d with
  | nil => exact le_refl d
  | cons A rest ih => exact le_trans (le_max_left d _) (ih (max d _))

theorem foldl_max_ge_mem (L : List (IntegrandContainer T Args)) (d : Int) :
    ∀ A ∈ L, A.number_of_integration_variables
      ≤ L.foldl (fun d A => max d A.number_of_integration_variables) d := by
  induction L generalizing d with
  | nil => intro A hA; simp at hA
  | cons B rest ih =>
    intro A hA
    rcases List.mem_cons.mp hA with rfl | hmem
    · exact le_trans (le_max_right d _) (foldl_max_ge_init rest _)
    · exact ih _ A hmem

theorem foldl_max_attained (L : List (IntegrandContainer T Args)) (d : Int) :
    L.foldl (fun d A => max d A.number_of_integration_variables) d = d
      ∨ ∃ A ∈ L, L.foldl (fun d A => max d A.number_of_integration_variables) d
          = A.number_of_integration_variables := by
  induction L generalizing d with
  | nil => exact Or.inl rfl
  | cons B rest ih =>
    rcases ih (max d B.number_of_integration_variables) with h | ⟨A, hA, h⟩
    · rcases max_cases d B.number_of_integration_variables with ⟨hm, _⟩ | ⟨hm, _⟩
      · left
        rw [List.foldl_cons, h, hm]
      · right
        exact ⟨B, List.mem_cons_self B rest, by rw [List.foldl_cons, h, hm]⟩
    · right
      exact ⟨A, List.mem_cons_of_mem B hA, h⟩

/-- Claim C32: for every finite list `L` of integrands (whose values do not depend on the error
record), the integrand obtained by adding the integrands of `L` with `+=`, in list order, to
the default-constructed integrand evaluates at every `x` to
`(((T() + A1(x)) + A2(x)) + ...)`, the sum of the `A(x)` taken in list order; its dimension is
`max(... max(max(0, d1), d2) ..., dn)`, which for non-negative dimensions is the largest
dimension in `L`: 0 for the empty list, and otherwise at least every dimension in `L` and equal
to one of them. -/
theorem accumulate_dimension_and_value [Zero T] [Add T] [Sub T] [Mul T] [Div T]
    (lhs_first : Bool) (L : List (IntegrandContainer T Args)) (h : Heap)
    (hpure : ∀ A ∈ L, A.PureValue)
    (hdim : ∀ A ∈ L, 0 ≤ A.number_of_integration_variables) :
    (∀ (x : Args) (m mA : Heap),
        ((accumulate lhs_first L h).1.call x m).1
          = L.foldl (fun v A => v + (A.call x mA).1) 0)
      ∧ (accumulate lhs_first L h).1.number_of_integration_variables
          = L.foldl (fun d A => max d A.number_of_integration_variables) 0
      ∧ (L = [] → (accumulate lhs_first L h).1.number_of_integration_variables = 0)
      ∧ (∀ A ∈ L, A.number_of_integration_variables
          ≤ (accumulate lhs_first L h).1.number_of_integration_variables)
      ∧ (L ≠ [] → ∃ A ∈ L, (accumulate lhs_first L h).1.number_of_integration_variables
          = A.number_of_integration_variables) := by
  have hz : (@new_default T Args _ h).1.PureValue := fun _ _ _ => rfl
  obtain ⟨_, h2, h3⟩ := fold_add_assign lhs_first L (new_default h) hz hpure
  have hn : (accumulate lhs_first L h).1.number_of_integration_variables
      = L.foldl (fun d A => max d A.number_of_integration_variables) 0 := h2
  refine ⟨?_, hn, ?_, ?_, ?_⟩
  · intro x m mA
    exact h3 x m m mA
  · intro hnil
    rw [hn, hnil]
    rfl
  · intro A hA
    rw [hn]
    exact foldl_max_ge_mem L 0 A hA
  · intro hne
    rw [hn]
    rcases foldl_max_attained L 0 with h0 | hex
    · cases L with
      | nil => exact absurd rfl hne
      | cons B rest =>
        refine ⟨B, List.mem_cons_self B rest, ?_⟩
        have hle := foldl_max_ge_mem (B :: rest) 0 B (List.mem_cons_self B rest)
        rw [h0] at hle
        rw [h0]
        exact le_antisymm (hdim B (List.mem_cons_self B rest)) hle
    · exact hex

/-- Claim C32 at a concrete list: the sum of the integrands constantly 3 and constantly 4
(both over 2 variables) and of the integrand constantly 3 once more is over 2 variables and
returns `((0 + 3) + 4) + 3 = 10`. -/
theorem accumulate_dimension_and_value_witness :
    ((accumulate true [Example.three, Example.four, Example.three] Example.heap2).1.call
        (1 / 2, 1 / 3) Example.heap4).1 = 10
      ∧ (accumulate true [Example.three, Example.four, Example.three]
          Example.heap2).1.number_of_integration_variables = 2 := by
  have hw := accumulate_dimension_and_value true
    [Example.three, Example.four, Example.three] Example.heap2
    (by
      intro A hA
      simp only [List.mem_cons, List.mem_singleton, List.not_mem_nil, or_false] at hA
      rcases hA with rfl | rfl | rfl <;> exact fun _ _ _ => rfl)
    (by
      intro A hA
      simp only [List.mem_cons, List.mem_singleton, List.not_mem_nil, or_false] at hA
      rcases hA with rfl | rfl | rfl <;> decide)
  constructor
  · rw [hw.1 (1 / 2, 1 / 3) Example.heap4 Example.heap4]
    show ((0 : ℚ) + 3 + 4) + 3 = 10
    norm_num
  · rw [hw.2.1]
    rfl

end IntegrandContainer

end secdecutil

/-! ## Theorems: a report of kind `no_error` (claim C34) -/

namespace secdecutil

namespace ResultInfo

/-- Claim C34: a report `r` of kind `no_error` on an empty record (`filled = 0`) sets
`filled = 1`; every sequence of later reports, of whatever kind, leaves the record as that
report left it, and `process_errors()` succeeds on it; after `clear_errors()` the next report
is recorded again. -/
theorem no_error_report_latches (s r : ResultInfo) (later : List ResultInfo)
    (hs : s.filled = 0) (hr : r.return_value = ReturnValue.no_error) :
    (s.fill_if_empty_threadsafe r).filled = 1
      ∧ (s.fill_if_empty_threadsafe r).fill_all later = s.fill_if_empty_threadsafe r
      ∧ ((s.fill_if_empty_threadsafe r).fill_all later).process_errors = Except.ok ()
      ∧ ∀ next : ResultInfo,
          ((s.fill_if_empty_threadsafe r).fill_all later).clear_errors.fill_if_empty_threadsafe
              next
            = { filled := 1, return_value := next.return_value,
                signCheckId := next.signCheckId } := by
  have h1 : s.fill_if_empty_threadsafe r
      = { filled := 1, return_value := r.return_value, signCheckId := r.signCheckId } := by
    simp [fill_if_empty_threadsafe, hs]
  have h2 : (s.fill_if_empty_threadsafe r).fill_all later = s.fill_if_empty_threadsafe r :=
    fill_all_of_filled_ne_zero later _ (by rw [h1]; simp)
  refine ⟨by rw [h1], h2, ?_, fun _ => rfl⟩
  rw [h2, process_errors_eq_ok_iff, h1]
  exact hr

/-- Claim C34 at a concrete record: on the fresh record, the report `(no_error, 5)` followed by
the report of the contour deformation error 42 leaves `filled = 1`, kind `no_error` and id 5,
and `process_errors()` succeeds. -/
theorem no_error_report_latches_witness :
    (zeroed.fill_if_empty_threadsafe
        { filled := 0, return_value := ReturnValue.no_error, signCheckId := 5 }).fill_all
        [{ filled := 0, return_value := ReturnValue.sign_check_error_contour_deformation,
           signCheckId := 42 }]
      = { filled := 1, return_value := ReturnValue.no_error, signCheckId := 5 }
      ∧ ((zeroed.fill_if_empty_threadsafe
        { filled := 0, return_value := ReturnValue.no_error, signCheckId := 5 }).fill_all
        [{ filled := 0, return_value := ReturnValue.sign_check_error_contour_deformation,
           signCheckId := 42 }]).process_errors = Except.ok () :=
  ⟨(no_error_report_latches zeroed
      { filled := 0, return_value := ReturnValue.no_error, signCheckId := 5 }
      [{ filled := 0, return_value := ReturnValue.sign_check_error_contour_deformation,
         signCheckId := 42 }] rfl rfl).2.1,
    (no_error_report_latches zeroed
      { filled := 0, return_value := ReturnValue.no_error, signCheckId := 5 }
      [{ filled := 0, return_value := ReturnValue.sign_check_error_contour_deformation,
         signCheckId := 42 }] rfl rfl).2.2.1⟩

end ResultInfo

end secdecutil

/-! ## Theorems: the frame of a composite evaluation (claim C35) -/

namespace secdecutil

namespace IntegrandContainer

variable {T Args : Type}

theorem call_frame {U : Type} (C : IntegrandContainer T Args) (A : IntegrandContainer U Args)
    (hne : A.result_info ≠ C.result_info) (x : Args) (m : Heap) :
    (C.call x m).2.read A.result_info = m.read A.result_info
      ∧ A.process_errors (C.call x m).2 = A.process_errors m := by
  have hr := call_read_other C x m A.result_info hne
  refine ⟨hr, ?_⟩
  simp only [process_errors]
  rw [hr]

/-- Claim C35: let `A`, `B` and the complex-valued `Z` have allocated records, and let `C` be
`A op B` (any of `+ - * /`, either evaluation order), `-A`, `real(Z)` or `imag(Z)`.  For every
`x` and every memory `m`, the evaluation `C(x)` runs the operands' evaluation functions on the
record of `C`: afterwards that record holds what they left there, the record of every operand
is as it was in `m`, and `process_errors()` on an operand gives what it gave before the
evaluation, so an error reported during `C(x)` is not raised by the operand.  For `-A` this
holds whichever object `this_at_call` the closure finds behind `this` at the call, the operand
`A` itself included. -/
theorem composite_evaluation_frame [Add T] [Sub T] [Mul T] [Div T] [Neg T] (op : Operation)
    (lhs_first : Bool) (A B : IntegrandContainer T Args)
    (Z : IntegrandContainer (complex_template T) Args) (this_at_call : IntegrandContainer T Args)
    (h : Heap)
    (hA : A.result_info < h.next) (hB : B.result_info < h.next) (hZ : Z.result_info < h.next)
    (x : Args) (m : Heap) :
    (((binary_operator op lhs_first A B h).1.call x m).2.read
          (binary_operator op lhs_first A B h).1.result_info
        = (eval_operands lhs_first A B x
            (m.read (binary_operator op lhs_first A B h).1.result_info)).2.2
      ∧ ((binary_operator op lhs_first A B h).1.call x m).2.read A.result_info
        = m.read A.result_info
      ∧ ((binary_operator op lhs_first A B h).1.call x m).2.read B.result_info
        = m.read B.result_info
      ∧ A.process_errors ((binary_operator op lhs_first A B h).1.call x m).2
        = A.process_errors m
      ∧ B.process_errors ((binary_operator op lhs_first A B h).1.call x m).2
        = B.process_errors m)
    ∧ (((operator_unary_minus A this_at_call h).1.call x m).2.read
          (operator_unary_minus A this_at_call h).1.result_info
        = (this_at_call.integrand x
            (m.read (operator_unary_minus A this_at_call h).1.result_info)).2
      ∧ ((operator_unary_minus A A h).1.call x m).2.read (operator_unary_minus A A h).1.result_info
        = (A.integrand x (m.read (operator_unary_minus A A h).1.result_info)).2
      ∧ ((operator_unary_minus A this_at_call h).1.call x m).2.read A.result_info
        = m.read A.result_info
      ∧ A.process_errors ((operator_unary_minus A this_at_call h).1.call x m).2
        = A.process_errors m)
    ∧ (((complex_to_real.real Z h).1.call x m).2.read (complex_to_real.real Z h).1.result_info
        = (Z.integrand x (m.read (complex_to_real.real Z h).1.result_info)).2
      ∧ ((complex_to_real.real Z h).1.call x m).2.read Z.result_info = m.read Z.result_info
      ∧ Z.process_errors ((complex_to_real.real Z h).1.call x m).2 = Z.process_errors m)
    ∧ (((complex_to_real.imag Z h).1.call x m).2.read (complex_to_real.imag Z h).1.result_info
        = (Z.integrand x (m.read (complex_to_real.imag Z h).1.result_info)).2
      ∧ ((complex_to_real.imag Z h).1.call x m).2.read Z.result_info = m.read Z.result_info
      ∧ Z.process_errors ((complex_to_real.imag Z h).1.call x m).2 = Z.process_errors m) := by
  have hres := binary_operator_result_info op lhs_first A B h
  have hneA : A.result_info ≠ (binary_operator op lhs_first A B h).1.result_info := by
    rw [hres]
    exact Nat.ne_of_lt hA
  have hneB : B.result_info ≠ (binary_operator op lhs_first A B h).1.result_info := by
    rw [hres]
    exact Nat.ne_of_lt hB
  have hneM : A.result_info ≠ (operator_unary_minus A this_at_call h).1.result_info :=
    Nat.ne_of_lt hA
  have hneR : Z.result_info ≠ (complex_to_real.real Z h).1.result_info := Nat.ne_of_lt hZ
  have hneI : Z.result_info ≠ (complex_to_real.imag Z h).1.result_info := Nat.ne_of_lt hZ
  have hself := call_read_self (binary_operator op lhs_first A B h).1 x m
  rw [binary_operator_integrand] at hself
  refine ⟨⟨hself, (call_frame _ A hneA x m).1, (call_frame _ B hneB x m).1,
      (call_frame _ A hneA x m).2, (call_frame _ B hneB x m).2⟩,
    ⟨?_, ?_, (call_frame _ A hneM x m).1, (call_frame _ A hneM x m).2⟩,
    ⟨?_, (call_frame _ Z hneR x m).1, (call_frame _ Z hneR x m).2⟩,
    ⟨?_, (call_frame _ Z hneI x m).1, (call_frame _ Z hneI x m).2⟩⟩
  · rw [call_read_self]
    rfl
  · rw [call_read_self]
    rfl
  · rw [call_read_self]
    rfl
  · rw [call_read_self]
    rfl

/-- Claim C35 at concrete integrands: `A` constantly 3 at address 0, `B` constantly 4 at
address 1 reporting the contour deformation error 42 at every point, `Z` at address 0,
addresses 0 and 1 allocated.  After the evaluation of `A - B` at `(1/2, 1/3)`, the record of
`A - B` (address 2) holds the error of `B`, and `process_errors()` on `B` succeeds. -/
theorem composite_evaluation_frame_witness :
    Example.three.result_info < Example.heap2.next
      ∧ Example.four_failing.result_info < Example.heap2.next
      ∧ Example.complex_failing.result_info < Example.heap2.next
      ∧ ((binary_operator Operation.subtract true Example.three Example.four_failing
            Example.heap2).1.call (1 / 2, 1 / 3)
          (binary_operator Operation.subtract true Example.three Example.four_failing
            Example.heap2).2).2.read 2
          = { filled := 1, return_value := ReturnValue.sign_check_error_contour_deformation,
              signCheckId := 42 }
      ∧ Example.four_failing.process_errors
          ((binary_operator Operation.subtract true Example.three Example.four_failing
            Example.heap2).1.call (1 / 2, 1 / 3)
          (binary_operator Operation.subtract true Example.three Example.four_failing
            Example.heap2).2).2
          = Except.ok () := by
  have key := (composite_evaluation_frame Operation.subtract true Example.three
    Example.four_failing Example.complex_failing Example.three Example.heap2 (by decide)
    (by decide) (by decide) (1 / 2, 1 / 3)
    (binary_operator Operation.subtract true Example.three Example.four_failing
      Example.heap2).2).1
  refine ⟨by decide, by decide, by decide, ?_, ?_⟩
  · exact key.1.trans rfl
  · exact key.2.2.2.2.trans rfl

end IntegrandContainer

end secdecutil

/-! ## Theorems: the generating vectors id (claim C36) -/

namespace pylink

open secdecutil

variable {D G R L : Type}

theorem SET_COMMON_QMC_ARGS_generatingvectors_table (lib : QmcLibrary D G R L)
    (a : COMMON_ALLOCATE_QMC_ARGS D) (q : Qmc D G R L) :
    (SET_COMMON_QMC_ARGS lib a q).generatingvectors
      = if a.generatingvectors_id = 1 then lib.cbcpt_dn1_100
        else if a.generatingvectors_id = 2 then lib.cbcpt_dn2_6
        else if a.generatingvectors_id = 3 then lib.cbcpt_cfftw1_6
        else if a.generatingvectors_id = 4 then lib.cbcpt_cfftw2_10
        else q.generatingvectors := by
  rw [SET_COMMON_QMC_ARGS_generatingvectors]
  split_ifs <;> first | rfl | omega

/-- Claim C36: with the value of a compiled-in transform as `transform_id` and the value of a
fit function enumerator as `fitfunction_id`, each of the three allocate functions returns an
integrator, whatever integer `generatingvectors_id` is.  Its generating vectors are the table
`cbcpt_dn1_100`, `cbcpt_dn2_6`, `cbcpt_cfftw1_6`, `cbcpt_cfftw2_10` for the ids 1, 2, 3, 4, and
those of the default-constructed integrator for every other id, 0 and the negative ones
included. -/
theorem generatingvectors_id_never_rejected (lib : QmcLibrary D G R L)
    (pylink_qmc_cases : List QmcCase) (a : COMMON_ALLOCATE_QMC_ARGS D)
    (number_of_devices : Nat) (devices : Nat → Int) (t : qmc_transform_t)
    (f : qmc_fitfunction_t) (ht : compiled_in pylink_qmc_cases t)
    (hid : a.transform_id = t.toInt) (hf : a.fitfunction_id = f.toInt) :
    (∃ q, allocate_integrators_Qmc lib pylink_qmc_cases a = Except.ok q
        ∧ q.generatingvectors
          = if a.generatingvectors_id = 1 then lib.cbcpt_dn1_100
            else if a.generatingvectors_id = 2 then lib.cbcpt_dn2_6
            else if a.generatingvectors_id = 3 then lib.cbcpt_cfftw1_6
            else if a.generatingvectors_id = 4 then lib.cbcpt_cfftw2_10
            else (lib.default_constructed t.transform IntegrandType.integrand_t
              f.fitfunction).generatingvectors)
      ∧ (∃ q, allocate_cuda_integrators_Qmc_together lib pylink_qmc_cases a number_of_devices
            devices = Except.ok q
        ∧ q.generatingvectors
          = if a.generatingvectors_id = 1 then lib.cbcpt_dn1_100
            else if a.generatingvectors_id = 2 then lib.cbcpt_dn2_6
            else if a.generatingvectors_id = 3 then lib.cbcpt_cfftw1_6
            else if a.generatingvectors_id = 4 then lib.cbcpt_cfftw2_10
            else (lib.default_constructed t.transform IntegrandType.cuda_together_integrand_t
              f.fitfunction).generatingvectors)
      ∧ ∃ q, allocate_cuda_integrators_Qmc_separate lib pylink_qmc_cases a number_of_devices
            devices = Except.ok q
        ∧ q.generatingvectors
          = if a.generatingvectors_id = 1 then lib.cbcpt_dn1_100
            else if a.generatingvectors_id = 2 then lib.cbcpt_dn2_6
            else if a.generatingvectors_id = 3 then lib.cbcpt_cfftw1_6
            else if a.generatingvectors_id = 4 then lib.cbcpt_cfftw2_10
            else (lib.default_constructed t.transform IntegrandType.cuda_integrand_t
              f.fitfunction).generatingvectors := by
  refine ⟨⟨SET_QMC_ARGS_AND_RETURN lib a
      (new_Qmc lib t.transform IntegrandType.integrand_t f.fitfunction), ?_, ?_⟩,
    ⟨SET_QMC_ARGS_WITH_DEVICES_AND_RETURN lib a number_of_devices devices
      (new_Qmc lib t.transform IntegrandType.cuda_together_integrand_t f.fitfunction),
      ?_, ?_⟩,
    ⟨SET_QMC_ARGS_WITH_DEVICES_AND_RETURN lib a number_of_devices devices
      (new_Qmc lib t.transform IntegrandType.cuda_integrand_t f.fitfunction), ?_, ?_⟩⟩
  · rw [allocate_integrators_Qmc_compiled_in lib pylink_qmc_cases a t ht hid, hf,
      fitfunction_branches_of_enumerator]
  · exact SET_COMMON_QMC_ARGS_generatingvectors_table lib a _
  · rw [allocate_cuda_integrators_Qmc_together_compiled_in lib pylink_qmc_cases a
      number_of_devices devices t ht hid, hf, fitfunction_branches_of_enumerator]
  · rw [SET_QMC_ARGS_WITH_DEVICES_AND_RETURN_generatingvectors]
    exact SET_COMMON_QMC_ARGS_generatingvectors_table lib a _
  · rw [allocate_cuda_integrators_Qmc_separate_compiled_in lib pylink_qmc_cases a
      number_of_devices devices t ht hid, hf, fitfunction_branches_of_enumerator]
  · rw [SET_QMC_ARGS_WITH_DEVICES_AND_RETURN_generatingvectors]
    exact SET_COMMON_QMC_ARGS_generatingvectors_table lib a _

/-- Claim C36 at concrete calls of a library instance whose default generating vectors are
`cbcpt_dn1_100`: with `transform_id = baker` and `fitfunction_id = 0`, the id -7 returns an
integrator with the default generating vectors and the id 3 returns one with
`cbcpt_cfftw1_6`. -/
theorem generatingvectors_id_never_rejected_witness :
    (∃ q, allocate_integrators_Qmc Example.lib [] (Example.args (-2) 0 (-7)) = Except.ok q
        ∧ q.generatingvectors = "cbcpt_dn1_100")
      ∧ ∃ q, allocate_integrators_Qmc Example.lib [] (Example.args (-2) 0 3) = Except.ok q
        ∧ q.generatingvectors = "cbcpt_cfftw1_6" := by
  obtain ⟨q, h1, h2⟩ := (generatingvectors_id_never_rejected Example.lib []
    (Example.args (-2) 0 (-7)) 0 Example.devices qmc_transform_t.baker
    qmc_fitfunction_t.default_fitfunction (Or.inr (Or.inl rfl)) rfl rfl).1
  obtain ⟨q3, h3, h4⟩ := (generatingvectors_id_never_rejected Example.lib []
    (Example.args (-2) 0 3) 0 Example.devices qmc_transform_t.baker
    qmc_fitfunction_t.default_fitfunction (Or.inr (Or.inl rfl)) rfl rfl).1
  exact ⟨⟨q, h1, h2.trans rfl⟩, ⟨q3, h3, h4.trans rfl⟩⟩

end pylink
